import Mathlib

/-!
# Attendance engine of backend-absen: embedding and verified properties

Modelling conventions.

* An instant (a JavaScript `Date`) is its time value: integer milliseconds since the epoch (`Int`).
* Local time is a fixed offset `tz` (milliseconds east of UTC) from UTC, so every local calendar
  day lasts `msPerDay` milliseconds (no daylight-saving transitions).
* A JavaScript `Number` holding a coordinate, a radius or a distance is a real number; the
  rounding error of IEEE-754 arithmetic is not modelled there. `Math.round x` is `⌊x + 1/2⌋`.
* The two Haversine functions are also given in Number arithmetic (`calculateDistanceNumber`,
  `getDistanceFromNumber`), every operation rounded by `toDouble` and NaN as `none`, with the
  host's `Math.sin`, `Math.cos`, `Math.sqrt` and `Math.atan2` as a parameter.
* The average work hours and the attendance rate are computed in Number arithmetic: `toDouble`
  rounds the exact result of an operation to the nearest IEEE-754 double.
* A Date built from a year, month and day is an Invalid Date (`none`) when its time value is
  more than 8.64e15 ms from the epoch (`timeClip`).
* A collection is the list of its documents in insertion order; the `_id` of a document is its
  position in the list. `findOne` returns the first match.
-/

namespace Absen

/-! ## utils/dateHelper.js -/

/-- Milliseconds in one local calendar day. -/
def msPerDay : Int := 86400000

/-- Local wall-clock milliseconds elapsed since local midnight of the day of `t`. -/
def msOfDay (tz t : Int) : Int := (t + tz) % msPerDay

/-- The time value after `date.setHours(h, m, s, ms)`: same local calendar day as `t`, with the
local time of day replaced. -/
def setHours (tz t h m s ms : Int) : Int :=
  t - msOfDay tz t + (h * 3600000 + m * 60000 + s * 1000 + ms)

/-- The idiom `d.setHours(0, 0, 0, 0)`: local midnight of the day of `t`. -/
def startOfDay (tz t : Int) : Int := setHours tz t 0 0 0 0

/-- The function `isLate` of dateHelper.js:
`workStartTime = new Date(clockInTime); workStartTime.setHours(8, 0, 0, 0);
return clockInTime > workStartTime`. -/
def isLate (tz clockInTime : Int) : Bool :=
  let workStartTime := setHours tz clockInTime 8 0 0 0
  decide (clockInTime > workStartTime)

/-- Values of the `status` path of the Presence schema: `enum: ['ontime', 'late']`. -/
inductive AttendanceStatus where
  | ontime
  | late
  deriving DecidableEq, Repr

/-- The function `calculateAttendanceStatus` of attendanceHelper.js:
`isLate(clockInTime) ? 'late' : 'ontime'`. -/
def calculateAttendanceStatus (tz clockInTime : Int) : AttendanceStatus :=
  if isLate tz clockInTime then AttendanceStatus.late else AttendanceStatus.ontime

/-- The function `calculateWorkDuration` of dateHelper.js: 0 when either instant is missing,
otherwise `Math.round((clockOut - clockIn) / (1000 * 60))`. -/
def calculateWorkDuration (clockIn clockOut : Option Int) : Int :=
  match clockIn, clockOut with
  | some i, some o =>
    let duration : Int := o - i
    ⌊(duration : ℚ) / (1000 * 60) + 1 / 2⌋
  | _, _ => 0

/-- The function `formatDuration` of dateHelper.js; `none` is a missing argument. -/
def formatDuration (minutes : Option Int) : String :=
  match minutes with
  | none => "0m"
  | some m =>
    if m = 0 ∨ m < 0 then "0m"
    else
      let hours := m / 60
      let remainingMinutes := m % 60
      if hours = 0 then toString remainingMinutes ++ "m"
      else if remainingMinutes = 0 then toString hours ++ "h"
      else toString hours ++ "h " ++ toString remainingMinutes ++ "m"

/-! ## utils/locationHelper.js and models/OfficeLocation.js -/

/-- The function `Math.atan2(y, x)`: the angle of the point `(x, y)`, in `(-π, π]`. -/
noncomputable def atan2 (y x : ℝ) : ℝ := Complex.arg ⟨x, y⟩

/-- The function `Math.round`: nearest integer, halves rounded up. -/
noncomputable def mathRound (x : ℝ) : Int := ⌊x + 1 / 2⌋

/-- The function `toRadians` of locationHelper.js. -/
noncomputable def toRadians (degrees : ℝ) : ℝ := degrees * (Real.pi / 180)

/-- The function `calculateDistance` of locationHelper.js (Haversine, rounded to metres). -/
noncomputable def calculateDistance (lat1 lon1 lat2 lon2 : ℝ) : Int :=
  let R : ℝ := 6371000
  let dLat := toRadians (lat2 - lat1)
  let dLon := toRadians (lon2 - lon1)
  let a :=
    Real.sin (dLat / 2) * Real.sin (dLat / 2) +
      Real.cos (toRadians lat1) * Real.cos (toRadians lat2) *
        Real.sin (dLon / 2) * Real.sin (dLon / 2)
  let c := 2 * atan2 (Real.sqrt a) (Real.sqrt (1 - a))
  let distance := R * c
  mathRound distance

/-- The function `isWithinRadius` of locationHelper.js: compares the rounded distance of
`calculateDistance` with the radius. -/
noncomputable def isWithinRadius (userLat userLng officeLat officeLng radius : ℝ) : Bool :=
  let distance := calculateDistance userLat userLng officeLat officeLng
  decide ((distance : ℝ) ≤ radius)

/-- A document of the OfficeLocation collection. -/
structure OfficeLocation where
  name : String
  lat : ℝ
  lng : ℝ
  radius : ℝ

/-- The method `isWithinRadius` of the OfficeLocation model: compares the unrounded Haversine
distance with the radius. -/
noncomputable def OfficeLocation.isWithinRadius (this : OfficeLocation) (userLat userLng : ℝ) :
    Bool :=
  let R : ℝ := 6371000
  let dLat := ((userLat - this.lat) * Real.pi) / 180
  let dLng := ((userLng - this.lng) * Real.pi) / 180
  let a :=
    Real.sin (dLat / 2) * Real.sin (dLat / 2) +
      Real.cos ((this.lat * Real.pi) / 180) *
        Real.cos ((userLat * Real.pi) / 180) *
        Real.sin (dLng / 2) *
        Real.sin (dLng / 2)
  let c := 2 * atan2 (Real.sqrt a) (Real.sqrt (1 - a))
  let distance := R * c
  decide (distance ≤ this.radius)

/-- The method `getDistanceFrom` of the OfficeLocation model: the rounded Haversine distance. -/
noncomputable def OfficeLocation.getDistanceFrom (this : OfficeLocation) (userLat userLng : ℝ) :
    Int :=
  let R : ℝ := 6371000
  let dLat := ((userLat - this.lat) * Real.pi) / 180
  let dLng := ((userLng - this.lng) * Real.pi) / 180
  let a :=
    Real.sin (dLat / 2) * Real.sin (dLat / 2) +
      Real.cos ((this.lat * Real.pi) / 180) *
        Real.cos ((userLat * Real.pi) / 180) *
        Real.sin (dLng / 2) *
        Real.sin (dLng / 2)
  let c := 2 * atan2 (Real.sqrt a) (Real.sqrt (1 - a))
  let distance := R * c
  mathRound distance

/-! ## models/Presence.js and models/Notification.js -/

/-- A latitude/longitude pair as submitted in a request body and stored in `location_in`. -/
structure Coordinates where
  lat : ℝ
  lng : ℝ

/-- The `location_out` sub-document: both paths default to `null`. -/
structure NullableCoordinates where
  lat : Option ℝ
  lng : Option ℝ

/-- A document of the Presence collection (the declared paths of `presenceSchema`). A `Date`
path that may be `null` or absent is an `Option`. -/
structure Presence where
  user : Nat
  date : Int
  clock_in : Option Int
  clock_out : Option Int
  location_in : Coordinates
  location_out : NullableCoordinates
  status : AttendanceStatus

/-- The virtual `workDuration` of the Presence schema:
`Math.round((this.clock_out - this.clock_in) / (1000 * 60))` when both instants are present,
otherwise `null`. -/
def Presence.workDuration (this : Presence) : Option Int :=
  match this.clock_in, this.clock_out with
  | some i, some o => some ⌊((o - i : Int) : ℚ) / (1000 * 60) + 1 / 2⌋
  | _, _ => none

/-- The `data` payload the presence controller attaches to a notification. -/
structure NotificationData where
  presenceId : Nat
  clockInTime : Option Int
  clockOutTime : Option Int
  status : Option AttendanceStatus
  workDuration : Option Int
  location : Coordinates

/-- A document of the Notification collection, as built by `createNotification`. -/
structure Notification where
  user : Nat
  title : String
  message : String
  type : String
  priority : String
  data : NotificationData

/-- The persistent collections the presence controller reads and writes. -/
structure Db where
  presences : List Presence
  notifications : List Notification
  officeLocations : List OfficeLocation

/-- What the handler depends on besides the database and the clock: the locale formatting of
`dateHelper.formatTime` (an `Intl.DateTimeFormat` call) and whether the notification sink
rejects (`some message` carries the error message of the rejection). -/
structure Env where
  formatTime : Int → String
  notificationError : Option String

/-- The JSON response of a handler: `res.status(status).json(success, message, data)`. For the
presence handlers `data.presence` is a projection of one Presence document, kept here as its
`_id` and the document. -/
structure Response where
  status : Nat
  success : Bool
  message : String
  data : Option (Nat × Presence)

/-- How a handler wrapped in `asyncHandler` ends: it sends a response, or an awaited promise
rejects and the error is handed to the framework. -/
inductive Outcome where
  | sent (res : Response)
  | thrown (message : String)

/-- The handler answered with a success envelope (`success: true`). -/
def Outcome.succeeded : Outcome → Bool
  | Outcome.sent res => res.success
  | Outcome.thrown _ => false

/-- First document, with its position, that satisfies `p`, scanning from position `i`. -/
def findOneFrom (p : Presence → Bool) : Nat → List Presence → Option (Nat × Presence)
  | _, [] => none
  | i, r :: rs => if p r then some (i, r) else findOneFrom p (i + 1) rs

/-- The query `Presence.findOne(user: userId, date: ($gte: gte, $lt: lt))`. -/
def Presence.findOne (coll : List Presence) (userId : Nat) (gte lt : Int) :
    Option (Nat × Presence) :=
  findOneFrom (fun r => decide (r.user = userId) && decide (gte ≤ r.date) && decide (r.date < lt))
    0 coll

/-! ## controllers/presenceController.js -/

/-- The handler `clockIn`. `t0`, `t1`, `t2` are the readings of its three `new Date()` calls
(`today`, `clockInTime`, `workStartTime`), in program order. -/
noncomputable def clockIn (tz : Int) (env : Env) (db : Db) (userId : Nat) (lat lng : ℝ)
    (t0 t1 t2 : Int) : Outcome × Db :=
  let today := setHours tz t0 0 0 0 0
  let tomorrow := today + msPerDay
  match Presence.findOne db.presences userId today tomorrow with
  | some _ =>
    (Outcome.sent ⟨400, false, "Anda sudah melakukan clock in hari ini", none⟩, db)
  | none =>
    match db.officeLocations.head? with
    | none =>
      (Outcome.sent ⟨400, false, "Lokasi kantor belum dikonfigurasi", none⟩, db)
    | some officeLocation =>
      let isWithinRadius := officeLocation.isWithinRadius lat lng
      if !isWithinRadius then
        let distance := officeLocation.getDistanceFrom lat lng
        (Outcome.sent ⟨400, false,
          "Anda berada di luar radius kantor (" ++ toString distance ++ "m dari kantor)",
          none⟩, db)
      else
        let clockInTime := t1
        let workStartTime := setHours tz t2 8 0 0 0
        let status :=
          if clockInTime > workStartTime then AttendanceStatus.late else AttendanceStatus.ontime
        let presence : Presence :=
          { user := userId, date := today, clock_in := some clockInTime, clock_out := none,
            location_in := ⟨lat, lng⟩, location_out := ⟨none, none⟩, status := status }
        let presenceId := db.presences.length
        let db1 : Db := { db with presences := db.presences ++ [presence] }
        let notificationTitle :=
          if status = AttendanceStatus.late then "Clock In Terlambat" else "Clock In Berhasil"
        let notificationMessage :=
          if status = AttendanceStatus.late then
            "Anda melakukan clock in terlambat pada " ++ env.formatTime clockInTime ++
              ". Harap lebih memperhatikan waktu kedatangan."
          else
            "Anda berhasil melakukan clock in pada " ++ env.formatTime clockInTime ++
              ". Selamat bekerja!"
        match env.notificationError with
        | some err => (Outcome.thrown err, db1)
        | none =>
          let notif : Notification :=
            { user := userId, title := notificationTitle, message := notificationMessage,
              type := "attendance",
              priority := if status = AttendanceStatus.late then "high" else "medium",
              data := ⟨presenceId, some clockInTime, none, some status, none, ⟨lat, lng⟩⟩ }
          let db2 : Db := { db1 with notifications := db1.notifications ++ [notif] }
          (Outcome.sent ⟨201, true, "Clock in berhasil", some (presenceId, presence)⟩, db2)

/-- The handler `clockOut`. `t0`, `t1` are the readings of its two `new Date()` calls (`today`
and the stored `clock_out`), in program order. -/
noncomputable def clockOut (tz : Int) (env : Env) (db : Db) (userId : Nat) (lat lng : ℝ)
    (t0 t1 : Int) : Outcome × Db :=
  let today := setHours tz t0 0 0 0 0
  let tomorrow := today + msPerDay
  match Presence.findOne db.presences userId today tomorrow with
  | none =>
    (Outcome.sent ⟨400, false, "Anda belum melakukan clock in hari ini", none⟩, db)
  | some (presenceId, presence) =>
    if presence.clock_out.isSome then
      (Outcome.sent ⟨400, false, "Anda sudah melakukan clock out hari ini", none⟩, db)
    else
      match db.officeLocations.head? with
      | none =>
        (Outcome.sent ⟨400, false, "Lokasi kantor belum dikonfigurasi", none⟩, db)
      | some officeLocation =>
        let isWithinRadius := officeLocation.isWithinRadius lat lng
        if !isWithinRadius then
          let distance := officeLocation.getDistanceFrom lat lng
          (Outcome.sent ⟨400, false,
            "Anda berada di luar radius kantor (" ++ toString distance ++ "m dari kantor)",
            none⟩, db)
        else
          let saved : Presence :=
            { presence with clock_out := some t1, location_out := ⟨some lat, some lng⟩ }
          let db1 : Db := { db with presences := db.presences.set presenceId saved }
          let workDuration := calculateWorkDuration saved.clock_in saved.clock_out
          match env.notificationError with
          | some err => (Outcome.thrown err, db1)
          | none =>
            let notif : Notification :=
              { user := userId, title := "Clock Out Berhasil",
                message := "Anda berhasil melakukan clock out pada " ++
                  env.formatTime t1 ++ ". Total waktu kerja: " ++
                  formatDuration (some workDuration) ++ ".",
                type := "attendance", priority := "medium",
                data := ⟨presenceId, none, some t1, none, some workDuration, ⟨lat, lng⟩⟩ }
            let db2 : Db := { db1 with notifications := db1.notifications ++ [notif] }
            (Outcome.sent ⟨200, true, "Clock out berhasil", some (presenceId, saved)⟩, db2)

/-- One request served by the presence controller. The state is the database together with the
last clock reading; every clock reading of a request is at or after the previous one. -/
inductive Step (tz : Int) : Db × Int → Db × Int → Prop where
  | clockIn (env : Env) (db : Db) (clock : Int) (userId : Nat) (lat lng : ℝ) (t0 t1 t2 : Int)
      (h0 : clock ≤ t0) (h1 : t0 ≤ t1) (h2 : t1 ≤ t2) :
      Step tz (db, clock) ((clockIn tz env db userId lat lng t0 t1 t2).2, t2)
  | clockOut (env : Env) (db : Db) (clock : Int) (userId : Nat) (lat lng : ℝ) (t0 t1 : Int)
      (h0 : clock ≤ t0) (h1 : t0 ≤ t1) :
      Step tz (db, clock) ((clockOut tz env db userId lat lng t0 t1).2, t1)

/-- States reachable from `s` by serving requests one after another. -/
def Reachable (tz : Int) (s s' : Db × Int) : Prop := Relation.ReflTransGen (Step tz) s s'

/-- At most one presence record per (user, local calendar day of `date`). -/
def UniquePerDay (tz : Int) (l : List Presence) : Prop :=
  l.Pairwise (fun a b => ¬ (a.user = b.user ∧ startOfDay tz a.date = startOfDay tz b.date))

/-! ## models/User.js, models/RefreshToken.js, models/PasswordReset.js -/

/-- Values of the `role` path of the User schema: `enum: ['admin', 'karyawan']`. -/
inductive Role where
  | admin
  | karyawan
  deriving DecidableEq, Repr

/-- A document of the User collection; `password` is the stored hash. -/
structure User where
  name : String
  email : String
  password : String
  role : Role
  deriving DecidableEq, Repr

/-- The method `generatePasswordResetCode` of the User model:
`Math.floor(100000 + Math.random() * 900000).toString()`, with `r` the value drawn by
`Math.random()`. -/
def generatePasswordResetCode (r : ℚ) : String :=
  toString ⌊100000 + r * 900000⌋

/-- The rule of `resetPasswordSchema` for `resetCode`:
`Joi.string().length(6).pattern(/^[0-9]+$/)`. -/
def resetCodeRule (s : String) : Bool :=
  decide (s.length = 6) && (!s.data.isEmpty && s.data.all Char.isDigit)

/-- The `deviceInfo` sub-document of a refresh token. -/
structure DeviceInfo where
  userAgent : Option String
  ip : Option String
  deviceType : String
  deriving DecidableEq, Repr

/-- A document of the RefreshToken collection. -/
structure RefreshToken where
  user : Nat
  token : String
  expires : Int
  isActive : Bool
  deviceInfo : DeviceInfo
  deriving DecidableEq, Repr

/-- The method `isValid` of the RefreshToken model: `this.isActive && this.expires > new Date()`,
with `now` the reading of `new Date()`. -/
def RefreshToken.isValid (this : RefreshToken) (now : Int) : Bool :=
  this.isActive && decide (this.expires > now)

/-- A document of the PasswordReset collection. -/
structure PasswordReset where
  user : Nat
  email : String
  resetCode : String
  expires : Int
  isUsed : Bool
  ipAddress : Option String
  userAgent : Option String
  deriving DecidableEq, Repr

/-- The method `isValid` of the PasswordReset model: `!this.isUsed && this.expires > new Date()`,
with `now` the reading of `new Date()`. -/
def PasswordReset.isValid (this : PasswordReset) (now : Int) : Bool :=
  !this.isUsed && decide (this.expires > now)

/-- The method `markAsUsed` of the PasswordReset model: the document that `save()` writes. -/
def PasswordReset.markAsUsed (this : PasswordReset) : PasswordReset :=
  { this with isUsed := true }

/-- A notification created by the auth controller; `resetCode` is the `data.resetCode` payload
of the forgot-password notifications. -/
structure AuthNotification where
  user : Nat
  title : String
  message : String
  type : String
  priority : String
  resetCode : Option String
  deriving DecidableEq, Repr

/-- The collections the auth controller reads and writes. The `_id` of a document is its
position in the list. -/
structure AuthDb where
  users : List User
  refreshTokens : List RefreshToken
  passwordResets : List PasswordReset
  notifications : List AuthNotification

/-- What one request of the auth controller gets from outside the repository: the results of
the bcrypt and jsonwebtoken calls it makes, the locale formatting of a date, and whether the
email service and the notification sink reject. `verifyRefreshToken token` is `none` when
`jwt.verify` throws (bad signature or expired token) and the decoded user id otherwise. -/
structure AuthEnv where
  comparePassword : String → String → Bool
  hashPassword : String → String
  signAccessToken : Nat → Role → String
  signRefreshToken : Nat → Role → String
  verifyRefreshToken : String → Option Nat
  toLocaleString : Int → String
  emailError : Bool
  notificationError : Option String

/-- The `data.user` object of the register and login responses. -/
structure UserView where
  id : Nat
  name : String
  email : String
  role : Role
  deriving DecidableEq, Repr

/-- A response of the auth controller: status, envelope, the `data` fields it may carry, the
cookies set with `res.cookie` and the cookies removed with `res.clearCookie`. -/
structure AuthResponse where
  status : Nat
  success : Bool
  message : String
  user : Option UserView
  accessToken : Option String
  refreshToken : Option String
  cookies : List (String × String)
  clearedCookies : List String
  deriving DecidableEq, Repr

/-- How an auth handler wrapped in `asyncHandler` ends. -/
inductive AuthOutcome where
  | sent (res : AuthResponse)
  | thrown (message : String)
  deriving DecidableEq, Repr

/-- The handler answered with a success envelope (`success: true`). -/
def AuthOutcome.succeeded : AuthOutcome → Bool
  | AuthOutcome.sent res => res.success
  | AuthOutcome.thrown _ => false

/-- First document, with its position, that satisfies `p`, scanning from position `i`: the
query `findOne` on a collection. -/
def findDocFrom {α : Type} (p : α → Bool) : Nat → List α → Option (Nat × α)
  | _, [] => none
  | i, r :: rs => if p r then some (i, r) else findDocFrom p (i + 1) rs

/-- The update `RefreshToken.updateMany(filter, (isActive: false))`. -/
def deactivateWhere (filter : RefreshToken → Bool) (coll : List RefreshToken) :
    List RefreshToken :=
  coll.map (fun r => if filter r then { r with isActive := false } else r)

/-- The call `RefreshToken.create(doc)`: the `token` path has a unique index, so the insert is
refused (`none`) when a stored document already has that token. -/
def RefreshToken.create (coll : List RefreshToken) (doc : RefreshToken) :
    Option (List RefreshToken) :=
  if coll.any (fun r => r.token == doc.token) then none else some (coll ++ [doc])

/-- The assignment `user.password = newPassword` followed by `user.save()`: the pre-save hook
hashes the password when the path was modified. -/
def User.savePassword (env : AuthEnv) (user : User) (newPassword : String) : User :=
  if newPassword = user.password then user
  else { user with password := env.hashPassword newPassword }

/-! ## controllers/authController.js -/

/-- The device fields of a request: `req.headers['user-agent']`, `req.ip`, `req.device?.type`. -/
structure RequestDevice where
  userAgent : Option String
  ip : Option String
  deviceType : Option String

/-- The handler `login`. `t0` is the reading of `Date.now()` for `expires`, `t1` the reading of
`new Date()` in the notification message. -/
def login (env : AuthEnv) (db : AuthDb) (email password : String) (device : RequestDevice)
    (t0 t1 : Int) : AuthOutcome × AuthDb :=
  match findDocFrom (fun u : User => u.email == email) 0 db.users with
  | none =>
    (AuthOutcome.sent ⟨401, false, "Email atau password salah", none, none, none, [], []⟩, db)
  | some (userId, user) =>
    let isPasswordMatch := env.comparePassword password user.password
    if !isPasswordMatch then
      (AuthOutcome.sent ⟨401, false, "Email atau password salah", none, none, none, [], []⟩,
        db)
    else
      let db1 : AuthDb :=
        { db with refreshTokens :=
            deactivateWhere (fun r => r.user == userId && r.isActive) db.refreshTokens }
      let accessToken := env.signAccessToken userId user.role
      let refreshToken := env.signRefreshToken userId user.role
      let doc : RefreshToken :=
        { user := userId, token := refreshToken,
          expires := t0 + 7 * 24 * 60 * 60 * 1000, isActive := true,
          deviceInfo := ⟨device.userAgent, device.ip,
            match device.deviceType with
            | some d => if d = "" then "unknown" else d
            | none => "unknown"⟩ }
      match RefreshToken.create db1.refreshTokens doc with
      | none => (AuthOutcome.thrown "E11000 duplicate key error", db1)
      | some tokens =>
        let db2 : AuthDb := { db1 with refreshTokens := tokens }
        match env.notificationError with
        | some err => (AuthOutcome.thrown err, db2)
        | none =>
          let db3 : AuthDb :=
            { db2 with notifications := db2.notifications ++
                [⟨userId, "Login Berhasil",
                  "Anda berhasil login pada " ++ env.toLocaleString t1, "info", "low",
                  none⟩] }
          (AuthOutcome.sent ⟨200, true, "Login berhasil",
            some ⟨userId, user.name, user.email, user.role⟩, some accessToken,
            some refreshToken,
            [("accessToken", accessToken), ("refreshToken", refreshToken)], []⟩, db3)

/-- The handler `refresh`. `cookie` is `req.cookies.refreshToken`; `now` is the reading of
`new Date()` in `tokenRecord.isValid()`. -/
def refresh (env : AuthEnv) (db : AuthDb) (cookie : Option String) (now : Int) :
    AuthOutcome × AuthDb :=
  match cookie with
  | none =>
    (AuthOutcome.sent ⟨401, false, "Refresh token tidak ditemukan", none, none, none, [], []⟩,
      db)
  | some refreshToken =>
    if refreshToken = "" then
      (AuthOutcome.sent ⟨401, false, "Refresh token tidak ditemukan", none, none, none, [],
        []⟩, db)
    else
      match env.verifyRefreshToken refreshToken with
      | none =>
        (AuthOutcome.sent ⟨401, false, "Refresh token tidak valid", none, none, none, [], []⟩,
          db)
      | some decodedId =>
        match findDocFrom
            (fun r : RefreshToken =>
              r.token == refreshToken && r.user == decodedId && r.isActive)
            0 db.refreshTokens with
        | none =>
          (AuthOutcome.sent ⟨401, false, "Refresh token tidak valid", none, none, none, [],
            []⟩, db)
        | some (_, tokenRecord) =>
          if !tokenRecord.isValid now then
            (AuthOutcome.sent ⟨401, false, "Refresh token tidak valid", none, none, none, [],
              []⟩, db)
          else
            match db.users[decodedId]? with
            | none =>
              (AuthOutcome.sent ⟨401, false, "User tidak ditemukan", none, none, none, [],
                []⟩, db)
            | some user =>
              let newAccessToken := env.signAccessToken decodedId user.role
              (AuthOutcome.sent ⟨200, true, "Token berhasil diperbarui", none,
                some newAccessToken, none, [("accessToken", newAccessToken)], []⟩, db)

/-- The handler `logoutAll`; `userId` is `req.user.id`, set by the `authenticate` middleware. -/
def logoutAll (db : AuthDb) (userId : Nat) : AuthOutcome × AuthDb :=
  (AuthOutcome.sent ⟨200, true, "Logout dari semua perangkat berhasil", none, none, none, [],
      ["accessToken", "refreshToken"]⟩,
    { db with refreshTokens :=
        deactivateWhere (fun r => r.user == userId && r.isActive) db.refreshTokens })

/-- The handler `forgotPassword`. `r` is the value drawn by `Math.random()`, `t0` the reading
of `Date.now()` in the default of `expires`. -/
def forgotPassword (env : AuthEnv) (db : AuthDb) (email : String) (ip userAgent : Option String)
    (r : ℚ) (t0 : Int) : AuthOutcome × AuthDb :=
  match findDocFrom (fun u : User => u.email == email) 0 db.users with
  | none =>
    (AuthOutcome.sent ⟨404, false, "Email tidak ditemukan", none, none, none, [], []⟩, db)
  | some (userId, user) =>
    let resetCode := generatePasswordResetCode r
    let db1 : AuthDb :=
      { db with passwordResets := db.passwordResets ++
          [⟨userId, user.email, resetCode, t0 + 15 * 60 * 1000, false, ip, userAgent⟩] }
    match env.notificationError with
    | some err => (AuthOutcome.thrown err, db1)
    | none =>
      if env.emailError then
        (AuthOutcome.sent ⟨200, true,
          "Kode reset password telah dikirim melalui notifikasi. Silakan cek notifikasi Anda.",
          none, none, none, [], []⟩,
          { db1 with notifications := db1.notifications ++
              [⟨userId, "Kode Reset Password",
                "Kode reset password Anda: " ++ resetCode ++ ". Kode berlaku selama 15 menit.",
                "system", "high", some resetCode⟩] })
      else
        (AuthOutcome.sent ⟨200, true,
          "Kode reset password telah dikirim ke email Anda. Silakan cek email dan folder spam.",
          none, none, none, [], []⟩,
          { db1 with notifications := db1.notifications ++
              [⟨userId, "Kode Reset Password Dikirim",
                "Kode reset password telah dikirim ke email " ++ user.email ++
                  ". Silakan cek email Anda.",
                "system", "high", some resetCode⟩] })

/-- The handler `resetPassword`. `now` is the reading of `new Date()` in
`resetRecord.isValid()`. -/
def resetPassword (env : AuthEnv) (db : AuthDb) (email resetCode newPassword : String)
    (now : Int) : AuthOutcome × AuthDb :=
  match findDocFrom
      (fun p : PasswordReset => p.email == email && p.resetCode == resetCode && !p.isUsed)
      0 db.passwordResets with
  | none =>
    (AuthOutcome.sent ⟨400, false, "Kode reset tidak valid atau sudah kadaluarsa", none, none,
      none, [], []⟩, db)
  | some (resetId, resetRecord) =>
    if !resetRecord.isValid now then
      (AuthOutcome.sent ⟨400, false, "Kode reset tidak valid atau sudah kadaluarsa", none,
        none, none, [], []⟩, db)
    else
      match db.users[resetRecord.user]? with
      | none =>
        (AuthOutcome.sent ⟨404, false, "User tidak ditemukan", none, none, none, [], []⟩, db)
      | some user =>
        let userId := resetRecord.user
        let db1 : AuthDb :=
          { db with
            users := db.users.set userId (User.savePassword env user newPassword),
            passwordResets := db.passwordResets.set resetId resetRecord.markAsUsed,
            refreshTokens :=
              deactivateWhere (fun r => r.user == userId && r.isActive) db.refreshTokens }
        match env.notificationError with
        | some err => (AuthOutcome.thrown err, db1)
        | none =>
          (AuthOutcome.sent ⟨200, true,
            "Password berhasil direset. Silakan login dengan password baru.", none, none,
            none, [], []⟩,
            { db1 with notifications := db1.notifications ++
                [⟨userId, "Password Berhasil Direset",
                  "Password Anda telah berhasil direset. Jika ini bukan Anda, segera hubungi admin.",
                  "system", "high", none⟩] })

/-- The handler `changePassword`; `userId` is `req.user.id`, `cookie` is
`req.cookies.refreshToken`. A missing cookie makes the filter `token: ($ne: undefined)`, which
every stored token satisfies. -/
def changePassword (env : AuthEnv) (db : AuthDb) (userId : Nat)
    (currentPassword newPassword : String) (cookie : Option String) : AuthOutcome × AuthDb :=
  match db.users[userId]? with
  | none =>
    (AuthOutcome.thrown "Cannot read properties of null (reading 'comparePassword')", db)
  | some user =>
    let isPasswordMatch := env.comparePassword currentPassword user.password
    if !isPasswordMatch then
      (AuthOutcome.sent ⟨400, false, "Password saat ini salah", none, none, none, [], []⟩, db)
    else
      let currentRefreshToken := cookie
      let db1 : AuthDb :=
        { db with
          users := db.users.set userId (User.savePassword env user newPassword),
          refreshTokens :=
            deactivateWhere
              (fun r => r.user == userId && r.isActive &&
                decide (some r.token ≠ currentRefreshToken))
              db.refreshTokens }
      match env.notificationError with
      | some err => (AuthOutcome.thrown err, db1)
      | none =>
        (AuthOutcome.sent ⟨200, true, "Password berhasil diubah", none, none, none, [], []⟩,
          { db1 with notifications := db1.notifications ++
              [⟨userId, "Password Berhasil Diubah",
                "Password Anda telah berhasil diubah. Jika ini bukan Anda, segera hubungi admin.",
                "system", "medium", none⟩] })

/-- The presented refresh token fails one of the checks of `refresh`: `jwt.verify` throws (bad
signature or expired token), or no stored record that matches the token and the decoded user
and is active has `expires` after `now` (no matching record, matching record inactive, or
matching record past its `expires`). -/
def RefreshCheckFails (env : AuthEnv) (db : AuthDb) (token : String) (now : Int) : Prop :=
  env.verifyRefreshToken token = none ∨
  ∃ id, env.verifyRefreshToken token = some id ∧
    ∀ r ∈ db.refreshTokens, r.token = token → r.user = id → r.isActive = true →
      r.expires ≤ now

/-- One request served by the auth controller. -/
inductive AuthStep : AuthDb → AuthDb → Prop where
  | login (env : AuthEnv) (db : AuthDb) (email password : String) (device : RequestDevice)
      (t0 t1 : Int) : AuthStep db (login env db email password device t0 t1).2
  | refresh (env : AuthEnv) (db : AuthDb) (cookie : Option String) (now : Int) :
      AuthStep db (refresh env db cookie now).2
  | logoutAll (db : AuthDb) (userId : Nat) : AuthStep db (logoutAll db userId).2
  | forgotPassword (env : AuthEnv) (db : AuthDb) (email : String) (ip userAgent : Option String)
      (r : ℚ) (t0 : Int) : AuthStep db (forgotPassword env db email ip userAgent r t0).2
  | resetPassword (env : AuthEnv) (db : AuthDb) (email resetCode newPassword : String)
      (now : Int) : AuthStep db (resetPassword env db email resetCode newPassword now).2
  | changePassword (env : AuthEnv) (db : AuthDb) (userId : Nat)
      (currentPassword newPassword : String) (cookie : Option String) :
      AuthStep db (changePassword env db userId currentPassword newPassword cookie).2

/-! ## Number arithmetic -/

/-- The Number nearest to the rational `x`: IEEE-754 binary64 (53-bit significand, least
exponent -1074), round to nearest, ties to even. An arithmetic operator of JavaScript returns
`toDouble` of the exact result of its operands. Overflow to Infinity (from `2 ^ 1024` on) is
not modelled. -/
def toDouble (x : ℚ) : ℚ :=
  if x = 0 then 0
  else
    let e : Int := max (Int.log 2 |x| - 52) (-1074)
    let s : ℚ := x / (2 : ℚ) ^ e
    let f : Int := ⌊s⌋
    let m : Int :=
      if s - (f : ℚ) < 1 / 2 then f
      else if 1 / 2 < s - (f : ℚ) then f + 1
      else if f % 2 = 0 then f else f + 1
    (m : ℚ) * (2 : ℚ) ^ e

/-- The expression `Math.round(x * 100) / 100` on a Number `x`: the product is rounded to a
Number, `Math.round` of it is exact (halves up), and the quotient is the Number nearest to
`k / 100`, which is written here as the decimal `k / 100`. -/
def roundTo2Number (x : ℚ) : ℚ := (⌊toDouble (x * 100) + 1 / 2⌋ : ℚ) / 100


/-! ## The Haversine functions in Number arithmetic -/

/-- The functions of the host's `Math` object that the Haversine code calls, on finite
doubles. ECMAScript leaves their results implementation-approximated, so they are a
parameter; `sqrt` is only applied to a Number that is not negative. -/
structure MathLib where
  sin : ℚ → ℚ
  cos : ℚ → ℚ
  sqrt : ℚ → ℚ
  atan2 : ℚ → ℚ → ℚ

/-- The Number `Math.PI`. -/
def mathPI : ℚ := 884279719003555 / 281474976710656

/-- The function `toRadians` of locationHelper.js in Number arithmetic:
`degrees * (Math.PI / 180)`. -/
def toRadiansNumber (degrees : ℚ) : ℚ := toDouble (degrees * toDouble (mathPI / 180))

/-- The conversion `(degrees * Math.PI) / 180` of the OfficeLocation model in Number
arithmetic. -/
def modelRadians (degrees : ℚ) : ℚ := toDouble (toDouble (degrees * mathPI) / 180)

/-- The function `calculateDistance` of locationHelper.js in Number arithmetic, on finite
doubles. `Math.sqrt` of a negative Number is NaN, which passes through `Math.atan2`, the
products and `Math.round`: the result is then NaN (`none`). -/
def calculateDistanceNumber (M : MathLib) (lat1 lon1 lat2 lon2 : ℚ) : Option Int :=
  let R : ℚ := 6371000
  let dLat := toRadiansNumber (toDouble (lat2 - lat1))
  let dLon := toRadiansNumber (toDouble (lon2 - lon1))
  let a :=
    toDouble (toDouble (M.sin (toDouble (dLat / 2)) * M.sin (toDouble (dLat / 2))) +
      toDouble (toDouble (toDouble (M.cos (toRadiansNumber lat1) *
        M.cos (toRadiansNumber lat2)) *
        M.sin (toDouble (dLon / 2))) *
        M.sin (toDouble (dLon / 2))))
  if a < 0 ∨ toDouble (1 - a) < 0 then none
  else
    let c := toDouble (2 * M.atan2 (M.sqrt a) (M.sqrt (toDouble (1 - a))))
    let distance := toDouble (R * c)
    some ⌊distance + 1 / 2⌋

/-- The method `getDistanceFrom` of the OfficeLocation model in Number arithmetic, for an
office at `(officeLat, officeLng)`. -/
def getDistanceFromNumber (M : MathLib) (officeLat officeLng userLat userLng : ℚ) :
    Option Int :=
  let R : ℚ := 6371000
  let dLat := modelRadians (toDouble (userLat - officeLat))
  let dLng := modelRadians (toDouble (userLng - officeLng))
  let a :=
    toDouble (toDouble (M.sin (toDouble (dLat / 2)) * M.sin (toDouble (dLat / 2))) +
      toDouble (toDouble (toDouble (M.cos (modelRadians officeLat) *
        M.cos (modelRadians userLat)) *
        M.sin (toDouble (dLng / 2))) *
        M.sin (toDouble (dLng / 2))))
  if a < 0 ∨ toDouble (1 - a) < 0 then none
  else
    let c := toDouble (2 * M.atan2 (M.sqrt a) (M.sqrt (toDouble (1 - a))))
    let distance := toDouble (R * c)
    some ⌊distance + 1 / 2⌋

/-- Values of `Math.sin` of the host (V8, and glibc) at the Numbers `x >= 0` that occur in the
evaluations below, each the double nearest to the exact sine:
`Math.sin(1.1772092293203577e-7) = 1.1772092293203549e-7`,
`Math.sin(1.1772092293203578e-7) = 1.177209229320355e-7`,
`Math.sin(1.4311699866353502) = 0.9902680687415704`, `Math.sin(1.5707963267948966) = 1`, and
`Math.sin(0) = 0`. -/
def hostSin (x : ℚ) : ℚ :=
  if x = 8894741452587621 / 75557863725914323419136 then
    555921340786725 / 4722366482869645213696
  else if x = 4447370726293811 / 37778931862957161709568 then
    8894741452587601 / 75557863725914323419136
  else if x = 6445416618514801 / 4503599627370496 then 4459770905381437 / 4503599627370496
  else if x = 884279719003555 / 562949953421312 then 1
  else x

/-- Values of `Math.cos` of the host at the Numbers `x >= 0` that occur in the evaluations
below: `Math.cos(1.4311699866353502) = 0.13917310096006547` and `Math.cos(0) = 1`. -/
def hostCos (x : ℚ) : ℚ :=
  if x = 6445416618514801 / 4503599627370496 then 2507119702494989 / 18014398509481984
  else 1

/-- Values of `Math.sqrt` at the Numbers that occur in the evaluations below, each the double
nearest to the exact root: `Math.sqrt(1.385821569597024e-14) = 1.1772092293203549e-7`,
`Math.sqrt(1.3858215695970243e-14) = 1.177209229320355e-7` and
`Math.sqrt(0.9999999999999861) = 0.999999999999993`. -/
def hostSqrt (x : ℚ) : ℚ :=
  if x = 1097960965318059 / 79228162514264337593543950336 then
    555921340786725 / 4722366482869645213696
  else if x = 4391843861272237 / 316912650057057350374175801344 then
    8894741452587601 / 75557863725914323419136
  else if x = 9007199254740867 / 9007199254740992 then 9007199254740929 / 9007199254740992
  else x

/-- Values of `Math.atan2` of the host at the Numbers that occur in the evaluations below:
`Math.atan2(1.1772092293203549e-7, 0.999999999999993) = 1.1772092293203577e-7` and
`Math.atan2(1.177209229320355e-7, 0.999999999999993) = 1.1772092293203578e-7`. -/
def hostAtan2 (y x : ℚ) : ℚ :=
  if y = 555921340786725 / 4722366482869645213696 ∧
      x = 9007199254740929 / 9007199254740992 then
    8894741452587621 / 75557863725914323419136
  else if y = 8894741452587601 / 75557863725914323419136 ∧
      x = 9007199254740929 / 9007199254740992 then
    4447370726293811 / 37778931862957161709568
  else y

/-- The host's `Math` functions at the arguments of the evaluations below; sine is odd and
cosine is even. At any other argument the value is a placeholder that no statement uses. -/
def hostMath : MathLib where
  sin x := if x < 0 then -hostSin (-x) else hostSin x
  cos x := hostCos |x|
  sqrt := hostSqrt
  atan2 := hostAtan2

/-! ## The Date constructor and getWorkingDaysInMonth -/

/-- Leap years of the Gregorian calendar, as in ECMAScript `DaysInYear`. -/
def isLeapYear (y : Int) : Bool :=
  decide ((y % 4 = 0 ∧ y % 100 ≠ 0) ∨ y % 400 = 0)

/-- ECMAScript `DayFromYear`: the day number (days since 1970-01-01) of 1 January of year
`y`. -/
def dayFromYear (y : Int) : Int :=
  365 * (y - 1970) + (y - 1969) / 4 - (y - 1901) / 100 + (y - 1601) / 400

/-- Days of the year that precede month `mn` (0 = January .. 11 = December). -/
def daysBeforeMonth (leap : Bool) (mn : Int) : Int :=
  (if mn = 0 then 0 else if mn = 1 then 31 else if mn = 2 then 59 else if mn = 3 then 90
   else if mn = 4 then 120 else if mn = 5 then 151 else if mn = 6 then 181
   else if mn = 7 then 212 else if mn = 8 then 243 else if mn = 9 then 273
   else if mn = 10 then 304 else 334) +
  (if leap ∧ 2 ≤ mn then 1 else 0)

/-- ECMAScript `MakeDay(year, month, date)`: the month is normalised into the year
(`month = 12` is January of the next year) and the date may run outside the month (date 0 is
the last day of the previous month). -/
def makeDay (year month date : Int) : Int :=
  let ym := year + month / 12
  let mn := month % 12
  dayFromYear ym + daysBeforeMonth (isLeapYear ym) mn + date - 1

/-- The year the Date constructor uses: a year from 0 to 99 stands for 1900 + year. -/
def makeFullYear (year : Int) : Int :=
  if 0 ≤ year ∧ year ≤ 99 then 1900 + year else year

/-- The time value of `new Date(year, month, date, hours, minutes, seconds, ms)`, read in
local time, before `TimeClip`. -/
def newDate (tz year month date hours minutes seconds ms : Int) : Int :=
  makeDay (makeFullYear year) month date * msPerDay +
    (hours * 3600000 + minutes * 60000 + seconds * 1000 + ms) - tz

/-- ECMAScript `TimeClip`: a time value more than 8.64e15 ms from the epoch is NaN, and the
Date is an Invalid Date (`none`). -/
def timeClip (t : Int) : Option Int :=
  if -8640000000000000 ≤ t ∧ t ≤ 8640000000000000 then some t else none

/-- The Date `new Date(year, month, date, hours, minutes, seconds)` for arguments that may be
NaN (`none`): an Invalid Date (`none`) when an argument is NaN or the time value is out of
range. -/
def dateOf (tz : Int) (year month : Option Int) (date hours minutes seconds : Int) :
    Option Int :=
  match year, month with
  | some y, some m => timeClip (newDate tz y m date hours minutes seconds 0)
  | _, _ => none

/-- The function `getDay()` of a Date: 0 = Sunday .. 6 = Saturday (day 0, 1970-01-01, was a
Thursday). -/
def getDay (tz t : Int) : Int := ((t + tz) / msPerDay + 4) % 7

/-- The `for` loop of `getWorkingDaysInMonth` in dateHelper.js:
`for (date = startDate; date <= endDate; date.setDate(date.getDate() + 1))`, entered with valid
dates. `setDate` moves `date` one day on and applies `TimeClip`; when the result is an Invalid
Date the comparison `date <= endDate` is false and the loop ends, otherwise the time value is
that of the next day. It
terminates because every iteration moves `date` one day closer to `endDate`. -/
def workingDaysLoop (tz endDate : Int) (date : Int) (workingDays : Nat) : Nat :=
  if date ≤ endDate then
    let dayOfWeek := getDay tz date
    let counted := if dayOfWeek ≠ 0 ∧ dayOfWeek ≠ 6 then workingDays + 1 else workingDays
    match timeClip (date + msPerDay) with
    | some _ => workingDaysLoop tz endDate (date + msPerDay) counted
    | none => counted
  else workingDays
termination_by (endDate - date + 1).toNat
decreasing_by
  simp only [msPerDay]
  omega

/-- The function `getWorkingDaysInMonth` of dateHelper.js. When `startDate` or `endDate` is an
Invalid Date the comparison `date <= endDate` is false at once and the result is 0. -/
def getWorkingDaysInMonth (tz year month : Int) : Nat :=
  match timeClip (newDate tz year month 1 0 0 0 0),
    timeClip (newDate tz year (month + 1) 0 0 0 0 0) with
  | some startDate, some endDate => workingDaysLoop tz endDate startDate 0
  | _, _ => 0

/-- The `for` loop of the private `getWorkingDaysInMonth` of adminController.js. -/
def adminWorkingDaysLoop (tz endDate : Int) (date : Int) (workingDays : Nat) : Nat :=
  if date ≤ endDate then
    let dayOfWeek := getDay tz date
    let counted := if dayOfWeek ≠ 0 ∧ dayOfWeek ≠ 6 then workingDays + 1 else workingDays
    match timeClip (date + msPerDay) with
    | some _ => adminWorkingDaysLoop tz endDate (date + msPerDay) counted
    | none => counted
  else workingDays
termination_by (endDate - date + 1).toNat
decreasing_by
  simp only [msPerDay]
  omega

/-- The private function `getWorkingDaysInMonth` of adminController.js. -/
def adminGetWorkingDaysInMonth (tz year month : Int) : Nat :=
  match timeClip (newDate tz year month 1 0 0 0 0),
    timeClip (newDate tz year (month + 1) 0 0 0 0 0) with
  | some startDate, some endDate => adminWorkingDaysLoop tz endDate startDate 0
  | _, _ => 0

/-- Number of days of month `mn` (0 = January .. 11 = December) of a leap or common year. -/
def civilDaysInMonth (leap : Bool) (mn : Int) : Nat :=
  if mn = 1 then (if leap then 29 else 28)
  else if mn = 3 ∨ mn = 5 ∨ mn = 8 ∨ mn = 10 then 30
  else 31

/-- Day number `d` (days since 1970-01-01) falls on Monday to Friday. -/
def isMondayToFriday (d : Int) : Bool :=
  decide (1 ≤ (d + 4) % 7 ∧ (d + 4) % 7 ≤ 5)

/-- Number of Monday-to-Friday days among the `n` consecutive days that start at day number
`first`. -/
def weekdaysFrom (first : Int) (n : Nat) : Nat :=
  (List.range n).countP (fun i : Nat => isMondayToFriday (first + (i : Int)))

/-- Number of Monday-to-Friday days of month `mn` (0..11) of civil year `y`. -/
def weekdaysOfMonth (y mn : Int) : Nat :=
  weekdaysFrom (makeDay y mn 1) (civilDaysInMonth (isLeapYear y) mn)

/-! ## Response envelopes and controllers/adminController.js -/

/-- The body of a JSON response together with its HTTP status: `success`, the optional
`message` and the optional `data`. A key that the handler does not write is `none`. -/
structure Envelope (δ : Type) where
  status : Nat
  success : Bool
  message : Option String
  data : Option δ

/-- The number `parseFloat(x.toFixed(2))` for a Number `x >= 0`, written as a decimal:
`toFixed` takes the multiple of 1/100 closest to the exact value of `x`, the larger one on a
tie. -/
def toFixed2 (x : ℚ) : ℚ := (⌊x * 100 + 1 / 2⌋ : ℚ) / 100

/-- The `data` object of the response of `getAttendanceStats`. -/
structure AttendanceStats where
  totalUsers : Nat
  totalPresenceThisMonth : Nat
  ontimeCount : Nat
  lateCount : Nat
  workingDays : Nat
  attendanceRate : ℚ
  month : Int
  year : Int

/-- What a handler wrapped in `asyncHandler` does with a request: it sends a response, or an
awaited promise rejects and the error (its `name`) is passed to `next`. -/
inductive Handled (δ : Type) where
  | sent (res : Envelope δ)
  | thrown (name : String)

/-- The expression `param ? parseInt(param, 10) : fallback` for a query parameter: `param` is
`none` when absent or empty (falsy), otherwise the value of `parseInt`, where `some none` is
NaN. -/
def queryIntOr (param : Option (Option Int)) (fallback : Int) : Option Int :=
  match param with
  | some v => v
  | none => some fallback

/-- The handler `getAttendanceStats`. `month` and `year` are the query parameters: `none` when
absent or empty (falsy), otherwise the value of `parseInt`, where `some none` is NaN;
`currentYear` and `currentMonth` are the values of `currentDate.getFullYear()` and
`currentDate.getMonth()`. The counts are `countDocuments` queries; Mongoose rejects a query
whose date bound is an Invalid Date with a CastError, and then nothing after the `await`
runs. The attendance rate is computed in Number arithmetic. -/
def getAttendanceStats (tz : Int) (users : List User) (presences : List Presence)
    (month year : Option (Option Int)) (currentYear currentMonth : Int) :
    Handled AttendanceStats :=
  let targetYear : Option Int := queryIntOr year currentYear
  let targetMonth : Option Int := queryIntOr month (currentMonth + 1)
  let startDate := dateOf tz targetYear (targetMonth.map (fun m => m - 1)) 1 0 0 0
  let endDate := dateOf tz targetYear targetMonth 0 23 59 59
  match targetYear, targetMonth, startDate, endDate with
  | some targetYear, some targetMonth, some startDate, some endDate =>
    let totalUsers := users.countP (fun u => u.role == Role.karyawan)
    let totalPresenceThisMonth :=
      presences.countP (fun p => decide (startDate ≤ p.date) && decide (p.date ≤ endDate))
    let ontimeCount :=
      presences.countP (fun p => decide (startDate ≤ p.date) && decide (p.date ≤ endDate) &&
        p.status == AttendanceStatus.ontime)
    let lateCount :=
      presences.countP (fun p => decide (startDate ≤ p.date) && decide (p.date ≤ endDate) &&
        p.status == AttendanceStatus.late)
    let workingDays := adminGetWorkingDaysInMonth tz targetYear (targetMonth - 1)
    let attendanceRate : ℚ :=
      if totalUsers > 0 then
        toFixed2 (toDouble (toDouble ((totalPresenceThisMonth : ℚ) /
          toDouble ((totalUsers : ℚ) * (workingDays : ℚ))) * 100))
      else 0
    Handled.sent
      { status := 200, success := true, message := none,
        data := some ⟨totalUsers, totalPresenceThisMonth, ontimeCount, lateCount, workingDays,
          attendanceRate, targetMonth, targetYear⟩ }
  | _, _, _, _ => Handled.thrown "CastError"

/-! ## helpers/attendanceHelper.js: summary and location validation -/

/-- The function `getMonthRange` of dateHelper.js (`month` is 1..12):
`startOfMonth = new Date(year, month - 1, 1)`,
`endOfMonth = new Date(year, month, 0, 23, 59, 59, 999)`. -/
def getMonthRange (tz year month : Int) : Int × Int :=
  (newDate tz year (month - 1) 1 0 0 0 0, newDate tz year month 0 23 59 59 999)

/-- The expression `Math.round(x * 100) / 100`. -/
def roundTo2 (x : ℚ) : ℚ := (⌊x * 100 + 1 / 2⌋ : ℚ) / 100

/-- The `reduce` of `getUserAttendanceSummary`: the work minutes of the records that have both
`clock_in` and `clock_out`. -/
def totalWorkMinutes (presences : List Presence) : Int :=
  presences.foldl
    (fun total presence =>
      if presence.clock_in.isSome && presence.clock_out.isSome then
        total + calculateWorkDuration presence.clock_in presence.clock_out
      else total)
    0

/-- The object returned by `getUserAttendanceSummary`. -/
structure AttendanceSummary where
  totalDays : Nat
  ontimeDays : Nat
  lateDays : Nat
  totalWorkHours : ℚ
  averageWorkHours : ℚ
  presences : List Presence

/-- The body of `getUserAttendanceSummary` after its query: the summary of the found
records. `totalWorkHours` and `averageWorkHours` are Numbers nearest to a decimal with two
places and are written as that decimal; the average
`Math.round((totalWorkHours / totalDays) * 100) / 100` is computed in Number arithmetic from
the Number `totalWorkHours`. -/
def attendanceSummaryOf (presences : List Presence) : AttendanceSummary :=
  let totalDays := presences.length
  let workMinutes := totalWorkMinutes presences
  let totalWorkHours := roundTo2 ((workMinutes : ℚ) / 60)
  { totalDays := totalDays,
    ontimeDays := (presences.filter (fun p => p.status == AttendanceStatus.ontime)).length,
    lateDays := (presences.filter (fun p => p.status == AttendanceStatus.late)).length,
    totalWorkHours := totalWorkHours,
    averageWorkHours :=
      if totalDays > 0 then
        roundTo2Number (toDouble (toDouble totalWorkHours / (totalDays : ℚ)))
      else 0,
    presences := presences }

/-- The function `getUserAttendanceSummary` of attendanceHelper.js: the records of the user
dated in the month, sorted by date, and their summary. -/
def getUserAttendanceSummary (tz : Int) (coll : List Presence) (userId : Nat)
    (year month : Int) : AttendanceSummary :=
  let range := getMonthRange tz year month
  let presences :=
    (coll.filter (fun p => p.user == userId && decide (range.1 ≤ p.date) &&
      decide (p.date ≤ range.2))).mergeSort (fun a b => decide (a.date ≤ b.date))
  attendanceSummaryOf presences

/-- The object returned by `validateAttendanceLocation`. -/
structure LocationValidation where
  isValid : Bool
  reason : Option String
  distance : Option Int
  officeLocation : Option OfficeLocation

/-- The function `validateAttendanceLocation` of attendanceHelper.js; `offices` is the
OfficeLocation collection. -/
noncomputable def validateAttendanceLocation (offices : List OfficeLocation) (lat lng : ℝ) :
    LocationValidation :=
  match offices.head? with
  | none => ⟨false, some "Lokasi kantor belum dikonfigurasi", none, none⟩
  | some officeLocation =>
    let distance := calculateDistance lat lng officeLocation.lat officeLocation.lng
    let isValid : Bool := decide ((distance : ℝ) ≤ officeLocation.radius)
    ⟨isValid,
      if isValid then none
      else some ("Anda berada di luar radius kantor (" ++ toString distance ++ "m dari kantor)"),
      some distance, some officeLocation⟩

/-! ## middlewares/errorHandler.js and utils/responseHelper.js -/

/-- An error object as `errorHandler` reads it: `name`, `message`, `code`, the own property
`statusCode` (copied by the spread) and the messages of `Object.values(err.errors)`. -/
structure JsError where
  name : String
  message : String
  code : Option Int
  statusCode : Option Nat
  errors : List String

/-- The function `errorHandler`: status and body (`success`, `message`) of its response. -/
def errorHandler (err : JsError) : Envelope Unit :=
  let error0 : Option Nat × String := (err.statusCode, err.message)
  let error1 : Option Nat × String :=
    if err.name = "CastError" then (some 404, "Resource tidak ditemukan") else error0
  let error2 : Option Nat × String :=
    if err.code = some 11000 then (some 400, "Data duplikat ditemukan") else error1
  let error3 : Option Nat × String :=
    if err.name = "ValidationError" then (some 400, String.intercalate ", " err.errors)
    else error2
  { status := match error3.1 with
      | some c => if c = 0 then 500 else c
      | none => 500,
    success := false,
    message := some (if error3.2 = "" then "Server Error" else error3.2),
    data := none }

/-- The `pagination` object of `sendPaginatedResponse`. -/
structure Pagination where
  currentPage : Int
  totalPages : Int
  totalItems : Int
  itemsPerPage : Int
  hasNextPage : Bool
  hasPrevPage : Bool
  deriving DecidableEq, Repr

/-- The response of `sendPaginatedResponse`: status and body. -/
structure PaginatedResponse (α : Type) where
  status : Nat
  success : Bool
  message : String
  data : List α
  pagination : Pagination

/-- The function `sendPaginatedResponse` of responseHelper.js for whole-number `page`, `limit`
and `total` (`parseInt` of a whole number is the number); `message = none` is the omitted
argument. -/
def sendPaginatedResponse {α : Type} (data : List α) (page limit total : Int)
    (message : Option String) : PaginatedResponse α :=
  let totalPages : Int := ⌈(total : ℚ) / (limit : ℚ)⌉
  { status := 200, success := true,
    message := match message with
      | some m => m
      | none => "Data retrieved successfully",
    data := data,
    pagination :=
      { currentPage := page, totalPages := totalPages, totalItems := total,
        itemsPerPage := limit, hasNextPage := decide (page < totalPages),
        hasPrevPage := decide (page > 1) } }

/-! ## Response bodies of the controllers -/

/-- The `data` object of the response of `getTodayPresence`. -/
structure TodayPresence where
  presence : Option Presence
  hasClockIn : Bool
  hasClockOut : Bool

/-- The handler `getTodayPresence`; `now` is the reading of `new Date()`. -/
def getTodayPresence (tz : Int) (db : Db) (userId : Nat) (now : Int) : Envelope TodayPresence :=
  let today := setHours tz now 0 0 0 0
  let tomorrow := today + msPerDay
  let presence := (Presence.findOne db.presences userId today tomorrow).map (fun x => x.2)
  { status := 200, success := true, message := none,
    data := some
      { presence := presence,
        hasClockIn := presence.isSome,
        hasClockOut := match presence with
          | some p => p.clock_out.isSome
          | none => false } }

/-- One `res.json` call of a controller: where it is, its status, the value of `success`, and
whether the body has a `message` key and a `data` key. -/
structure JsonSite where
  controller : String
  handler : String
  line : Nat
  status : Nat
  success : Bool
  hasMessage : Bool
  hasData : Bool
  deriving DecidableEq, Repr

/-- Every `res.json` call of the presence, auth, admin, notification and office-location
controllers, in source order. -/
def jsonSites : List JsonSite :=
  [ ⟨"presence", "clockIn", 28, 400, false, true, false⟩,
    ⟨"presence", "clockIn", 37, 400, false, true, false⟩,
    ⟨"presence", "clockIn", 47, 400, false, true, false⟩,
    ⟨"presence", "clockIn", 102, 201, true, true, true⟩,
    ⟨"presence", "clockOut", 139, 400, false, true, false⟩,
    ⟨"presence", "clockOut", 146, 400, false, true, false⟩,
    ⟨"presence", "clockOut", 155, 400, false, true, false⟩,
    ⟨"presence", "clockOut", 165, 400, false, true, false⟩,
    ⟨"presence", "clockOut", 206, 200, true, true, true⟩,
    ⟨"presence", "getPresenceHistory", 247, 200, true, false, true⟩,
    ⟨"presence", "getTodayPresence", 280, 200, true, false, true⟩,
    ⟨"auth", "register", 22, 400, false, true, false⟩,
    ⟨"auth", "register", 88, 201, true, true, true⟩,
    ⟨"auth", "login", 113, 401, false, true, false⟩,
    ⟨"auth", "login", 122, 401, false, true, false⟩,
    ⟨"auth", "login", 201, 200, true, true, true⟩,
    ⟨"auth", "refresh", 211, 401, false, true, false⟩,
    ⟨"auth", "refresh", 229, 401, false, true, false⟩,
    ⟨"auth", "refresh", 238, 401, false, true, false⟩,
    ⟨"auth", "refresh", 254, 200, true, true, true⟩,
    ⟨"auth", "refresh", 262, 401, false, true, false⟩,
    ⟨"auth", "logout", 292, 200, true, true, false⟩,
    ⟨"auth", "logoutAll", 315, 200, true, true, false⟩,
    ⟨"auth", "forgotPassword", 330, 404, false, true, false⟩,
    ⟨"auth", "forgotPassword", 365, 200, true, true, false⟩,
    ⟨"auth", "forgotPassword", 386, 200, true, true, false⟩,
    ⟨"auth", "resetPassword", 408, 400, false, true, false⟩,
    ⟨"auth", "resetPassword", 417, 404, false, true, false⟩,
    ⟨"auth", "resetPassword", 448, 200, true, true, false⟩,
    ⟨"auth", "getMe", 466, 200, true, false, true⟩,
    ⟨"auth", "changePassword", 493, 400, false, true, false⟩,
    ⟨"auth", "changePassword", 526, 200, true, true, false⟩,
    ⟨"admin", "getAllUsers", 33, 200, true, false, true⟩,
    ⟨"admin", "getUserById", 53, 404, false, true, false⟩,
    ⟨"admin", "getUserById", 59, 200, true, false, true⟩,
    ⟨"admin", "updateUser", 76, 404, false, true, false⟩,
    ⟨"admin", "updateUser", 88, 200, true, true, true⟩,
    ⟨"admin", "deleteUser", 104, 404, false, true, false⟩,
    ⟨"admin", "deleteUser", 116, 200, true, true, false⟩,
    ⟨"admin", "getAllPresence", 156, 200, true, false, true⟩,
    ⟨"admin", "getAttendanceStats", 208, 200, true, false, true⟩,
    ⟨"notification", "getNotifications", 34, 200, true, false, true⟩,
    ⟨"notification", "markAsRead", 58, 404, false, true, false⟩,
    ⟨"notification", "markAsRead", 66, 200, true, true, true⟩,
    ⟨"notification", "markAllAsRead", 79, 200, true, true, false⟩,
    ⟨"notification", "deleteNotification", 95, 404, false, true, false⟩,
    ⟨"notification", "deleteNotification", 103, 200, true, true, false⟩,
    ⟨"notification", "clearReadNotifications", 118, 200, true, true, false⟩,
    ⟨"notification", "getNotificationStats", 149, 200, true, false, true⟩,
    ⟨"notification", "broadcastNotification", 195, 201, true, true, true⟩,
    ⟨"officeLocation", "createOfficeLocation", 17, 201, true, true, true⟩,
    ⟨"officeLocation", "getOfficeLocations", 32, 200, true, false, true⟩,
    ⟨"officeLocation", "getOfficeLocationById", 47, 404, false, true, false⟩,
    ⟨"officeLocation", "getOfficeLocationById", 53, 200, true, false, true⟩,
    ⟨"officeLocation", "updateOfficeLocation", 70, 404, false, true, false⟩,
    ⟨"officeLocation", "updateOfficeLocation", 82, 200, true, true, true⟩,
    ⟨"officeLocation", "deleteOfficeLocation", 98, 404, false, true, false⟩,
    ⟨"officeLocation", "deleteOfficeLocation", 106, 200, true, true, false⟩,
    ⟨"officeLocation", "validateLocation", 121, 400, false, true, false⟩,
    ⟨"officeLocation", "validateLocation", 130, 200, true, false, true⟩ ]

/-- The handlers whose success body has `data` and no `message`. -/
def readHandlers : List String :=
  ["getPresenceHistory", "getTodayPresence", "getMe", "getAllUsers", "getUserById",
    "getAllPresence", "getAttendanceStats", "getNotifications", "getNotificationStats",
    "getOfficeLocations", "getOfficeLocationById", "validateLocation"]

/-! ## Basic facts about local days -/

theorem msOfDay_nonneg (tz t : Int) : 0 ≤ msOfDay tz t :=
  Int.emod_nonneg _ (by decide)

theorem msOfDay_lt (tz t : Int) : msOfDay tz t < msPerDay :=
  Int.emod_lt_of_pos _ (by decide)

theorem startOfDay_eq (tz t : Int) : startOfDay tz t = t - msOfDay tz t := by
  simp [startOfDay, setHours]

theorem startOfDay_le (tz t : Int) : startOfDay tz t ≤ t := by
  have := msOfDay_nonneg tz t
  rw [startOfDay_eq]; omega

theorem lt_startOfDay_add (tz t : Int) : t < startOfDay tz t + msPerDay := by
  have := msOfDay_lt tz t
  rw [startOfDay_eq]; omega

theorem msOfDay_startOfDay (tz t : Int) : msOfDay tz (startOfDay tz t) = 0 := by
  rw [startOfDay_eq]
  unfold msOfDay
  have h : t - (t + tz) % msPerDay + tz = msPerDay * ((t + tz) / msPerDay) := by
    have := Int.emod_add_ediv (t + tz) msPerDay
    omega
  rw [h]
  exact Int.mul_emod_right _ _

/-- An instant that lies in the half-open day window starting at a local midnight has that
midnight as its start of day. -/
theorem startOfDay_unique (tz m d : Int) (hm : msOfDay tz m = 0)
    (h1 : m ≤ d) (h2 : d < m + msPerDay) : startOfDay tz d = m := by
  rw [startOfDay_eq]
  unfold msOfDay at *
  have hd : (d + tz) % msPerDay = d - m := by
    have e : d + tz = (d - m) + (m + tz) := by ring
    rw [e, Int.add_emod, hm, add_zero, Int.emod_emod_of_dvd _ (dvd_refl _)]
    exact Int.emod_eq_of_lt (by omega) (by omega)
  omega

theorem startOfDay_idem (tz t : Int) : startOfDay tz (startOfDay tz t) = startOfDay tz t := by
  rw [startOfDay_eq tz (startOfDay tz t), msOfDay_startOfDay]; simp

/-- The range query `date >= today && date < tomorrow` selects exactly the instants of the
calendar day of `now`. -/
theorem in_day_window_iff (tz now d : Int) :
    (startOfDay tz now ≤ d ∧ d < startOfDay tz now + msPerDay) ↔
      startOfDay tz d = startOfDay tz now := by
  constructor
  · rintro ⟨h1, h2⟩
    exact startOfDay_unique tz _ d (msOfDay_startOfDay tz now) h1 h2
  · intro h
    rw [← h]
    exact ⟨startOfDay_le tz d, lt_startOfDay_add tz d⟩

/-- Claim C1. For every fixed-offset time zone and every clock-in instant `t`, `isLate t` holds
exactly when the local time of day of `t` is strictly after 08:00:00.000 (28 800 000 ms after
local midnight of the day of `t`), and `calculateAttendanceStatus t` is `late` in that case and
`ontime` otherwise. On the day of `t`, 08:00:01 is late, 07:59:59 is on time and exactly
08:00:00.000 is on time. -/
theorem C1_isLate_iff_after_cutoff (tz t : Int) :
    (isLate tz t = true ↔ 28800000 < msOfDay tz t) ∧
    (isLate tz t = true ↔
      t > startOfDay tz t + 28800000) ∧
    calculateAttendanceStatus tz t =
      (if 28800000 < msOfDay tz t then AttendanceStatus.late else AttendanceStatus.ontime) ∧
    calculateAttendanceStatus tz (startOfDay tz t + 28801000) = AttendanceStatus.late ∧
    calculateAttendanceStatus tz (startOfDay tz t + 28799000) = AttendanceStatus.ontime ∧
    calculateAttendanceStatus tz (startOfDay tz t + 28800000) = AttendanceStatus.ontime := by
  have key : ∀ u : Int, isLate tz u = true ↔ 28800000 < msOfDay tz u := by
    intro u
    simp only [isLate, setHours, decide_eq_true_eq]
    constructor <;> intro h <;> omega
  have off : ∀ k : Int, 0 ≤ k → k < msPerDay →
      msOfDay tz (startOfDay tz t + k) = k := by
    intro k hk0 hk1
    have h := startOfDay_unique tz (startOfDay tz t) (startOfDay tz t + k)
      (msOfDay_startOfDay tz t) (by omega) (by omega)
    rw [startOfDay_eq] at h
    omega
  have st : ∀ u : Int, calculateAttendanceStatus tz u =
      (if 28800000 < msOfDay tz u then AttendanceStatus.late else AttendanceStatus.ontime) := by
    intro u
    unfold calculateAttendanceStatus
    by_cases h : 28800000 < msOfDay tz u
    · rw [if_pos ((key u).2 h), if_pos h]
    · have h2 : ¬ (isLate tz u = true) := fun c => h ((key u).1 c)
      rw [if_neg h2, if_neg h]
  refine ⟨key t, ?_, st t, ?_, ?_, ?_⟩
  · rw [key t, startOfDay_eq]
    constructor <;> intro h <;> omega
  · rw [st, off 28801000 (by decide) (by decide)]; rfl
  · rw [st, off 28799000 (by decide) (by decide)]; rfl
  · rw [st, off 28800000 (by decide) (by decide)]; rfl

/-! ## Geofence: rounding and the Haversine distance -/

theorem mathRound_le (x : ℝ) : (mathRound x : ℝ) ≤ x + 1 / 2 :=
  Int.floor_le _

theorem lt_mathRound (x : ℝ) : x - 1 / 2 < (mathRound x : ℝ) := by
  have h := Int.lt_floor_add_one (x + 1 / 2)
  unfold mathRound
  linarith

theorem mathRound_zero : mathRound 0 = 0 := by
  unfold mathRound
  rw [Int.floor_eq_iff]
  norm_num

theorem mathRound_eq_of_mem (x : ℝ) (n : Int) (h1 : (n : ℝ) - 1 / 2 ≤ x)
    (h2 : x < (n : ℝ) + 1 / 2) : mathRound x = n := by
  unfold mathRound
  rw [Int.floor_eq_iff]
  constructor <;> linarith

theorem atan2_zero_one : atan2 0 1 = 0 := by
  unfold atan2
  have h : (⟨1, 0⟩ : ℂ) = 1 := by
    apply Complex.ext <;> simp
  rw [h, Complex.arg_one]

/-- For an angle in the first quadrant the Haversine inversion recovers the angle. -/
theorem atan2_sqrt_sin (θ : ℝ) (h0 : 0 ≤ θ) (h1 : θ ≤ Real.pi / 2) :
    atan2 (Real.sqrt (Real.sin θ * Real.sin θ))
      (Real.sqrt (1 - Real.sin θ * Real.sin θ)) = θ := by
  have hpi := Real.pi_pos
  have hs : 0 ≤ Real.sin θ := Real.sin_nonneg_of_nonneg_of_le_pi h0 (by linarith)
  have hc : 0 ≤ Real.cos θ := Real.cos_nonneg_of_mem_Icc ⟨by linarith, h1⟩
  have e : 1 - Real.sin θ * Real.sin θ = Real.cos θ * Real.cos θ := by
    have := Real.sin_sq_add_cos_sq θ
    nlinarith
  rw [e, Real.sqrt_mul_self hs, Real.sqrt_mul_self hc]
  unfold atan2
  have h : (⟨Real.cos θ, Real.sin θ⟩ : ℂ) = Complex.cos θ + Complex.sin θ * Complex.I := by
    apply Complex.ext
    · simp [← Complex.ofReal_cos, ← Complex.ofReal_sin]
    · simp [← Complex.ofReal_cos, ← Complex.ofReal_sin]
  rw [h]
  exact Complex.arg_cos_add_sin_mul_I ⟨by linarith, by linarith⟩

theorem sin_half_sq_swap (k x y : ℝ) :
    Real.sin ((y - x) * k / 2) * Real.sin ((y - x) * k / 2) =
      Real.sin ((x - y) * k / 2) * Real.sin ((x - y) * k / 2) := by
  have e : (y - x) * k / 2 = -((x - y) * k / 2) := by ring
  rw [e, Real.sin_neg]
  ring

theorem calculateDistance_self (lat lng : ℝ) : calculateDistance lat lng lat lng = 0 := by
  simp [calculateDistance, toRadians, atan2_zero_one, mathRound_zero]

theorem getDistanceFrom_self (o : OfficeLocation) : o.getDistanceFrom o.lat o.lng = 0 := by
  simp [OfficeLocation.getDistanceFrom, atan2_zero_one, mathRound_zero]

theorem isWithinRadius_self (o : OfficeLocation) (h : 0 ≤ o.radius) :
    o.isWithinRadius o.lat o.lng = true := by
  simp [OfficeLocation.isWithinRadius, atan2_zero_one, h]

/-- Claim C10. At zero separation the distance is zero: `calculateDistance lat lng lat lng = 0`,
an office located at `(lat, lng)` reports `getDistanceFrom lat lng = 0`, and for every radius
`>= 0` a user standing exactly at the centre is within the radius. -/
theorem C10_distance_zero_at_centre (lat lng : ℝ) :
    calculateDistance lat lng lat lng = 0 ∧
    ∀ (name : String) (radius : ℝ),
      (OfficeLocation.mk name lat lng radius).getDistanceFrom lat lng = 0 ∧
      (0 ≤ radius → (OfficeLocation.mk name lat lng radius).isWithinRadius lat lng = true) :=
  ⟨calculateDistance_self lat lng, fun name radius =>
    ⟨getDistanceFrom_self ⟨name, lat, lng, radius⟩,
      fun h => isWithinRadius_self ⟨name, lat, lng, radius⟩ h⟩⟩

/-- Witness for C10: the office of the specification example, radius 100 m. -/
theorem C10_distance_zero_at_centre_witness :
    calculateDistance (-6.2) 106.816666 (-6.2) 106.816666 = 0 ∧
    (OfficeLocation.mk "Kantor" (-6.2) 106.816666 100).getDistanceFrom (-6.2) 106.816666 = 0 ∧
    (OfficeLocation.mk "Kantor" (-6.2) 106.816666 100).isWithinRadius (-6.2) 106.816666
      = true :=
  ⟨(C10_distance_zero_at_centre (-6.2) 106.816666).1,
    ((C10_distance_zero_at_centre (-6.2) 106.816666).2 "Kantor" 100).1,
    ((C10_distance_zero_at_centre (-6.2) 106.816666).2 "Kantor" 100).2 (by norm_num)⟩


/-- The unrounded distance both model methods compute from an office on the equator at
longitude 0 to a user on the equator at longitude `x` degrees (`0 <= x <= 180`):
`6371000 * (x * π / 180)`. -/
theorem equator_raw_distance (x : ℝ) (h0 : 0 ≤ x) (h1 : x ≤ 180) :
    (6371000 : ℝ) * (2 * atan2
      (Real.sqrt (Real.sin (((0 - 0) * Real.pi) / 180 / 2) *
          Real.sin (((0 - 0) * Real.pi) / 180 / 2) +
        Real.cos ((0 * Real.pi) / 180) * Real.cos ((0 * Real.pi) / 180) *
          Real.sin (((x - 0) * Real.pi) / 180 / 2) *
          Real.sin (((x - 0) * Real.pi) / 180 / 2)))
      (Real.sqrt (1 - (Real.sin (((0 - 0) * Real.pi) / 180 / 2) *
          Real.sin (((0 - 0) * Real.pi) / 180 / 2) +
        Real.cos ((0 * Real.pi) / 180) * Real.cos ((0 * Real.pi) / 180) *
          Real.sin (((x - 0) * Real.pi) / 180 / 2) *
          Real.sin (((x - 0) * Real.pi) / 180 / 2))))) =
      6371000 * (x * Real.pi / 180) := by
  have hpi := Real.pi_pos
  have ha : Real.sin (((0 - 0) * Real.pi) / 180 / 2) *
          Real.sin (((0 - 0) * Real.pi) / 180 / 2) +
        Real.cos ((0 * Real.pi) / 180) * Real.cos ((0 * Real.pi) / 180) *
          Real.sin (((x - 0) * Real.pi) / 180 / 2) *
          Real.sin (((x - 0) * Real.pi) / 180 / 2) =
      Real.sin (x * Real.pi / 180 / 2) * Real.sin (x * Real.pi / 180 / 2) := by
    simp
  rw [ha, atan2_sqrt_sin (x * Real.pi / 180 / 2) (by positivity) (by nlinarith)]
  ring

/-- A user on the equator at longitude 0.000901 degrees is between 100 m and 100.5 m from the
point at longitude 0. -/
theorem boundary_raw_distance :
    (100 : ℝ) < 6371000 * ((901 / 1000000 : ℝ) * Real.pi / 180) ∧
    6371000 * ((901 / 1000000 : ℝ) * Real.pi / 180) < 100 + 1 / 2 := by
  have h1 := Real.pi_gt_d2
  have h2 := Real.pi_lt_d2
  constructor <;> nlinarith

/-- Over the real numbers the model method and the helper compute one formula. -/
theorem getDistanceFrom_eq_calculateDistance (office : OfficeLocation) (userLat userLng : ℝ) :
    office.getDistanceFrom userLat userLng =
      calculateDistance userLat userLng office.lat office.lng := by
  simp only [OfficeLocation.getDistanceFrom, calculateDistance, toRadians]
  have k : ∀ u : ℝ, u * Real.pi / 180 = u * (Real.pi / 180) := fun u => by ring
  have e1 := sin_half_sq_swap (Real.pi / 180) office.lat userLat
  have e2 := sin_half_sq_swap (Real.pi / 180) office.lng userLng
  simp only [k]
  have ea : Real.sin ((userLat - office.lat) * (Real.pi / 180) / 2) *
        Real.sin ((userLat - office.lat) * (Real.pi / 180) / 2) +
      Real.cos (office.lat * (Real.pi / 180)) * Real.cos (userLat * (Real.pi / 180)) *
        Real.sin ((userLng - office.lng) * (Real.pi / 180) / 2) *
        Real.sin ((userLng - office.lng) * (Real.pi / 180) / 2) =
      Real.sin ((office.lat - userLat) * (Real.pi / 180) / 2) *
        Real.sin ((office.lat - userLat) * (Real.pi / 180) / 2) +
      Real.cos (userLat * (Real.pi / 180)) * Real.cos (office.lat * (Real.pi / 180)) *
        Real.sin ((office.lng - userLng) * (Real.pi / 180) / 2) *
        Real.sin ((office.lng - userLng) * (Real.pi / 180) / 2) := by
    rw [e1]
    linear_combination
      (Real.cos (office.lat * (Real.pi / 180)) * Real.cos (userLat * (Real.pi / 180))) * e2
  rw [ea]

/-- Claim C8, failing input. Office on the equator at longitude 0 with radius 100 m, user on
the equator at longitude 0.000901 degrees (about 100.19 m away). The model method
`isWithinRadius` used by clock-in and clock-out compares the unrounded distance and rejects,
while the distance reported for that rejection, `getDistanceFrom`, is 100, which is `<=` the
radius. The sibling paths `isWithinRadius` of locationHelper.js and
`validateAttendanceLocation` of attendanceHelper.js compare the rounded distance and accept the
same coordinate. -/
theorem C8_geofence_paths_disagree :
    (OfficeLocation.mk "Kantor" 0 0 100).isWithinRadius 0 (901 / 1000000) = false ∧
    (OfficeLocation.mk "Kantor" 0 0 100).getDistanceFrom 0 (901 / 1000000) = 100 ∧
    ¬ ((OfficeLocation.mk "Kantor" 0 0 100).isWithinRadius 0 (901 / 1000000) = true ↔
      (((OfficeLocation.mk "Kantor" 0 0 100).getDistanceFrom 0 (901 / 1000000) : Int) : ℝ)
        ≤ (OfficeLocation.mk "Kantor" 0 0 100).radius) ∧
    isWithinRadius 0 (901 / 1000000) 0 0 100 = true ∧
    (validateAttendanceLocation [⟨"Kantor", 0, 0, 100⟩] 0 (901 / 1000000)).isValid = true ∧
    (validateAttendanceLocation [⟨"Kantor", 0, 0, 100⟩] 0 (901 / 1000000)).distance =
      some 100 ∧
    (clockIn 0 ⟨fun _ => "08.20.00", none⟩ ⟨[], [], [⟨"Kantor", 0, 0, 100⟩]⟩ 7 0
      (901 / 1000000) 30000000 30000000 30000000).1 =
      Outcome.sent ⟨400, false,
        "Anda berada di luar radius kantor (" ++ toString (100 : Int) ++ "m dari kantor)",
        none⟩ := by
  have hd := equator_raw_distance (901 / 1000000) (by norm_num) (by norm_num)
  obtain ⟨b1, b2⟩ := boundary_raw_distance
  have hw : (OfficeLocation.mk "Kantor" 0 0 100).isWithinRadius 0 (901 / 1000000) = false := by
    simp only [OfficeLocation.isWithinRadius]
    rw [hd]
    exact decide_eq_false (not_le.mpr b1)
  have hg : (OfficeLocation.mk "Kantor" 0 0 100).getDistanceFrom 0 (901 / 1000000) = 100 := by
    simp only [OfficeLocation.getDistanceFrom]
    rw [hd]
    apply mathRound_eq_of_mem
    · push_cast; linarith
    · push_cast; linarith
  have hc : calculateDistance 0 (901 / 1000000) 0 0 = 100 := by
    rw [← hg]
    exact (getDistanceFrom_eq_calculateDistance ⟨"Kantor", 0, 0, 100⟩ 0 (901 / 1000000)).symm
  refine ⟨hw, hg, ?_, ?_, ?_, ?_, ?_⟩
  · rw [hw, hg]
    simp
  · simp [isWithinRadius, hc]
  · simp [validateAttendanceLocation, hc]
  · simp [validateAttendanceLocation, hc]
  · simp [clockIn, Presence.findOne, findOneFrom, hw, hg]

/-! ## The presence collection: `findOne` -/

theorem findOneFrom_eq_none (p : Presence → Bool) (k : Nat) (l : List Presence) :
    findOneFrom p k l = none ↔ ∀ r ∈ l, p r = false := by
  induction l generalizing k with
  | nil => simp [findOneFrom]
  | cons x xs ih =>
    simp only [findOneFrom]
    by_cases h : p x = true
    · simp [h]
    · simp [h, ih]

theorem findOneFrom_some (p : Presence → Bool) (k : Nat) (l : List Presence) (i : Nat)
    (r : Presence) (h : findOneFrom p k l = some (i, r)) :
    k ≤ i ∧ l[i - k]? = some r ∧ p r = true ∧
      ∀ j r', j < i - k → l[j]? = some r' → p r' = false := by
  induction l generalizing k with
  | nil => simp [findOneFrom] at h
  | cons x xs ih =>
    simp only [findOneFrom] at h
    by_cases hx : p x = true
    · rw [if_pos hx] at h
      simp only [Option.some.injEq, Prod.mk.injEq] at h
      obtain ⟨rfl, rfl⟩ := h
      refine ⟨le_refl _, by simp, hx, ?_⟩
      intro j r' hj
      omega
    · rw [if_neg hx] at h
      obtain ⟨h1, h2, h3, h4⟩ := ih (k + 1) h
      have e : i - k = (i - (k + 1)) + 1 := by omega
      refine ⟨by omega, ?_, h3, ?_⟩
      · rw [e, List.getElem?_cons_succ]; exact h2
      · intro j r' hj hr'
        cases j with
        | zero =>
          simp only [List.getElem?_cons_zero, Option.some.injEq] at hr'
          subst hr'
          simpa using hx
        | succ j =>
          rw [List.getElem?_cons_succ] at hr'
          exact h4 j r' (by omega) hr'

theorem findOneFrom_set (p : Presence → Bool) (k : Nat) (l : List Presence) (i : Nat)
    (r r' : Presence) (h : findOneFrom p k l = some (i, r)) (hp : p r' = true) :
    findOneFrom p k (l.set (i - k) r') = some (i, r') := by
  induction l generalizing k with
  | nil => simp [findOneFrom] at h
  | cons x xs ih =>
    simp only [findOneFrom] at h
    by_cases hx : p x = true
    · rw [if_pos hx] at h
      simp only [Option.some.injEq, Prod.mk.injEq] at h
      obtain ⟨rfl, rfl⟩ := h
      simp [findOneFrom, hp]
    · rw [if_neg hx] at h
      have hk := (findOneFrom_some p (k + 1) xs i r h).1
      have e : i - k = (i - (k + 1)) + 1 := by omega
      rw [e, List.set_cons_succ]
      simp only [findOneFrom, if_neg hx]
      exact ih (k + 1) h

/-- The range query of the handlers finds nothing exactly when the user has no record whose
`date` lies on the calendar day of `now`. -/
theorem findOne_eq_none_iff (tz : Int) (l : List Presence) (u : Nat) (now : Int) :
    Presence.findOne l u (startOfDay tz now) (startOfDay tz now + msPerDay) = none ↔
      ∀ r ∈ l, ¬ (r.user = u ∧ startOfDay tz r.date = startOfDay tz now) := by
  unfold Presence.findOne
  rw [findOneFrom_eq_none]
  constructor
  · intro h r hr ⟨hu, hd⟩
    have h' := h r hr
    have hw := (in_day_window_iff tz now r.date).2 hd
    simp [hu, hw.1, hw.2] at h'
  · intro h r hr
    by_contra hc
    simp only [Bool.not_eq_false, Bool.and_eq_true, decide_eq_true_eq] at hc
    exact h r hr ⟨hc.1.1, (in_day_window_iff tz now r.date).1 ⟨hc.1.2, hc.2⟩⟩

theorem findOne_some (tz : Int) (l : List Presence) (u : Nat) (now : Int) (i : Nat)
    (r : Presence)
    (h : Presence.findOne l u (startOfDay tz now) (startOfDay tz now + msPerDay) = some (i, r)) :
    l[i]? = some r ∧ r.user = u ∧ startOfDay tz r.date = startOfDay tz now := by
  unfold Presence.findOne at h
  obtain ⟨_, h2, h3, _⟩ := findOneFrom_some _ 0 l i r h
  simp only [Bool.and_eq_true, decide_eq_true_eq] at h3
  exact ⟨by simpa using h2, h3.1.1, (in_day_window_iff tz now r.date).1 ⟨h3.1.2, h3.2⟩⟩

theorem findOne_set (tz : Int) (l : List Presence) (u : Nat) (now now' : Int) (i : Nat)
    (r r' : Presence)
    (h : Presence.findOne l u (startOfDay tz now) (startOfDay tz now + msPerDay) = some (i, r))
    (hday : startOfDay tz now' = startOfDay tz now)
    (hu : r'.user = r.user) (hd : r'.date = r.date) :
    Presence.findOne (l.set i r') u (startOfDay tz now') (startOfDay tz now' + msPerDay)
      = some (i, r') := by
  rw [hday]
  unfold Presence.findOne at h ⊢
  obtain ⟨_, _, h3, _⟩ := findOneFrom_some _ 0 l i r h
  have := findOneFrom_set _ 0 l i r r' h (by rw [hu, hd]; exact h3)
  simpa using this

/-! ## Clock-in -/

/-- The outcomes of `clockIn`, by the branch taken. -/
theorem clockIn_cases (tz : Int) (env : Env) (db : Db) (userId : Nat) (lat lng : ℝ)
    (t0 t1 t2 : Int) :
    ((∃ x, Presence.findOne db.presences userId (startOfDay tz t0)
        (startOfDay tz t0 + msPerDay) = some x) ∧
      clockIn tz env db userId lat lng t0 t1 t2 =
        (Outcome.sent ⟨400, false, "Anda sudah melakukan clock in hari ini", none⟩, db)) ∨
    (Presence.findOne db.presences userId (startOfDay tz t0)
        (startOfDay tz t0 + msPerDay) = none ∧
      db.officeLocations.head? = none ∧
      clockIn tz env db userId lat lng t0 t1 t2 =
        (Outcome.sent ⟨400, false, "Lokasi kantor belum dikonfigurasi", none⟩, db)) ∨
    (Presence.findOne db.presences userId (startOfDay tz t0)
        (startOfDay tz t0 + msPerDay) = none ∧
      ∃ o, db.officeLocations.head? = some o ∧ o.isWithinRadius lat lng = false ∧
      clockIn tz env db userId lat lng t0 t1 t2 =
        (Outcome.sent ⟨400, false,
          "Anda berada di luar radius kantor (" ++ toString (o.getDistanceFrom lat lng) ++
            "m dari kantor)", none⟩, db)) ∨
    (Presence.findOne db.presences userId (startOfDay tz t0)
        (startOfDay tz t0 + msPerDay) = none ∧
      ∃ o, db.officeLocations.head? = some o ∧ o.isWithinRadius lat lng = true ∧
      (clockIn tz env db userId lat lng t0 t1 t2).2.presences = db.presences ++
        [{ user := userId, date := startOfDay tz t0, clock_in := some t1, clock_out := none,
           location_in := ⟨lat, lng⟩, location_out := ⟨none, none⟩,
           status := if t1 > setHours tz t2 8 0 0 0 then AttendanceStatus.late
             else AttendanceStatus.ontime }] ∧
      (clockIn tz env db userId lat lng t0 t1 t2).2.officeLocations = db.officeLocations ∧
      ((∃ err, env.notificationError = some err ∧
          (clockIn tz env db userId lat lng t0 t1 t2).1 = Outcome.thrown err ∧
          (clockIn tz env db userId lat lng t0 t1 t2).2.notifications = db.notifications) ∨
        (env.notificationError = none ∧
          (clockIn tz env db userId lat lng t0 t1 t2).1 =
            Outcome.sent ⟨201, true, "Clock in berhasil", some (db.presences.length,
              { user := userId, date := startOfDay tz t0, clock_in := some t1,
                clock_out := none, location_in := ⟨lat, lng⟩, location_out := ⟨none, none⟩,
                status := if t1 > setHours tz t2 8 0 0 0 then AttendanceStatus.late
                  else AttendanceStatus.ontime })⟩ ∧
          ∃ n : Notification, n.user = userId ∧
            (clockIn tz env db userId lat lng t0 t1 t2).2.notifications =
              db.notifications ++ [n]))) := by
  have hdef : setHours tz t0 0 0 0 0 = startOfDay tz t0 := rfl
  cases hf : Presence.findOne db.presences userId (startOfDay tz t0)
      (startOfDay tz t0 + msPerDay) with
  | some x =>
    left
    refine ⟨⟨x, rfl⟩, ?_⟩
    simp only [clockIn, hdef, hf]
  | none =>
    right
    cases ho : db.officeLocations.head? with
    | none =>
      left
      refine ⟨rfl, rfl, ?_⟩
      simp only [clockIn, hdef, hf, ho]
    | some o =>
      right
      cases hw : o.isWithinRadius lat lng with
      | false =>
        left
        refine ⟨rfl, o, rfl, hw, ?_⟩
        simp [clockIn, hdef, hf, ho, hw]
      | true =>
        right
        refine ⟨rfl, o, rfl, hw, ?_⟩
        cases hn : env.notificationError with
        | some err =>
          simp [clockIn, hdef, hf, ho, hw, hn]
        | none =>
          simp [clockIn, hdef, hf, ho, hw, hn]

/-- Claim C2. If the presence store already holds a record of the user whose `date` lies on the
calendar day of the request, `clockIn` answers 400 "Anda sudah melakukan clock in hari ini"
and leaves the database unchanged, whatever the submitted coordinates and whatever office
locations are configured (none included): the geofence is not consulted. -/
theorem C2_clockIn_duplicate_rejected (tz : Int) (env : Env) (db : Db) (userId : Nat)
    (lat lng : ℝ) (t0 t1 t2 : Int)
    (h : ∃ r ∈ db.presences, r.user = userId ∧ startOfDay tz r.date = startOfDay tz t0) :
    clockIn tz env db userId lat lng t0 t1 t2 =
      (Outcome.sent ⟨400, false, "Anda sudah melakukan clock in hari ini", none⟩, db) := by
  have hne : Presence.findOne db.presences userId (startOfDay tz t0)
      (startOfDay tz t0 + msPerDay) ≠ none := by
    intro hc
    obtain ⟨r, hr, hu, hd⟩ := h
    exact (findOne_eq_none_iff tz db.presences userId t0).1 hc r hr ⟨hu, hd⟩
  rcases clockIn_cases tz env db userId lat lng t0 t1 t2 with
    ⟨_, h1⟩ | ⟨h1, _⟩ | ⟨h1, _⟩ | ⟨h1, _⟩
  · exact h1
  · exact absurd h1 hne
  · exact absurd h1 hne
  · exact absurd h1 hne


theorem setHours_eight (tz t : Int) : setHours tz t 8 0 0 0 = startOfDay tz t + 28800000 := by
  simp [startOfDay, setHours]

theorem status_eq_calculateAttendanceStatus (tz t1 t2 : Int)
    (h : startOfDay tz t2 = startOfDay tz t1) :
    (if t1 > setHours tz t2 8 0 0 0 then AttendanceStatus.late else AttendanceStatus.ontime) =
      calculateAttendanceStatus tz t1 := by
  rw [setHours_eight, h, ← setHours_eight]
  unfold calculateAttendanceStatus isLate
  by_cases c : t1 > setHours tz t1 8 0 0 0
  · simp [c]
  · simp [c]

/-- Claim C6. Every `clockIn` that succeeds, with its clock readings on one calendar day and
`now` the reading stored as `clock_in`, appends exactly one record to the presence store: user
the caller, `date` local midnight of `now`, `clock_in = now`, `location_in` the submitted
coordinates, `clock_out` null, `location_out` empty and `status` the late/ontime classification
of `now`. The records stored before are unchanged, and so are the office locations. -/
theorem C6_clockIn_creates_record (tz : Int) (env : Env) (db : Db) (userId : Nat)
    (lat lng : ℝ) (t0 now t2 : Int)
    (hok : (clockIn tz env db userId lat lng t0 now t2).1.succeeded = true)
    (h0 : startOfDay tz t0 = startOfDay tz now) (h2 : startOfDay tz t2 = startOfDay tz now) :
    (clockIn tz env db userId lat lng t0 now t2).2.presences = db.presences ++
      [{ user := userId, date := startOfDay tz now, clock_in := some now, clock_out := none,
         location_in := ⟨lat, lng⟩, location_out := ⟨none, none⟩,
         status := calculateAttendanceStatus tz now }] ∧
    (clockIn tz env db userId lat lng t0 now t2).2.officeLocations = db.officeLocations := by
  rcases clockIn_cases tz env db userId lat lng t0 now t2 with
    ⟨_, h⟩ | ⟨_, _, h⟩ | ⟨_, o, _, _, h⟩ | ⟨_, o, _, _, hp, hoff, _⟩
  · rw [h] at hok; simp [Outcome.succeeded] at hok
  · rw [h] at hok; simp [Outcome.succeeded] at hok
  · rw [h] at hok; simp [Outcome.succeeded] at hok
  · rw [status_eq_calculateAttendanceStatus tz now t2 h2, h0] at hp
    exact ⟨hp, hoff⟩

/-- Witness for C6: empty store, one office, user at its centre, 08:20 UTC on day 0. -/
theorem C6_clockIn_creates_record_witness :
    (clockIn 0 ⟨fun _ => "08.20.00", none⟩ ⟨[], [], [⟨"Kantor", -6.2, 106.816666, 100⟩]⟩ 7
      (-6.2) 106.816666 30000000 30000000 30000000).2.presences =
      [{ user := 7, date := 0, clock_in := some 30000000, clock_out := none,
         location_in := ⟨-6.2, 106.816666⟩, location_out := ⟨none, none⟩,
         status := AttendanceStatus.late }] := by
  have hw : (OfficeLocation.mk "Kantor" (-6.2) 106.816666 100).isWithinRadius (-6.2)
      106.816666 = true := isWithinRadius_self ⟨"Kantor", -6.2, 106.816666, 100⟩ (by norm_num)
  have h := (C6_clockIn_creates_record 0 ⟨fun _ => "08.20.00", none⟩
    ⟨[], [], [⟨"Kantor", -6.2, 106.816666, 100⟩]⟩ 7 (-6.2) 106.816666 30000000 30000000
    30000000 (by simp [clockIn, Presence.findOne, findOneFrom, hw, Outcome.succeeded])
    rfl rfl).1
  rw [h]
  have e1 : startOfDay 0 30000000 = 0 := by decide
  have e2 : calculateAttendanceStatus 0 30000000 = AttendanceStatus.late := by decide
  rw [e1, e2]
  rfl

/-- Claim C7. Whenever `clockIn` answers with a failure envelope (a record of today already
exists, no office location is configured, or the coordinates are outside the radius), the
status is 400, the response is one of these three failures, and the database is unchanged: no
presence record and no notification is created. -/
theorem C7_clockIn_failure_leaves_db (tz : Int) (env : Env) (db : Db) (userId : Nat)
    (lat lng : ℝ) (t0 t1 t2 : Int) (res : Response)
    (hres : (clockIn tz env db userId lat lng t0 t1 t2).1 = Outcome.sent res)
    (hfail : res.success = false) :
    (clockIn tz env db userId lat lng t0 t1 t2).2 = db ∧
    res.status = 400 ∧
    (res.message = "Anda sudah melakukan clock in hari ini" ∨
      res.message = "Lokasi kantor belum dikonfigurasi" ∨
      ∃ o, db.officeLocations.head? = some o ∧ o.isWithinRadius lat lng = false ∧
        res.message = "Anda berada di luar radius kantor (" ++
          toString (o.getDistanceFrom lat lng) ++ "m dari kantor)") := by
  rcases clockIn_cases tz env db userId lat lng t0 t1 t2 with
    ⟨_, h⟩ | ⟨_, _, h⟩ | ⟨_, o, ho, hw, h⟩ | ⟨_, o, _, _, _, _, hn⟩
  · rw [h] at hres ⊢
    simp only [Outcome.sent.injEq] at hres
    subst hres
    exact ⟨rfl, rfl, Or.inl rfl⟩
  · rw [h] at hres ⊢
    simp only [Outcome.sent.injEq] at hres
    subst hres
    exact ⟨rfl, rfl, Or.inr (Or.inl rfl)⟩
  · rw [h] at hres ⊢
    simp only [Outcome.sent.injEq] at hres
    subst hres
    exact ⟨rfl, rfl, Or.inr (Or.inr ⟨o, ho, hw, rfl⟩)⟩
  · rcases hn with ⟨err, _, h, _⟩ | ⟨_, h, _⟩
    · rw [h] at hres; cases hres
    · rw [h] at hres
      simp only [Outcome.sent.injEq] at hres
      subst hres
      simp at hfail

/-- Witness for C7: no office location is configured. -/
theorem C7_clockIn_failure_leaves_db_witness :
    (clockIn 0 ⟨fun _ => "08.20.00", none⟩ ⟨[], [], []⟩ 7 (-6.2) 106.816666
      30000000 30000000 30000000).2 = ⟨[], [], []⟩ :=
  (C7_clockIn_failure_leaves_db 0 ⟨fun _ => "08.20.00", none⟩ ⟨[], [], []⟩ 7 (-6.2) 106.816666
    30000000 30000000 30000000 ⟨400, false, "Lokasi kantor belum dikonfigurasi", none⟩
    (by simp [clockIn, Presence.findOne, findOneFrom]) rfl).1

/-- Witness for C2: the user already has a record dated today; no office is configured. -/
theorem C2_clockIn_duplicate_rejected_witness :
    clockIn 0 ⟨fun _ => "08.20.00", none⟩
      ⟨[⟨7, 0, some 25000000, none, ⟨-6.2, 106.816666⟩, ⟨none, none⟩,
        AttendanceStatus.ontime⟩], [], []⟩ 7 10 20 30000000 30000000 30000000 =
      (Outcome.sent ⟨400, false, "Anda sudah melakukan clock in hari ini", none⟩,
        ⟨[⟨7, 0, some 25000000, none, ⟨-6.2, 106.816666⟩, ⟨none, none⟩,
          AttendanceStatus.ontime⟩], [], []⟩) :=
  C2_clockIn_duplicate_rejected 0 _ _ 7 10 20 30000000 30000000 30000000
    ⟨_, List.mem_singleton.mpr rfl, rfl, by decide⟩


/-! ## Clock-out -/

/-- The outcomes of `clockOut`, by the branch taken. -/
theorem clockOut_cases (tz : Int) (env : Env) (db : Db) (userId : Nat) (lat lng : ℝ)
    (t0 t1 : Int) :
    (Presence.findOne db.presences userId (startOfDay tz t0)
        (startOfDay tz t0 + msPerDay) = none ∧
      clockOut tz env db userId lat lng t0 t1 =
        (Outcome.sent ⟨400, false, "Anda belum melakukan clock in hari ini", none⟩, db)) ∨
    (∃ i p, Presence.findOne db.presences userId (startOfDay tz t0)
        (startOfDay tz t0 + msPerDay) = some (i, p) ∧ p.clock_out.isSome = true ∧
      clockOut tz env db userId lat lng t0 t1 =
        (Outcome.sent ⟨400, false, "Anda sudah melakukan clock out hari ini", none⟩, db)) ∨
    (∃ i p, Presence.findOne db.presences userId (startOfDay tz t0)
        (startOfDay tz t0 + msPerDay) = some (i, p) ∧ p.clock_out = none ∧
      db.officeLocations.head? = none ∧
      clockOut tz env db userId lat lng t0 t1 =
        (Outcome.sent ⟨400, false, "Lokasi kantor belum dikonfigurasi", none⟩, db)) ∨
    (∃ i p o, Presence.findOne db.presences userId (startOfDay tz t0)
        (startOfDay tz t0 + msPerDay) = some (i, p) ∧ p.clock_out = none ∧
      db.officeLocations.head? = some o ∧ o.isWithinRadius lat lng = false ∧
      clockOut tz env db userId lat lng t0 t1 =
        (Outcome.sent ⟨400, false,
          "Anda berada di luar radius kantor (" ++ toString (o.getDistanceFrom lat lng) ++
            "m dari kantor)", none⟩, db)) ∨
    (∃ i p o, Presence.findOne db.presences userId (startOfDay tz t0)
        (startOfDay tz t0 + msPerDay) = some (i, p) ∧ p.clock_out = none ∧
      db.officeLocations.head? = some o ∧ o.isWithinRadius lat lng = true ∧
      (clockOut tz env db userId lat lng t0 t1).2.presences = db.presences.set i
        { p with clock_out := some t1, location_out := ⟨some lat, some lng⟩ } ∧
      (clockOut tz env db userId lat lng t0 t1).2.officeLocations = db.officeLocations ∧
      ((∃ err, env.notificationError = some err ∧
          (clockOut tz env db userId lat lng t0 t1).1 = Outcome.thrown err ∧
          (clockOut tz env db userId lat lng t0 t1).2.notifications = db.notifications) ∨
        (env.notificationError = none ∧
          (clockOut tz env db userId lat lng t0 t1).1 =
            Outcome.sent ⟨200, true, "Clock out berhasil", some (i,
              { p with clock_out := some t1, location_out := ⟨some lat, some lng⟩ })⟩ ∧
          ∃ n : Notification, n.user = userId ∧
            (clockOut tz env db userId lat lng t0 t1).2.notifications =
              db.notifications ++ [n]))) := by
  have hdef : setHours tz t0 0 0 0 0 = startOfDay tz t0 := rfl
  cases hf : Presence.findOne db.presences userId (startOfDay tz t0)
      (startOfDay tz t0 + msPerDay) with
  | none =>
    left
    refine ⟨rfl, ?_⟩
    simp only [clockOut, hdef, hf]
  | some x =>
    obtain ⟨i, p⟩ := x
    right
    cases hc : p.clock_out with
    | some c =>
      left
      refine ⟨i, p, rfl, by simp [hc], ?_⟩
      simp [clockOut, hdef, hf, hc]
    | none =>
      right
      cases ho : db.officeLocations.head? with
      | none =>
        left
        refine ⟨i, p, rfl, hc, rfl, ?_⟩
        simp [clockOut, hdef, hf, hc, ho]
      | some o =>
        right
        cases hw : o.isWithinRadius lat lng with
        | false =>
          left
          refine ⟨i, p, o, rfl, hc, rfl, hw, ?_⟩
          simp [clockOut, hdef, hf, hc, ho, hw]
        | true =>
          right
          refine ⟨i, p, o, rfl, hc, rfl, hw, ?_⟩
          cases hn : env.notificationError with
          | some err =>
            simp [clockOut, hdef, hf, hc, ho, hw, hn]
          | none =>
            simp [clockOut, hdef, hf, hc, ho, hw, hn]


theorem clockOut_of_not_found (tz : Int) (env : Env) (db : Db) (userId : Nat) (lat lng : ℝ)
    (t0 t1 : Int)
    (h : ∀ r ∈ db.presences, ¬ (r.user = userId ∧ startOfDay tz r.date = startOfDay tz t0)) :
    clockOut tz env db userId lat lng t0 t1 =
      (Outcome.sent ⟨400, false, "Anda belum melakukan clock in hari ini", none⟩, db) := by
  have hf := (findOne_eq_none_iff tz db.presences userId t0).2 h
  rcases clockOut_cases tz env db userId lat lng t0 t1 with
    ⟨_, h1⟩ | ⟨i, p, h1, _⟩ | ⟨i, p, h1, _⟩ | ⟨i, p, o, h1, _⟩ | ⟨i, p, o, h1, _⟩
  · exact h1
  all_goals rw [hf] at h1; cases h1

theorem clockOut_of_found_closed (tz : Int) (env : Env) (db : Db) (userId : Nat) (lat lng : ℝ)
    (t0 t1 : Int) (i : Nat) (p : Presence)
    (hf : Presence.findOne db.presences userId (startOfDay tz t0)
      (startOfDay tz t0 + msPerDay) = some (i, p))
    (hc : p.clock_out ≠ none) :
    clockOut tz env db userId lat lng t0 t1 =
      (Outcome.sent ⟨400, false, "Anda sudah melakukan clock out hari ini", none⟩, db) := by
  rcases clockOut_cases tz env db userId lat lng t0 t1 with
    ⟨h1, _⟩ | ⟨_, _, _, _, h2⟩ | ⟨i', p', h1, h2, _⟩ | ⟨i', p', o, h1, h2, _⟩ |
    ⟨i', p', o, h1, h2, _⟩
  · rw [hf] at h1; cases h1
  · exact h2
  all_goals
    rw [hf] at h1
    simp only [Option.some.injEq, Prod.mk.injEq] at h1
    obtain ⟨_, rfl⟩ := h1
    exact absurd h2 hc

/-- Claim C4. `clockOut` answers 400 "Anda belum melakukan clock in hari ini" when the user
has no record dated today, and 400 "Anda sudah melakukan clock out hari ini" when the user has
a record dated today and each such record has a non-null `clock_out`; both leave the database
unchanged. After a `clockOut` that succeeded, every further `clockOut` of that user on the same
calendar day is rejected as already clocked out, whatever its coordinates: two successive
calls never both succeed. -/
theorem C4_clockOut_guards (tz : Int) (env : Env) (db : Db) (userId : Nat) (lat lng : ℝ)
    (t0 t1 : Int) :
    ((∀ r ∈ db.presences, ¬ (r.user = userId ∧ startOfDay tz r.date = startOfDay tz t0)) →
      clockOut tz env db userId lat lng t0 t1 =
        (Outcome.sent ⟨400, false, "Anda belum melakukan clock in hari ini", none⟩, db)) ∧
    ((∃ r ∈ db.presences, r.user = userId ∧ startOfDay tz r.date = startOfDay tz t0) →
      (∀ r ∈ db.presences, r.user = userId → startOfDay tz r.date = startOfDay tz t0 →
        r.clock_out ≠ none) →
      clockOut tz env db userId lat lng t0 t1 =
        (Outcome.sent ⟨400, false, "Anda sudah melakukan clock out hari ini", none⟩, db)) ∧
    (∀ (env' : Env) (lat' lng' : ℝ) (t0' t1' : Int),
      startOfDay tz t0' = startOfDay tz t0 →
      (clockOut tz env db userId lat lng t0 t1).1.succeeded = true →
      clockOut tz env' (clockOut tz env db userId lat lng t0 t1).2 userId lat' lng' t0' t1' =
        (Outcome.sent ⟨400, false, "Anda sudah melakukan clock out hari ini", none⟩,
          (clockOut tz env db userId lat lng t0 t1).2)) := by
  refine ⟨clockOut_of_not_found tz env db userId lat lng t0 t1, ?_, ?_⟩
  · intro hex hall
    cases hf : Presence.findOne db.presences userId (startOfDay tz t0)
        (startOfDay tz t0 + msPerDay) with
    | none =>
      obtain ⟨r, hr, hu, hd⟩ := hex
      exact absurd ⟨hu, hd⟩ ((findOne_eq_none_iff tz db.presences userId t0).1 hf r hr)
    | some x =>
      obtain ⟨i, p⟩ := x
      obtain ⟨hi, hu, hd⟩ := findOne_some tz db.presences userId t0 i p hf
      exact clockOut_of_found_closed tz env db userId lat lng t0 t1 i p hf
        (hall p (List.getElem?_mem hi) hu hd)
  · intro env' lat' lng' t0' t1' hday hok
    rcases clockOut_cases tz env db userId lat lng t0 t1 with
      ⟨_, h⟩ | ⟨_, _, _, _, h⟩ | ⟨_, _, _, _, _, h⟩ | ⟨_, _, _, _, _, _, _, h⟩ |
      ⟨i, p, o, hf, _, _, _, hp, _, _⟩
    · rw [h] at hok; simp [Outcome.succeeded] at hok
    · rw [h] at hok; simp [Outcome.succeeded] at hok
    · rw [h] at hok; simp [Outcome.succeeded] at hok
    · rw [h] at hok; simp [Outcome.succeeded] at hok
    · have hf' := findOne_set tz db.presences userId t0 t0' i p
        { p with clock_out := some t1, location_out := ⟨some lat, some lng⟩ } hf hday rfl rfl
      rw [← hp] at hf'
      exact clockOut_of_found_closed tz env' _ userId lat' lng' t0' t1' i _ hf' (by simp)

/-- Witness for C4: no record at all; a record already clocked out; and a successful
clock-out (user at the office centre) followed by a second attempt. -/
theorem C4_clockOut_guards_witness :
    clockOut 0 ⟨fun _ => "17.00.00", none⟩ ⟨[], [], []⟩ 7 0 0 61200000 61200000 =
      (Outcome.sent ⟨400, false, "Anda belum melakukan clock in hari ini", none⟩,
        ⟨[], [], []⟩) ∧
    clockOut 0 ⟨fun _ => "17.00.00", none⟩
      ⟨[⟨7, 0, some 25000000, some 60000000, ⟨0, 0⟩, ⟨some 0, some 0⟩,
        AttendanceStatus.ontime⟩], [], []⟩ 7 0 0 61200000 61200000 =
      (Outcome.sent ⟨400, false, "Anda sudah melakukan clock out hari ini", none⟩,
        ⟨[⟨7, 0, some 25000000, some 60000000, ⟨0, 0⟩, ⟨some 0, some 0⟩,
          AttendanceStatus.ontime⟩], [], []⟩) ∧
    (clockOut 0 ⟨fun _ => "17.00.01", none⟩
      (clockOut 0 ⟨fun _ => "17.00.00", none⟩
        ⟨[⟨7, 0, some 25000000, none, ⟨0, 0⟩, ⟨none, none⟩, AttendanceStatus.ontime⟩], [],
          [⟨"Kantor", 0, 0, 100⟩]⟩ 7 0 0 61200000 61200000).2
      7 0 0 61201000 61201000).1 =
      Outcome.sent ⟨400, false, "Anda sudah melakukan clock out hari ini", none⟩ := by
  have hw : (OfficeLocation.mk "Kantor" 0 0 100).isWithinRadius 0 0 = true :=
    isWithinRadius_self ⟨"Kantor", 0, 0, 100⟩ (by norm_num)
  refine ⟨(C4_clockOut_guards 0 _ _ 7 0 0 61200000 61200000).1 (by simp), ?_, ?_⟩
  · exact (C4_clockOut_guards 0 _ _ 7 0 0 61200000 61200000).2.1
      ⟨_, List.mem_singleton.mpr rfl, rfl, by decide⟩ (by simp)
  · have h := (C4_clockOut_guards 0 ⟨fun _ => "17.00.00", none⟩
      ⟨[⟨7, 0, some 25000000, none, ⟨0, 0⟩, ⟨none, none⟩, AttendanceStatus.ontime⟩], [],
        [⟨"Kantor", 0, 0, 100⟩]⟩ 7 0 0 61200000 61200000).2.2
      ⟨fun _ => "17.00.01", none⟩ 0 0 61201000 61201000 (by decide)
      (by
        have e : setHours 0 61200000 0 0 0 0 = 0 := by decide
        simp [clockOut, Presence.findOne, findOneFrom, hw, Outcome.succeeded, e, msPerDay])
    rw [h]

/-- Claim C5. A successful `clockOut` rewrites exactly one stored record, a record of the
caller whose `clock_out` was null: the new version has `clock_out` and `location_out` set to
the clock reading and the submitted coordinates, and keeps the stored `status`, `clock_in`,
`date`, `user` and `location_in` (the status is not recomputed). The store keeps its length
and every other record is unchanged. -/
theorem C5_clockOut_frame (tz : Int) (env : Env) (db : Db) (userId : Nat) (lat lng : ℝ)
    (t0 t1 : Int) (hok : (clockOut tz env db userId lat lng t0 t1).1.succeeded = true) :
    ∃ (i : Nat) (p p' : Presence),
      db.presences[i]? = some p ∧
      (clockOut tz env db userId lat lng t0 t1).2.presences[i]? = some p' ∧
      p.user = userId ∧ p.clock_out = none ∧
      p' = { p with clock_out := some t1, location_out := ⟨some lat, some lng⟩ } ∧
      p'.status = p.status ∧ p'.clock_in = p.clock_in ∧ p'.date = p.date ∧
      p'.user = p.user ∧ p'.location_in = p.location_in ∧
      (clockOut tz env db userId lat lng t0 t1).2.presences.length = db.presences.length ∧
      ∀ j, j ≠ i →
        (clockOut tz env db userId lat lng t0 t1).2.presences[j]? = db.presences[j]? := by
  rcases clockOut_cases tz env db userId lat lng t0 t1 with
    ⟨_, h⟩ | ⟨_, _, _, _, h⟩ | ⟨_, _, _, _, _, h⟩ | ⟨_, _, _, _, _, _, _, h⟩ |
    ⟨i, p, o, hf, hc, _, _, hp, _, _⟩
  · rw [h] at hok; simp [Outcome.succeeded] at hok
  · rw [h] at hok; simp [Outcome.succeeded] at hok
  · rw [h] at hok; simp [Outcome.succeeded] at hok
  · rw [h] at hok; simp [Outcome.succeeded] at hok
  · obtain ⟨hi, hu, _⟩ := findOne_some tz db.presences userId t0 i p hf
    have hlt : i < db.presences.length := (List.getElem?_eq_some.1 hi).1
    refine ⟨i, p, { p with clock_out := some t1, location_out := ⟨some lat, some lng⟩ },
      hi, ?_, hu, hc, rfl, rfl, rfl, rfl, rfl, rfl, ?_, ?_⟩
    · rw [hp, List.getElem?_set_self hlt]
    · rw [hp, List.length_set]
    · intro j hj
      rw [hp, List.getElem?_set_ne (fun e => hj e.symm)]

/-- Witness for C5: the user clocked in late at 08:20 and clocks out at 17:00 at the office
centre; the stored status stays `late`. -/
theorem C5_clockOut_frame_witness :
    (clockOut 0 ⟨fun _ => "17.00.00", none⟩
      ⟨[⟨7, 0, some 30000000, none, ⟨0, 0⟩, ⟨none, none⟩, AttendanceStatus.late⟩], [],
        [⟨"Kantor", 0, 0, 100⟩]⟩ 7 0 0 61200000 61200000).2.presences =
      [⟨7, 0, some 30000000, some 61200000, ⟨0, 0⟩, ⟨some 0, some 0⟩,
        AttendanceStatus.late⟩] := by
  have hw : (OfficeLocation.mk "Kantor" 0 0 100).isWithinRadius 0 0 = true :=
    isWithinRadius_self ⟨"Kantor", 0, 0, 100⟩ (by norm_num)
  obtain ⟨i, p, p', h1, h2, _, _, h5, _, _, _, _, _, hlen, _⟩ :=
    C5_clockOut_frame 0 ⟨fun _ => "17.00.00", none⟩
      ⟨[⟨7, 0, some 30000000, none, ⟨0, 0⟩, ⟨none, none⟩, AttendanceStatus.late⟩], [],
        [⟨"Kantor", 0, 0, 100⟩]⟩ 7 0 0 61200000 61200000
      (by
        have e : setHours 0 61200000 0 0 0 0 = 0 := by decide
        simp [clockOut, Presence.findOne, findOneFrom, hw, Outcome.succeeded, e, msPerDay])
  cases i with
  | succ k => simp at h1
  | zero =>
    simp only [List.getElem?_cons_zero, Option.some.injEq] at h1
    subst h1
    subst h5
    obtain ⟨a, ha⟩ := List.length_eq_one.1 hlen
    rw [ha] at h2 ⊢
    simp only [List.getElem?_cons_zero, Option.some.injEq] at h2
    rw [h2]

/-! ## The invariant of the attendance state machine -/

theorem set_eq_self_of_getElem? {α : Type} (l : List α) (i : Nat) (a : α)
    (h : l[i]? = some a) : l.set i a = l := by
  apply List.ext_getElem?
  intro j
  by_cases hij : i = j
  · subst hij
    rw [List.getElem?_set_self (List.getElem?_eq_some.1 h).1, h]
  · rw [List.getElem?_set_ne hij]

theorem uniquePerDay_set (tz : Int) (l : List Presence) (i : Nat) (p p' : Presence)
    (hi : l[i]? = some p) (hu : p'.user = p.user) (hd : p'.date = p.date)
    (h : UniquePerDay tz l) : UniquePerDay tz (l.set i p') := by
  unfold UniquePerDay at *
  have key : ∀ m : List Presence,
      m.Pairwise (fun a b => ¬ (a.user = b.user ∧
        startOfDay tz a.date = startOfDay tz b.date)) ↔
      (m.map (fun r => (r.user, startOfDay tz r.date))).Pairwise
        (fun a b => ¬ (a.1 = b.1 ∧ a.2 = b.2)) := by
    intro m
    rw [List.pairwise_map]
  rw [key] at h ⊢
  rw [List.map_set]
  have e : (l.map (fun r => (r.user, startOfDay tz r.date)))[i]? =
      some (p'.user, startOfDay tz p'.date) := by
    rw [List.getElem?_map, hi, hu, hd]
    rfl
  rw [set_eq_self_of_getElem? _ i _ e]
  exact h

theorem uniquePerDay_append (tz : Int) (l : List Presence) (new : Presence)
    (hnew : ∀ r ∈ l, ¬ (r.user = new.user ∧ startOfDay tz r.date = startOfDay tz new.date))
    (h : UniquePerDay tz l) : UniquePerDay tz (l ++ [new]) := by
  unfold UniquePerDay at *
  rw [List.pairwise_append]
  refine ⟨h, List.pairwise_singleton _ _, ?_⟩
  intro a ha b hb
  rw [List.mem_singleton] at hb
  subst hb
  exact hnew a ha

/-- The step invariant: every record has a `clock_in`, and records are unique per
(user, calendar day). -/
theorem step_preserves (tz : Int) (s s' : Db × Int) (hstep : Step tz s s')
    (h1 : ∀ r ∈ s.1.presences, r.clock_in ≠ none) (h2 : UniquePerDay tz s.1.presences) :
    (∀ r ∈ s'.1.presences, r.clock_in ≠ none) ∧ UniquePerDay tz s'.1.presences := by
  cases hstep with
  | clockIn env db clock userId lat lng t0 t1 t2 _ _ _ =>
    simp only at h1 h2 ⊢
    rcases clockIn_cases tz env db userId lat lng t0 t1 t2 with
      ⟨_, h⟩ | ⟨_, _, h⟩ | ⟨_, o, _, _, h⟩ | ⟨hf, o, _, _, hp, _, _⟩
    · rw [h]; exact ⟨h1, h2⟩
    · rw [h]; exact ⟨h1, h2⟩
    · rw [h]; exact ⟨h1, h2⟩
    · rw [hp]
      constructor
      · intro r hr
        rw [List.mem_append, List.mem_singleton] at hr
        rcases hr with hr | rfl
        · exact h1 r hr
        · simp
      · apply uniquePerDay_append tz db.presences _ _ h2
        intro r hr
        simp only [startOfDay_idem]
        exact (findOne_eq_none_iff tz db.presences userId t0).1 hf r hr
  | clockOut env db clock userId lat lng t0 t1 _ _ =>
    simp only at h1 h2 ⊢
    rcases clockOut_cases tz env db userId lat lng t0 t1 with
      ⟨_, h⟩ | ⟨_, _, _, _, h⟩ | ⟨_, _, _, _, _, h⟩ | ⟨_, _, _, _, _, _, _, h⟩ |
      ⟨i, p, o, hf, _, _, _, hp, _, _⟩
    · rw [h]; exact ⟨h1, h2⟩
    · rw [h]; exact ⟨h1, h2⟩
    · rw [h]; exact ⟨h1, h2⟩
    · rw [h]; exact ⟨h1, h2⟩
    · obtain ⟨hi, _, _⟩ := findOne_some tz db.presences userId t0 i p hf
      rw [hp]
      constructor
      · intro r hr
        rcases List.mem_or_eq_of_mem_set hr with hr | rfl
        · exact h1 r hr
        · exact h1 p (List.getElem?_mem hi)
      · exact uniquePerDay_set tz db.presences i p _ hi rfl rfl h2

/-- Claim C3. Start from a presence store in which every record has a `clock_in` and its
`date` is local midnight of the day of that `clock_in`, and no two records share
(user, date). Then in every state reachable by serving `clockIn` and `clockOut` requests one
after another (clock readings non-decreasing), no two records have the same user and the same
calendar day, and every record with a non-null `clock_out` has a `clock_in`. -/
theorem C3_reachable_invariant (tz : Int) (s s' : Db × Int)
    (hdate : ∀ r ∈ s.1.presences, ∃ c, r.clock_in = some c ∧ r.date = startOfDay tz c)
    (huniq : s.1.presences.Pairwise (fun a b => ¬ (a.user = b.user ∧ a.date = b.date)))
    (hreach : Reachable tz s s') :
    UniquePerDay tz s'.1.presences ∧
    ∀ r ∈ s'.1.presences, r.clock_out ≠ none → r.clock_in ≠ none := by
  have init1 : ∀ r ∈ s.1.presences, r.clock_in ≠ none := by
    intro r hr
    obtain ⟨c, hc, _⟩ := hdate r hr
    simp [hc]
  have init2 : UniquePerDay tz s.1.presences := by
    unfold UniquePerDay
    refine List.Pairwise.imp_of_mem ?_ huniq
    intro a b ha hb hab hc
    obtain ⟨ca, _, hda⟩ := hdate a ha
    obtain ⟨cb, _, hdb⟩ := hdate b hb
    apply hab
    refine ⟨hc.1, ?_⟩
    have h := hc.2
    rw [hda, hdb, startOfDay_idem, startOfDay_idem] at h
    rw [hda, hdb, h]
  have inv : (∀ r ∈ s'.1.presences, r.clock_in ≠ none) ∧ UniquePerDay tz s'.1.presences := by
    unfold Reachable at hreach
    induction hreach with
    | refl => exact ⟨init1, init2⟩
    | tail _ hstep ih => exact step_preserves tz _ _ hstep ih.1 ih.2
  exact ⟨inv.2, fun r hr _ => inv.1 r hr⟩

/-- Witness for C3: user 7 clocked in on day 0; user 8 then clocks in at 08:20 of day 0. -/
theorem C3_reachable_invariant_witness :
    UniquePerDay 0 (clockIn 0 ⟨fun _ => "08.20.00", none⟩
      ⟨[⟨7, 0, some 25000000, none, ⟨0, 0⟩, ⟨none, none⟩, AttendanceStatus.ontime⟩], [],
        [⟨"Kantor", 0, 0, 100⟩]⟩ 8 0 0 30000000 30000000 30000000).2.presences :=
  (C3_reachable_invariant 0
    (⟨[⟨7, 0, some 25000000, none, ⟨0, 0⟩, ⟨none, none⟩, AttendanceStatus.ontime⟩], [],
      [⟨"Kantor", 0, 0, 100⟩]⟩, 0) (_, 30000000)
    (by
      intro r hr
      rw [List.mem_singleton] at hr
      subst hr
      exact ⟨25000000, rfl, by decide⟩)
    (List.pairwise_singleton _ _)
    (Relation.ReflTransGen.single
      (Step.clockIn ⟨fun _ => "08.20.00", none⟩ _ 0 8 0 0 30000000 30000000 30000000
        (by decide) (by decide) (by decide)))).1


/-! ## Work duration and its formatting -/

theorem round_div_minute (d : Int) :
    ⌊(d : ℚ) / (1000 * 60) + 1 / 2⌋ = (d + 30000) / 60000 := by
  have e : (d : ℚ) / (1000 * 60) + 1 / 2 = ((d + 30000 : Int) : ℚ) / ((60000 : Nat) : ℚ) := by
    push_cast
    ring
  rw [e, Rat.floor_intCast_div_natCast]
  rfl

theorem calculateWorkDuration_some (i o : Int) :
    calculateWorkDuration (some i) (some o) = (o - i + 30000) / 60000 := by
  simp only [calculateWorkDuration]
  exact round_div_minute (o - i)

theorem workDuration_some (p : Presence) (i o : Int) (hi : p.clock_in = some i)
    (ho : p.clock_out = some o) : p.workDuration = some ((o - i + 30000) / 60000) := by
  simp only [Presence.workDuration, hi, ho]
  rw [round_div_minute]

/-- Claim C11. With both instants present, `calculateWorkDuration` is the elapsed time in
minutes rounded to the nearest integer (halves up): the result `m` is the integer with
`elapsed / 60000 - 1/2 < m <= elapsed / 60000 + 1/2`. An elapsed time of exactly `k` minutes
gives `k`; 08:00:00 to 17:00:00 gives 540; and a missing argument gives 0. -/
theorem C11_calculateWorkDuration_rounds (clockIn clockOut : Int) :
    (((clockOut - clockIn : Int) : ℚ) / 60000 - 1 / 2 <
        ((calculateWorkDuration (some clockIn) (some clockOut) : Int) : ℚ) ∧
      ((calculateWorkDuration (some clockIn) (some clockOut) : Int) : ℚ) ≤
        ((clockOut - clockIn : Int) : ℚ) / 60000 + 1 / 2) ∧
    (∀ k : Int, clockOut - clockIn = 60000 * k →
      calculateWorkDuration (some clockIn) (some clockOut) = k) ∧
    calculateWorkDuration (some (clockIn + 28800000)) (some (clockIn + 61200000)) = 540 ∧
    calculateWorkDuration none (some clockOut) = 0 ∧
    calculateWorkDuration (some clockIn) none = 0 ∧
    calculateWorkDuration none none = 0 := by
  refine ⟨?_, ?_, ?_, rfl, rfl, rfl⟩
  · rw [calculateWorkDuration_some]
    have h1 := Int.emod_add_ediv (clockOut - clockIn + 30000) 60000
    have h2 := Int.emod_nonneg (clockOut - clockIn + 30000) (by decide : (60000 : Int) ≠ 0)
    have h3 := Int.emod_lt_of_pos (clockOut - clockIn + 30000) (by decide : (0 : Int) < 60000)
    generalize (clockOut - clockIn + 30000) / 60000 = q at h1
    generalize (clockOut - clockIn + 30000) % 60000 = r at h1 h2 h3
    have e : clockOut - clockIn = 60000 * q + r - 30000 := by omega
    rw [e]
    have h2q : (0 : ℚ) ≤ (r : ℚ) := by exact_mod_cast h2
    have h3q : (r : ℚ) < 60000 := by exact_mod_cast h3
    push_cast
    constructor <;> linarith
  · intro k hk
    rw [calculateWorkDuration_some, hk]
    omega
  · rw [calculateWorkDuration_some]
    omega

/-- Witness for C11: clock-in 08:00:00 and clock-out 17:00:00 on day 0, 540 whole minutes. -/
theorem C11_calculateWorkDuration_rounds_witness :
    calculateWorkDuration (some 28800000) (some 61200000) = 540 :=
  (C11_calculateWorkDuration_rounds 28800000 61200000).2.1 540 (by decide)

/-- Counterexample to claim C12 as stated. A clock-out one minute before the clock-in gives a
work duration of -1 minute, from `calculateWorkDuration` and from the `workDuration` virtual:
the value is not clamped. -/
theorem C12_counterexample :
    calculateWorkDuration (some 60000) (some 0) = -1 ∧
    (Presence.mk 7 0 (some 60000) (some 0) ⟨0, 0⟩ ⟨some 0, some 0⟩
      AttendanceStatus.ontime).workDuration = some (-1) ∧
    ¬ (0 ≤ calculateWorkDuration (some 60000) (some 0)) := by
  have h : calculateWorkDuration (some 60000) (some 0) = -1 := by
    rw [calculateWorkDuration_some]; decide
  refine ⟨h, ?_, ?_⟩
  · rw [workDuration_some _ 60000 0 rfl rfl]; decide
  · rw [h]; decide

/-- Claim C12, amended. The work duration is not clamped. `calculateWorkDuration` and the
`workDuration` virtual agree whenever both instants are present; the value is `>= 0` exactly
when the clock-out is no more than 30 seconds before the clock-in (in particular whenever
`clockOut >= clockIn`), and it is negative when the clock-out is earlier than that. -/
theorem C12_workDuration_sign (p : Presence) (clockIn clockOut : Int)
    (hi : p.clock_in = some clockIn) (ho : p.clock_out = some clockOut) :
    p.workDuration = some (calculateWorkDuration (some clockIn) (some clockOut)) ∧
    (0 ≤ calculateWorkDuration (some clockIn) (some clockOut) ↔
      clockIn - 30000 ≤ clockOut) ∧
    (clockIn ≤ clockOut → 0 ≤ calculateWorkDuration (some clockIn) (some clockOut)) ∧
    (clockOut < clockIn - 30000 →
      calculateWorkDuration (some clockIn) (some clockOut) < 0) := by
  rw [workDuration_some p clockIn clockOut hi ho, calculateWorkDuration_some]
  refine ⟨rfl, ?_, ?_, ?_⟩
  · constructor <;> intro h <;> omega
  · intro h; omega
  · intro h; omega

/-- Witness for the amended C12: clock-in 08:00, clock-out 17:00 on day 0. -/
theorem C12_workDuration_sign_witness :
    (Presence.mk 7 0 (some 28800000) (some 61200000) ⟨0, 0⟩ ⟨some 0, some 0⟩
      AttendanceStatus.ontime).workDuration =
      some (calculateWorkDuration (some 28800000) (some 61200000)) ∧
    0 ≤ calculateWorkDuration (some 28800000) (some 61200000) :=
  ⟨(C12_workDuration_sign _ 28800000 61200000 rfl rfl).1,
    (C12_workDuration_sign (Presence.mk 7 0 (some 28800000) (some 61200000) ⟨0, 0⟩
      ⟨some 0, some 0⟩ AttendanceStatus.ontime) 28800000 61200000 rfl rfl).2.2.1
      (by decide)⟩

theorem toString_natCast (n : Nat) : toString ((n : Nat) : Int) = toString n := rfl

/-- Claim C13. For a whole number `m >= 0` of minutes, `formatDuration m` is "0m" when
`m = 0`, the decimal of `m` followed by "m" when `0 < m < 60`, the decimal of `m / 60`
followed by "h" when `m >= 60` is a multiple of 60, and otherwise the decimal of
`floor (m / 60)`, "h ", the decimal of `m mod 60` and "m". So 60 gives "1h", 90 gives
"1h 30m", 30 gives "30m" and 0 gives "0m". A negative or missing argument gives "0m". -/
theorem C13_formatDuration_cases (m : Nat) :
    formatDuration (some (m : Int)) =
      (if m = 0 then "0m"
       else if m < 60 then toString m ++ "m"
       else if m % 60 = 0 then toString (m / 60) ++ "h"
       else toString (m / 60) ++ "h " ++ toString (m % 60) ++ "m") ∧
    formatDuration (some 60) = "1h" ∧
    formatDuration (some 90) = "1h 30m" ∧
    formatDuration (some 30) = "30m" ∧
    formatDuration (some 0) = "0m" ∧
    (∀ k : Int, k < 0 → formatDuration (some k) = "0m") ∧
    formatDuration none = "0m" := by
  refine ⟨?_, by decide, by decide, by decide, by decide, ?_, rfl⟩
  · have hq : ((m : Int) / 60) = ((m / 60 : Nat) : Int) := by norm_cast
    have hr : ((m : Int) % 60) = ((m % 60 : Nat) : Int) := by norm_cast
    unfold formatDuration
    simp only [hq, hr, toString_natCast]
    by_cases h0 : m = 0
    · subst h0; rfl
    · have h0i : ¬ ((m : Int) = 0 ∨ (m : Int) < 0) := by omega
      rw [if_neg h0i, if_neg h0]
      by_cases h1 : m < 60
      · have e1 : m / 60 = 0 := by omega
        have e2 : m % 60 = m := by omega
        rw [if_pos h1, e1, e2]
        simp
      · have e1 : ¬ (((m / 60 : Nat) : Int) = 0) := by omega
        rw [if_neg h1, if_neg e1]
        by_cases h2 : m % 60 = 0
        · rw [if_pos h2, if_pos (by exact_mod_cast h2)]
        · rw [if_neg h2, if_neg (by exact_mod_cast h2)]
  · intro k hk
    unfold formatDuration
    simp only []
    rw [if_pos (Or.inr hk)]


/-- Witness for C13: a negative number of minutes is shown as "0m". -/
theorem C13_formatDuration_cases_witness : formatDuration (some (-5)) = "0m" :=
  (C13_formatDuration_cases 0).2.2.2.2.2.1 (-5) (by decide)

/-! ## Auth collections: `findOne` and `updateMany` -/

theorem findDocFrom_eq_none {α : Type} (p : α → Bool) (k : Nat) (l : List α) :
    findDocFrom p k l = none ↔ ∀ r ∈ l, p r = false := by
  induction l generalizing k with
  | nil => simp [findDocFrom]
  | cons x xs ih =>
    simp only [findDocFrom]
    by_cases h : p x = true
    · simp [h]
    · simp [h, ih]

theorem findDocFrom_some {α : Type} (p : α → Bool) (k : Nat) (l : List α) (i : Nat) (r : α)
    (h : findDocFrom p k l = some (i, r)) :
    k ≤ i ∧ l[i - k]? = some r ∧ p r = true := by
  induction l generalizing k with
  | nil => simp [findDocFrom] at h
  | cons x xs ih =>
    simp only [findDocFrom] at h
    by_cases hx : p x = true
    · rw [if_pos hx] at h
      simp only [Option.some.injEq, Prod.mk.injEq] at h
      obtain ⟨rfl, rfl⟩ := h
      exact ⟨le_refl _, by simp, hx⟩
    · rw [if_neg hx] at h
      obtain ⟨h1, h2, h3⟩ := ih (k + 1) h
      have e : i - k = (i - (k + 1)) + 1 := by omega
      refine ⟨by omega, ?_, h3⟩
      rw [e, List.getElem?_cons_succ]
      exact h2

theorem findDocFrom_zero_some {α : Type} (p : α → Bool) (l : List α) (i : Nat) (r : α)
    (h : findDocFrom p 0 l = some (i, r)) : l[i]? = some r ∧ p r = true := by
  obtain ⟨_, h2, h3⟩ := findDocFrom_some p 0 l i r h
  exact ⟨by simpa using h2, h3⟩

theorem deactivateWhere_length (f : RefreshToken → Bool) (l : List RefreshToken) :
    (deactivateWhere f l).length = l.length := by
  simp [deactivateWhere]

theorem deactivateWhere_getElem? (f : RefreshToken → Bool) (l : List RefreshToken) (i : Nat) :
    (deactivateWhere f l)[i]? =
      (l[i]?).map (fun r => if f r then { r with isActive := false } else r) := by
  simp [deactivateWhere]

theorem deactivateWhere_any_token (f : RefreshToken → Bool) (l : List RefreshToken)
    (t : String) :
    (deactivateWhere f l).any (fun r => r.token == t) = l.any (fun r => r.token == t) := by
  induction l with
  | nil => rfl
  | cons x xs ih =>
    simp only [deactivateWhere, List.map_cons, List.any_cons] at ih ⊢
    rw [ih]
    by_cases hx : f x = true
    · simp [hx]
    · simp [hx]

/-- After deactivating the active tokens of a user, no stored token of that user is active. -/
theorem deactivateWhere_user_inactive (uid : Nat) (l : List RefreshToken) :
    ∀ r ∈ deactivateWhere (fun r => r.user == uid && r.isActive) l,
      r.user = uid → r.isActive = false := by
  intro r hr hu
  simp only [deactivateWhere, List.mem_map] at hr
  obtain ⟨r0, _, rfl⟩ := hr
  by_cases h : (r0.user == uid && r0.isActive) = true
  · rw [if_pos h]
  · rw [if_neg h] at hu ⊢
    cases ha : r0.isActive with
    | false => rfl
    | true => simp [hu, ha] at h

/-- Deactivating the active tokens of a user leaves every token of another user, and every
token that is already inactive, as it is. -/
theorem deactivateWhere_frame (uid : Nat) (l : List RefreshToken) (i : Nat) (r : RefreshToken)
    (hi : l[i]? = some r) (h : r.user ≠ uid ∨ r.isActive = false) :
    (deactivateWhere (fun r => r.user == uid && r.isActive) l)[i]? = some r := by
  rw [deactivateWhere_getElem?, hi]
  simp only [Option.map_some']
  rcases h with h | h
  · simp [h]
  · by_cases c : (r.user == uid && r.isActive) = true
    · rw [if_pos c]
      cases r
      simp only at h
      simp [h]
    · rw [if_neg c]

theorem deactivateWhere_filter_nil (uid : Nat) (l : List RefreshToken) :
    (deactivateWhere (fun r => r.user == uid && r.isActive) l).filter
      (fun r => r.user == uid && r.isActive) = [] := by
  rw [List.filter_eq_nil_iff]
  intro r hr
  by_cases hu : r.user = uid
  · simp [deactivateWhere_user_inactive uid l r hr hu]
  · simp [hu]

/-! ## Login -/

/-- What a successful `login` did. -/
theorem login_spec (env : AuthEnv) (db : AuthDb) (email password : String)
    (device : RequestDevice) (t0 t1 : Int)
    (hok : (login env db email password device t0 t1).1.succeeded = true) :
    ∃ (userId : Nat) (user : User) (info : DeviceInfo),
      findDocFrom (fun u : User => u.email == email) 0 db.users = some (userId, user) ∧
      env.comparePassword password user.password = true ∧
      (∀ r ∈ db.refreshTokens, r.token ≠ env.signRefreshToken userId user.role) ∧
      (login env db email password device t0 t1).2.refreshTokens =
        deactivateWhere (fun r => r.user == userId && r.isActive) db.refreshTokens ++
          [⟨userId, env.signRefreshToken userId user.role, t0 + 604800000, true, info⟩] ∧
      (login env db email password device t0 t1).2.users = db.users ∧
      (login env db email password device t0 t1).2.passwordResets = db.passwordResets ∧
      (login env db email password device t0 t1).1 =
        AuthOutcome.sent ⟨200, true, "Login berhasil",
          some ⟨userId, user.name, user.email, user.role⟩,
          some (env.signAccessToken userId user.role),
          some (env.signRefreshToken userId user.role),
          [("accessToken", env.signAccessToken userId user.role),
            ("refreshToken", env.signRefreshToken userId user.role)], []⟩ := by
  unfold login at hok ⊢
  cases hf : findDocFrom (fun u : User => u.email == email) 0 db.users with
  | none =>
    rw [hf] at hok
    simp [AuthOutcome.succeeded] at hok
  | some x =>
    obtain ⟨userId, user⟩ := x
    rw [hf] at hok
    simp only [] at hok ⊢
    cases hc : env.comparePassword password user.password with
    | false =>
      simp [hc, AuthOutcome.succeeded] at hok
    | true =>
      simp only [hc, Bool.not_true, Bool.false_eq_true, if_false] at hok ⊢
      unfold RefreshToken.create at hok ⊢
      simp only [deactivateWhere_any_token] at hok ⊢
      by_cases hany : db.refreshTokens.any
          (fun r => r.token == env.signRefreshToken userId user.role) = true
      · simp [hany, AuthOutcome.succeeded] at hok
      · simp only [hany, if_false] at hok ⊢
        cases hn : env.notificationError with
        | some err =>
          simp [hn, AuthOutcome.succeeded] at hok
        | none =>
          refine ⟨userId, user, ⟨device.userAgent, device.ip,
            match device.deviceType with
            | some d => if d = "" then "unknown" else d
            | none => "unknown"⟩, rfl, hc, ?_, ?_, ?_, ?_, ?_⟩
          · intro r hr heq
            apply hany
            rw [List.any_eq_true]
            exact ⟨r, hr, by simp [heq]⟩
          all_goals simp


theorem deactivateWhere_user (uid : Nat) (l : List RefreshToken) (i : Nat) (r : RefreshToken)
    (hi : l[i]? = some r) (hu : r.user = uid) :
    (deactivateWhere (fun r => r.user == uid && r.isActive) l)[i]? =
      some { r with isActive := false } := by
  rw [deactivateWhere_getElem?, hi]
  simp only [Option.map_some', Option.some.injEq]
  by_cases c : (r.user == uid && r.isActive) = true
  · rw [if_pos c]
  · rw [if_neg c]
    cases ha : r.isActive with
    | true => simp [hu, ha] at c
    | false =>
      cases r
      simp only at ha
      simp [ha]

/-- The refresh-token store after a successful `login`. -/
theorem login_effect (env : AuthEnv) (db : AuthDb) (email password : String)
    (device : RequestDevice) (t0 t1 : Int)
    (hok : (login env db email password device t0 t1).1.succeeded = true) :
    ∃ (userId : Nat) (user : User) (new : RefreshToken),
      findDocFrom (fun u : User => u.email == email) 0 db.users = some (userId, user) ∧
      new.user = userId ∧ new.token = env.signRefreshToken userId user.role ∧
      new.isActive = true ∧
      (∀ r ∈ db.refreshTokens, r.token ≠ new.token) ∧
      (login env db email password device t0 t1).2.refreshTokens.filter
        (fun r => r.user == userId && r.isActive) = [new] ∧
      (login env db email password device t0 t1).2.refreshTokens.length =
        db.refreshTokens.length + 1 ∧
      (login env db email password device t0 t1).2.refreshTokens[db.refreshTokens.length]? =
        some new ∧
      (∀ (i : Nat) (r : RefreshToken), db.refreshTokens[i]? = some r → r.user = userId →
        (login env db email password device t0 t1).2.refreshTokens[i]? =
          some { r with isActive := false }) ∧
      (∀ (i : Nat) (r : RefreshToken), db.refreshTokens[i]? = some r → r.user ≠ userId →
        (login env db email password device t0 t1).2.refreshTokens[i]? = some r) ∧
      (login env db email password device t0 t1).2.users = db.users := by
  obtain ⟨userId, user, info, hf, _, hfresh, htok, husers, _, _⟩ :=
    login_spec env db email password device t0 t1 hok
  refine ⟨userId, user,
    ⟨userId, env.signRefreshToken userId user.role, t0 + 604800000, true, info⟩,
    hf, rfl, rfl, rfl, hfresh, ?_, ?_, ?_, ?_, ?_, husers⟩
  · rw [htok, List.filter_append, deactivateWhere_filter_nil]
    simp
  · rw [htok, List.length_append, deactivateWhere_length]
    rfl
  · rw [htok, List.getElem?_append_right (by rw [deactivateWhere_length])]
    simp [deactivateWhere_length]
  · intro i r hi hu
    have hlt : i < db.refreshTokens.length := (List.getElem?_eq_some.1 hi).1
    rw [htok, List.getElem?_append_left (by rw [deactivateWhere_length]; exact hlt)]
    exact deactivateWhere_user userId db.refreshTokens i r hi hu
  · intro i r hi hu
    have hlt : i < db.refreshTokens.length := (List.getElem?_eq_some.1 hi).1
    rw [htok, List.getElem?_append_left (by rw [deactivateWhere_length]; exact hlt)]
    exact deactivateWhere_frame userId db.refreshTokens i r hi (Or.inl hu)

/-- Claim C14. After a successful `login` of a user (success implies that the newly issued
refresh token was not yet stored), the active refresh tokens of that user are exactly the one
just issued, stored last; every token of the user stored before is still stored at its
position with `isActive = false`, and the tokens of other users are unchanged. Hence when the
same user logs in successfully a second time, only the second token is active and the first
one is stored inactive. -/
theorem C14_login_single_active (env : AuthEnv) (db : AuthDb) (email password : String)
    (device : RequestDevice) (t0 t1 : Int)
    (hok : (login env db email password device t0 t1).1.succeeded = true) :
    ∃ (userId : Nat) (user : User) (new : RefreshToken),
      findDocFrom (fun u : User => u.email == email) 0 db.users = some (userId, user) ∧
      new.user = userId ∧ new.token = env.signRefreshToken userId user.role ∧
      new.isActive = true ∧
      (∀ r ∈ db.refreshTokens, r.token ≠ new.token) ∧
      (login env db email password device t0 t1).2.refreshTokens.filter
        (fun r => r.user == userId && r.isActive) = [new] ∧
      (login env db email password device t0 t1).2.refreshTokens.length =
        db.refreshTokens.length + 1 ∧
      (login env db email password device t0 t1).2.refreshTokens[db.refreshTokens.length]? =
        some new ∧
      (∀ (i : Nat) (r : RefreshToken), db.refreshTokens[i]? = some r → r.user = userId →
        (login env db email password device t0 t1).2.refreshTokens[i]? =
          some { r with isActive := false }) ∧
      (∀ (i : Nat) (r : RefreshToken), db.refreshTokens[i]? = some r → r.user ≠ userId →
        (login env db email password device t0 t1).2.refreshTokens[i]? = some r) ∧
      (∀ (env2 : AuthEnv) (email2 password2 : String) (device2 : RequestDevice)
          (t2 t3 : Int) (user2 : User),
        findDocFrom (fun u : User => u.email == email2) 0 db.users = some (userId, user2) →
        (login env2 (login env db email password device t0 t1).2 email2 password2 device2
          t2 t3).1.succeeded = true →
        ∃ new2 : RefreshToken,
          new2.token = env2.signRefreshToken userId user2.role ∧
          new2.token ≠ new.token ∧
          (login env2 (login env db email password device t0 t1).2 email2 password2 device2
            t2 t3).2.refreshTokens.filter (fun r => r.user == userId && r.isActive) =
              [new2] ∧
          (login env2 (login env db email password device t0 t1).2 email2 password2 device2
            t2 t3).2.refreshTokens[db.refreshTokens.length]? =
              some { new with isActive := false }) := by
  obtain ⟨userId, user, new, hf, hu, ht, ha, hfresh, hfilter, hlen, hlast, hmine, hother,
    husers⟩ := login_effect env db email password device t0 t1 hok
  refine ⟨userId, user, new, hf, hu, ht, ha, hfresh, hfilter, hlen, hlast, hmine, hother, ?_⟩
  intro env2 email2 password2 device2 t2 t3 user2 hf2 hok2
  obtain ⟨userId2, user2', new2, hf2', _, ht2, _, hfresh2, hfilter2, _, _, hmine2, _, _⟩ :=
    login_effect env2 _ email2 password2 device2 t2 t3 hok2
  rw [husers, hf2] at hf2'
  simp only [Option.some.injEq, Prod.mk.injEq] at hf2'
  obtain ⟨rfl, rfl⟩ := hf2'
  refine ⟨new2, ht2, ?_, hfilter2, hmine2 _ new hlast hu⟩
  exact fun e => hfresh2 new (List.getElem?_mem hlast) e.symm


/-- Witness for C14: one user with one active token logs in again. -/
theorem C14_login_single_active_witness :
    ∃ (userId : Nat) (new : RefreshToken),
      new.token = "R1" ∧
      (login ⟨fun p h => p == h, fun p => p, fun _ _ => "A1", fun _ _ => "R1", fun _ => none,
          fun _ => "1/1/1970", false, none⟩
        ⟨[⟨"Budi", "budi@kantor.id", "rahasia", Role.karyawan⟩],
          [⟨0, "R0", 1000, true, ⟨none, none, "unknown"⟩⟩], [], []⟩
        "budi@kantor.id" "rahasia" ⟨none, none, none⟩ 5000 5000).2.refreshTokens.filter
          (fun r => r.user == userId && r.isActive) = [new] := by
  obtain ⟨userId, _, new, _, _, ht, _, _, hfilter, _⟩ :=
    C14_login_single_active
      ⟨fun p h => p == h, fun p => p, fun _ _ => "A1", fun _ _ => "R1", fun _ => none,
        fun _ => "1/1/1970", false, none⟩
      ⟨[⟨"Budi", "budi@kantor.id", "rahasia", Role.karyawan⟩],
        [⟨0, "R0", 1000, true, ⟨none, none, "unknown"⟩⟩], [], []⟩
      "budi@kantor.id" "rahasia" ⟨none, none, none⟩ 5000 5000 (by decide)
  exact ⟨userId, new, ht, hfilter⟩

/-! ## Refresh -/

theorem refresh_db (env : AuthEnv) (db : AuthDb) (cookie : Option String) (now : Int) :
    (refresh env db cookie now).2 = db := by
  unfold refresh
  repeat' split
  all_goals rfl

/-- What a successful `refresh` found and answered. -/
theorem refresh_success (env : AuthEnv) (db : AuthDb) (cookie : Option String) (now : Int)
    (hok : (refresh env db cookie now).1.succeeded = true) :
    ∃ (token : String) (id i : Nat) (record : RefreshToken) (user : User),
      cookie = some token ∧ token ≠ "" ∧ env.verifyRefreshToken token = some id ∧
      db.refreshTokens[i]? = some record ∧ record.token = token ∧ record.user = id ∧
      record.isActive = true ∧ record.expires > now ∧ db.users[id]? = some user ∧
      (refresh env db cookie now).1 =
        AuthOutcome.sent ⟨200, true, "Token berhasil diperbarui", none,
          some (env.signAccessToken id user.role), none,
          [("accessToken", env.signAccessToken id user.role)], []⟩ := by
  unfold refresh at hok ⊢
  cases cookie with
  | none => simp [AuthOutcome.succeeded] at hok
  | some token =>
    simp only [] at hok ⊢
    by_cases he : token = ""
    · simp [he, AuthOutcome.succeeded] at hok
    · simp only [he, if_false] at hok ⊢
      cases hv : env.verifyRefreshToken token with
      | none => simp [hv, AuthOutcome.succeeded] at hok
      | some id =>
        simp only [hv] at hok ⊢
        cases hf : findDocFrom
            (fun r : RefreshToken => r.token == token && r.user == id && r.isActive)
            0 db.refreshTokens with
        | none => simp [hf, AuthOutcome.succeeded] at hok
        | some x =>
          obtain ⟨i, record⟩ := x
          simp only [hf] at hok ⊢
          obtain ⟨hi, hp⟩ := findDocFrom_zero_some _ db.refreshTokens i record hf
          simp only [Bool.and_eq_true, beq_iff_eq] at hp
          cases hvalid : record.isValid now with
          | false => simp [hvalid, AuthOutcome.succeeded] at hok
          | true =>
            simp only [hvalid, Bool.not_true, Bool.false_eq_true, if_false] at hok ⊢
            have hexp : record.expires > now := by
              simp only [RefreshToken.isValid, Bool.and_eq_true, decide_eq_true_eq] at hvalid
              exact hvalid.2
            cases hu : db.users[id]? with
            | none => simp [hu, AuthOutcome.succeeded] at hok
            | some user =>
              refine ⟨token, id, i, record, user, rfl, he, hv, hi, hp.1.1, hp.1.2, hp.2,
                hexp, hu, ?_⟩
              simp [hu]

/-- A presented token that fails a check gets the one invalid-token answer. -/
theorem refresh_invalid (env : AuthEnv) (db : AuthDb) (token : String) (now : Int)
    (hne : token ≠ "") (hfail : RefreshCheckFails env db token now) :
    refresh env db (some token) now =
      (AuthOutcome.sent ⟨401, false, "Refresh token tidak valid", none, none, none, [], []⟩,
        db) := by
  unfold refresh
  simp only [hne, if_false]
  cases hv : env.verifyRefreshToken token with
  | none => rfl
  | some id =>
    simp only []
    cases hf : findDocFrom
        (fun r : RefreshToken => r.token == token && r.user == id && r.isActive)
        0 db.refreshTokens with
    | none => rfl
    | some x =>
      obtain ⟨i, record⟩ := x
      simp only []
      obtain ⟨hi, hp⟩ := findDocFrom_zero_some _ db.refreshTokens i record hf
      simp only [Bool.and_eq_true, beq_iff_eq] at hp
      rcases hfail with hnone | ⟨id', hid, hall⟩
      · rw [hv] at hnone; cases hnone
      · rw [hv] at hid
        simp only [Option.some.injEq] at hid
        subst hid
        have hle := hall record (List.getElem?_mem hi) hp.1.1 hp.1.2 hp.2
        have hvalid : record.isValid now = false := by
          simp only [RefreshToken.isValid, Bool.and_eq_false_iff, decide_eq_false_iff_not]
          right
          omega
        simp [hvalid]

/-- Claim C15. Any two refresh requests that each present a (non-empty) refresh token failing
one of the checks - bad signature or expired token, no matching stored record, matching record
inactive, matching record past its `expires` - get the same outcome: status 401 with body
`success: false, message: "Refresh token tidak valid"`, no access token in the body, no cookie
set, and the database unchanged. -/
theorem C15_refresh_failures_indistinguishable (env1 env2 : AuthEnv) (db1 db2 : AuthDb)
    (token1 token2 : String) (now1 now2 : Int)
    (hne1 : token1 ≠ "") (hfail1 : RefreshCheckFails env1 db1 token1 now1)
    (hne2 : token2 ≠ "") (hfail2 : RefreshCheckFails env2 db2 token2 now2) :
    (refresh env1 db1 (some token1) now1).1 = (refresh env2 db2 (some token2) now2).1 ∧
    (refresh env1 db1 (some token1) now1).1 =
      AuthOutcome.sent ⟨401, false, "Refresh token tidak valid", none, none, none, [], []⟩ ∧
    (refresh env1 db1 (some token1) now1).2 = db1 ∧
    (refresh env2 db2 (some token2) now2).2 = db2 := by
  rw [refresh_invalid env1 db1 token1 now1 hne1 hfail1,
    refresh_invalid env2 db2 token2 now2 hne2 hfail2]
  exact ⟨rfl, rfl, rfl, rfl⟩

/-- Witness for C15: a token with a bad signature against a well-signed token whose stored
record has expired. -/
theorem C15_refresh_failures_indistinguishable_witness :
    (refresh ⟨fun p h => p == h, fun p => p, fun _ _ => "A1", fun _ _ => "R1", fun _ => none,
        fun _ => "1/1/1970", false, none⟩
      ⟨[⟨"Budi", "budi@kantor.id", "rahasia", Role.karyawan⟩], [], [], []⟩
      (some "palsu") 5000).1 =
    (refresh ⟨fun p h => p == h, fun p => p, fun _ _ => "A1", fun _ _ => "R1",
        fun t => if t = "R0" then some 0 else none, fun _ => "1/1/1970", false, none⟩
      ⟨[⟨"Budi", "budi@kantor.id", "rahasia", Role.karyawan⟩],
        [⟨0, "R0", 1000, true, ⟨none, none, "unknown"⟩⟩], [], []⟩
      (some "R0") 5000).1 :=
  (C15_refresh_failures_indistinguishable _ _ _ _ "palsu" "R0" 5000 5000 (by decide)
    (Or.inl rfl) (by decide)
    (Or.inr ⟨0, rfl, by
      intro r hr _ _ _
      rw [List.mem_singleton] at hr
      subst hr
      decide⟩)).1

/-- Claim C16. `refresh` succeeds only when a stored record matches the presented token and
the user decoded from it, is active and has `expires` strictly after `now`. A successful
refresh answers 200 with a new access token only: `data` carries `accessToken`, the only cookie
set is `accessToken`, and no refresh token is in the body or the cookies. Every `refresh`,
successful or not, leaves the database (the refresh-token store included) unchanged. -/
theorem C16_refresh_success_frame (env : AuthEnv) (db : AuthDb) (cookie : Option String)
    (now : Int) :
    (refresh env db cookie now).2 = db ∧
    ((refresh env db cookie now).1.succeeded = true →
      ∃ (token : String) (id : Nat) (record : RefreshToken) (user : User) (res : AuthResponse),
        cookie = some token ∧ env.verifyRefreshToken token = some id ∧
        record ∈ db.refreshTokens ∧ record.token = token ∧ record.user = id ∧
        record.isActive = true ∧ record.expires > now ∧
        db.users[id]? = some user ∧
        (refresh env db cookie now).1 = AuthOutcome.sent res ∧
        res.status = 200 ∧
        res.accessToken = some (env.signAccessToken id user.role) ∧
        res.refreshToken = none ∧
        res.cookies = [("accessToken", env.signAccessToken id user.role)] ∧
        ∀ c ∈ res.cookies, c.1 ≠ "refreshToken") := by
  refine ⟨refresh_db env db cookie now, ?_⟩
  intro hok
  obtain ⟨token, id, i, record, user, hc, _, hv, hi, ht, hu, ha, he, hus, hres⟩ :=
    refresh_success env db cookie now hok
  refine ⟨token, id, record, user, _, hc, hv, List.getElem?_mem hi, ht, hu, ha, he, hus, hres,
    rfl, rfl, rfl, rfl, ?_⟩
  intro c hc'
  simp only [List.mem_singleton] at hc'
  subst hc'
  simp

/-- Witness for C16: a well-signed token with an active, unexpired stored record. -/
theorem C16_refresh_success_frame_witness :
    ∃ res : AuthResponse,
      (refresh ⟨fun p h => p == h, fun p => p, fun _ _ => "A1", fun _ _ => "R1",
          fun t => if t = "R0" then some 0 else none, fun _ => "1/1/1970", false, none⟩
        ⟨[⟨"Budi", "budi@kantor.id", "rahasia", Role.karyawan⟩],
          [⟨0, "R0", 9000, true, ⟨none, none, "unknown"⟩⟩], [], []⟩
        (some "R0") 5000).1 = AuthOutcome.sent res ∧
      res.refreshToken = none := by
  obtain ⟨_, _, _, _, res, _, _, _, _, _, _, _, _, hres, _, _, hnone, _⟩ :=
    (C16_refresh_success_frame
      ⟨fun p h => p == h, fun p => p, fun _ _ => "A1", fun _ _ => "R1",
        fun t => if t = "R0" then some 0 else none, fun _ => "1/1/1970", false, none⟩
      ⟨[⟨"Budi", "budi@kantor.id", "rahasia", Role.karyawan⟩],
        [⟨0, "R0", 9000, true, ⟨none, none, "unknown"⟩⟩], [], []⟩
      (some "R0") 5000).2 (by decide)
  exact ⟨res, hres, hnone⟩


/-! ## Logout from all devices, reset password, change password -/

/-- What a successful `resetPassword` consumed and wrote. -/
theorem resetPassword_spec (env : AuthEnv) (db : AuthDb) (email resetCode newPassword : String)
    (now : Int)
    (hok : (resetPassword env db email resetCode newPassword now).1.succeeded = true) :
    ∃ (i : Nat) (record : PasswordReset) (user : User),
      db.passwordResets[i]? = some record ∧ record.email = email ∧
      record.resetCode = resetCode ∧ record.isUsed = false ∧ record.expires > now ∧
      db.users[record.user]? = some user ∧
      (resetPassword env db email resetCode newPassword now).2.users =
        db.users.set record.user (User.savePassword env user newPassword) ∧
      (resetPassword env db email resetCode newPassword now).2.passwordResets =
        db.passwordResets.set i record.markAsUsed ∧
      (resetPassword env db email resetCode newPassword now).2.refreshTokens =
        deactivateWhere (fun r => r.user == record.user && r.isActive) db.refreshTokens := by
  unfold resetPassword at hok ⊢
  cases hf : findDocFrom
      (fun p : PasswordReset => p.email == email && p.resetCode == resetCode && !p.isUsed)
      0 db.passwordResets with
  | none => simp [hf, AuthOutcome.succeeded] at hok
  | some x =>
    obtain ⟨i, record⟩ := x
    simp only [hf] at hok ⊢
    obtain ⟨hi, hp⟩ := findDocFrom_zero_some _ db.passwordResets i record hf
    simp only [Bool.and_eq_true, beq_iff_eq, Bool.not_eq_true'] at hp
    cases hvalid : record.isValid now with
    | false => simp [hvalid, AuthOutcome.succeeded] at hok
    | true =>
      simp only [hvalid, Bool.not_true, Bool.false_eq_true, if_false] at hok ⊢
      have hexp : record.expires > now := by
        simp only [PasswordReset.isValid, Bool.and_eq_true, decide_eq_true_eq] at hvalid
        exact hvalid.2
      cases hu : db.users[record.user]? with
      | none => simp [hu, AuthOutcome.succeeded] at hok
      | some user =>
        refine ⟨i, record, user, hi, hp.1.1, hp.1.2, hp.2, hexp, hu, ?_, ?_, ?_⟩
        all_goals
          simp only [hu]
          cases hn : env.notificationError <;> rfl

/-- Every `resetPassword`, whatever its outcome, either leaves the reset records as they are or
marks one record that was unused. -/
theorem resetPassword_passwordResets (env : AuthEnv) (db : AuthDb)
    (email resetCode newPassword : String) (now : Int) :
    (resetPassword env db email resetCode newPassword now).2.passwordResets =
        db.passwordResets ∨
    ∃ (i : Nat) (record : PasswordReset),
      db.passwordResets[i]? = some record ∧ record.isUsed = false ∧
      (resetPassword env db email resetCode newPassword now).2.passwordResets =
        db.passwordResets.set i record.markAsUsed := by
  unfold resetPassword
  cases hf : findDocFrom
      (fun p : PasswordReset => p.email == email && p.resetCode == resetCode && !p.isUsed)
      0 db.passwordResets with
  | none => exact Or.inl rfl
  | some x =>
    obtain ⟨i, record⟩ := x
    simp only []
    obtain ⟨hi, hp⟩ := findDocFrom_zero_some _ db.passwordResets i record hf
    simp only [Bool.and_eq_true, beq_iff_eq, Bool.not_eq_true'] at hp
    cases hvalid : record.isValid now with
    | false => exact Or.inl (by simp)
    | true =>
      simp only [Bool.not_true, Bool.false_eq_true, if_false]
      cases hu : db.users[record.user]? with
      | none => exact Or.inl rfl
      | some user =>
        right
        refine ⟨i, record, hi, hp.2, ?_⟩
        simp only []
        cases hn : env.notificationError <;> rfl

/-- Claim C17. After `logoutAll` by a user, and after a successful `resetPassword` that
consumed a reset record of a user, no stored refresh token of that user is active; the store
keeps its length, and every token of another user and every token that was already inactive
is unchanged at its position. -/
theorem C17_logoutAll_reset_deactivate (env : AuthEnv) (db : AuthDb) (userId : Nat)
    (email resetCode newPassword : String) (now : Int) :
    ((logoutAll db userId).1.succeeded = true ∧
      (∀ r ∈ (logoutAll db userId).2.refreshTokens, r.user = userId → r.isActive = false) ∧
      (logoutAll db userId).2.refreshTokens.length = db.refreshTokens.length ∧
      (∀ (i : Nat) (r : RefreshToken), db.refreshTokens[i]? = some r →
        (r.user ≠ userId ∨ r.isActive = false) →
        (logoutAll db userId).2.refreshTokens[i]? = some r)) ∧
    ((resetPassword env db email resetCode newPassword now).1.succeeded = true →
      ∃ (k : Nat) (record : PasswordReset),
        db.passwordResets[k]? = some record ∧ record.email = email ∧
        record.resetCode = resetCode ∧
        (∀ r ∈ (resetPassword env db email resetCode newPassword now).2.refreshTokens,
          r.user = record.user → r.isActive = false) ∧
        (resetPassword env db email resetCode newPassword now).2.refreshTokens.length =
          db.refreshTokens.length ∧
        (∀ (i : Nat) (r : RefreshToken), db.refreshTokens[i]? = some r →
          (r.user ≠ record.user ∨ r.isActive = false) →
          (resetPassword env db email resetCode newPassword now).2.refreshTokens[i]? =
            some r)) := by
  constructor
  · refine ⟨rfl, ?_, ?_, ?_⟩
    · exact deactivateWhere_user_inactive userId db.refreshTokens
    · exact deactivateWhere_length _ db.refreshTokens
    · intro i r hi h
      exact deactivateWhere_frame userId db.refreshTokens i r hi h
  · intro hok
    obtain ⟨k, record, user, hk, he, hc, _, _, _, _, _, htok⟩ :=
      resetPassword_spec env db email resetCode newPassword now hok
    refine ⟨k, record, hk, he, hc, ?_, ?_, ?_⟩
    · rw [htok]
      exact deactivateWhere_user_inactive record.user db.refreshTokens
    · rw [htok]
      exact deactivateWhere_length _ db.refreshTokens
    · intro i r hi h
      rw [htok]
      exact deactivateWhere_frame record.user db.refreshTokens i r hi h

/-- Witness for C17: user 0 has an active token and an unused, unexpired reset code; user 1
has an active token. -/
theorem C17_logoutAll_reset_deactivate_witness :
    (resetPassword ⟨fun p h => p == h, fun p => p, fun _ _ => "A1", fun _ _ => "R1",
        fun _ => none, fun _ => "1/1/1970", false, none⟩
      ⟨[⟨"Budi", "budi@kantor.id", "rahasia", Role.karyawan⟩,
          ⟨"Sari", "sari@kantor.id", "kunci", Role.admin⟩],
        [⟨0, "R0", 9000, true, ⟨none, none, "unknown"⟩⟩,
          ⟨1, "R9", 9000, true, ⟨none, none, "unknown"⟩⟩],
        [⟨0, "budi@kantor.id", "123456", 9000, false, none, none⟩], []⟩
      "budi@kantor.id" "123456" "baru" 5000).2.refreshTokens[1]? =
      some ⟨1, "R9", 9000, true, ⟨none, none, "unknown"⟩⟩ := by
  obtain ⟨k, record, hk, _, _, _, _, hframe⟩ :=
    (C17_logoutAll_reset_deactivate
      ⟨fun p h => p == h, fun p => p, fun _ _ => "A1", fun _ _ => "R1",
        fun _ => none, fun _ => "1/1/1970", false, none⟩
      ⟨[⟨"Budi", "budi@kantor.id", "rahasia", Role.karyawan⟩,
          ⟨"Sari", "sari@kantor.id", "kunci", Role.admin⟩],
        [⟨0, "R0", 9000, true, ⟨none, none, "unknown"⟩⟩,
          ⟨1, "R9", 9000, true, ⟨none, none, "unknown"⟩⟩],
        [⟨0, "budi@kantor.id", "123456", 9000, false, none, none⟩], []⟩
      0 "budi@kantor.id" "123456" "baru" 5000).2 (by decide)
  have hrec : record.user = 0 := by
    cases k with
    | zero =>
      simp only [List.getElem?_cons_zero, Option.some.injEq] at hk
      rw [← hk]
    | succ j => simp at hk
  exact hframe 1 _ rfl (Or.inl (by rw [hrec]; decide))


/-- What a successful `changePassword` wrote. -/
theorem changePassword_spec (env : AuthEnv) (db : AuthDb) (userId : Nat)
    (currentPassword newPassword : String) (cookie : Option String)
    (hok : (changePassword env db userId currentPassword newPassword cookie).1.succeeded
      = true) :
    ∃ user : User,
      db.users[userId]? = some user ∧
      env.comparePassword currentPassword user.password = true ∧
      (changePassword env db userId currentPassword newPassword cookie).2.users =
        db.users.set userId (User.savePassword env user newPassword) ∧
      (changePassword env db userId currentPassword newPassword cookie).2.refreshTokens =
        deactivateWhere
          (fun r => r.user == userId && r.isActive && decide (some r.token ≠ cookie))
          db.refreshTokens := by
  unfold changePassword at hok ⊢
  cases hu : db.users[userId]? with
  | none => simp [hu, AuthOutcome.succeeded] at hok
  | some user =>
    simp only [hu] at hok ⊢
    cases hc : env.comparePassword currentPassword user.password with
    | false => simp [hc, AuthOutcome.succeeded] at hok
    | true =>
      refine ⟨user, rfl, hc, ?_, ?_⟩
      all_goals
        simp only [Bool.not_true, Bool.false_eq_true, if_false]
        cases hn : env.notificationError <;> rfl

/-- Claim C18. After a successful `changePassword`, the stored password of the caller is the
one written by `save`, every stored refresh token whose token string is the one presented in
the `refreshToken` cookie is unchanged (it stays active if it was active), every other refresh
token of the caller is inactive, and the tokens of other users are unchanged. When the
supplied current password does not match, the answer is 400 "Password saat ini salah" and the
database (passwords and refresh tokens included) is unchanged. -/
theorem C18_changePassword_keeps_current (env : AuthEnv) (db : AuthDb) (userId : Nat)
    (currentPassword newPassword : String) (cookie : Option String) :
    ((changePassword env db userId currentPassword newPassword cookie).1.succeeded = true →
      ∃ user : User,
        db.users[userId]? = some user ∧
        env.comparePassword currentPassword user.password = true ∧
        (changePassword env db userId currentPassword newPassword cookie).2.users[userId]? =
          some (User.savePassword env user newPassword) ∧
        (∀ (i : Nat) (r : RefreshToken), db.refreshTokens[i]? = some r →
          some r.token = cookie →
          (changePassword env db userId currentPassword newPassword cookie).2.refreshTokens[i]?
            = some r) ∧
        (∀ r ∈ (changePassword env db userId currentPassword newPassword
            cookie).2.refreshTokens,
          r.user = userId → some r.token ≠ cookie → r.isActive = false) ∧
        (∀ (i : Nat) (r : RefreshToken), db.refreshTokens[i]? = some r → r.user ≠ userId →
          (changePassword env db userId currentPassword newPassword cookie).2.refreshTokens[i]?
            = some r) ∧
        (changePassword env db userId currentPassword newPassword
          cookie).2.refreshTokens.length = db.refreshTokens.length) ∧
    (∀ user : User, db.users[userId]? = some user →
      env.comparePassword currentPassword user.password = false →
      changePassword env db userId currentPassword newPassword cookie =
        (AuthOutcome.sent ⟨400, false, "Password saat ini salah", none, none, none, [], []⟩,
          db)) := by
  constructor
  · intro hok
    obtain ⟨user, hu, hc, husers, htok⟩ :=
      changePassword_spec env db userId currentPassword newPassword cookie hok
    have hlt : userId < db.users.length := (List.getElem?_eq_some.1 hu).1
    refine ⟨user, hu, hc, ?_, ?_, ?_, ?_, ?_⟩
    · rw [husers, List.getElem?_set_self hlt]
    · intro i r hi hcur
      rw [htok, deactivateWhere_getElem?, hi]
      simp [hcur]
    · intro r hr hru hne
      rw [htok] at hr
      simp only [deactivateWhere, List.mem_map] at hr
      obtain ⟨r0, _, rfl⟩ := hr
      by_cases h : (r0.user == userId && r0.isActive &&
          decide (some r0.token ≠ cookie)) = true
      · rw [if_pos h]
      · rw [if_neg h] at hru hne ⊢
        cases ha : r0.isActive with
        | false => rfl
        | true => simp [hru, ha, hne] at h
    · intro i r hi hne
      rw [htok, deactivateWhere_getElem?, hi]
      simp [hne]
    · rw [htok, deactivateWhere_length]
  · intro user hu hc
    unfold changePassword
    simp [hu, hc]

/-- Witness for C18: the caller presents token "R0" and owns a second active token "R5". -/
theorem C18_changePassword_keeps_current_witness :
    (changePassword ⟨fun p h => p == h, fun p => p, fun _ _ => "A1", fun _ _ => "R1",
        fun _ => none, fun _ => "1/1/1970", false, none⟩
      ⟨[⟨"Budi", "budi@kantor.id", "rahasia", Role.karyawan⟩],
        [⟨0, "R0", 9000, true, ⟨none, none, "unknown"⟩⟩,
          ⟨0, "R5", 9000, true, ⟨none, none, "unknown"⟩⟩], [], []⟩
      0 "rahasia" "baru" (some "R0")).2.refreshTokens[0]? =
      some ⟨0, "R0", 9000, true, ⟨none, none, "unknown"⟩⟩ ∧
    changePassword ⟨fun p h => p == h, fun p => p, fun _ _ => "A1", fun _ _ => "R1",
        fun _ => none, fun _ => "1/1/1970", false, none⟩
      ⟨[⟨"Budi", "budi@kantor.id", "rahasia", Role.karyawan⟩],
        [⟨0, "R0", 9000, true, ⟨none, none, "unknown"⟩⟩], [], []⟩
      0 "keliru" "baru" (some "R0") =
      (AuthOutcome.sent ⟨400, false, "Password saat ini salah", none, none, none, [], []⟩,
        ⟨[⟨"Budi", "budi@kantor.id", "rahasia", Role.karyawan⟩],
          [⟨0, "R0", 9000, true, ⟨none, none, "unknown"⟩⟩], [], []⟩) := by
  constructor
  · obtain ⟨_, _, _, _, hcur, _⟩ :=
      (C18_changePassword_keeps_current
        ⟨fun p h => p == h, fun p => p, fun _ _ => "A1", fun _ _ => "R1",
          fun _ => none, fun _ => "1/1/1970", false, none⟩
        ⟨[⟨"Budi", "budi@kantor.id", "rahasia", Role.karyawan⟩],
          [⟨0, "R0", 9000, true, ⟨none, none, "unknown"⟩⟩,
            ⟨0, "R5", 9000, true, ⟨none, none, "unknown"⟩⟩], [], []⟩
        0 "rahasia" "baru" (some "R0")).1 (by decide)
    exact hcur 0 _ rfl rfl
  · exact (C18_changePassword_keeps_current _ _ 0 "keliru" "baru" (some "R0")).2 _ rfl
      (by decide)

/-! ## Password-reset codes -/

theorem login_passwordResets (env : AuthEnv) (db : AuthDb) (email password : String)
    (device : RequestDevice) (t0 t1 : Int) :
    (login env db email password device t0 t1).2.passwordResets = db.passwordResets := by
  unfold login
  cases hf : findDocFrom (fun u : User => u.email == email) 0 db.users with
  | none => rfl
  | some x =>
    obtain ⟨userId, user⟩ := x
    simp only []
    cases hc : env.comparePassword password user.password with
    | false => rfl
    | true =>
      simp only [Bool.not_true, Bool.false_eq_true, if_false]
      split
      · rfl
      · cases hn : env.notificationError <;> rfl

theorem changePassword_passwordResets (env : AuthEnv) (db : AuthDb) (userId : Nat)
    (currentPassword newPassword : String) (cookie : Option String) :
    (changePassword env db userId currentPassword newPassword cookie).2.passwordResets =
      db.passwordResets := by
  unfold changePassword
  cases hu : db.users[userId]? with
  | none => rfl
  | some user =>
    simp only []
    cases hc : env.comparePassword currentPassword user.password with
    | false => rfl
    | true =>
      simp only [Bool.not_true, Bool.false_eq_true, if_false]
      cases hn : env.notificationError <;> rfl

theorem forgotPassword_passwordResets (env : AuthEnv) (db : AuthDb) (email : String)
    (ip userAgent : Option String) (r : ℚ) (t0 : Int) :
    ∃ l, (forgotPassword env db email ip userAgent r t0).2.passwordResets =
      db.passwordResets ++ l := by
  unfold forgotPassword
  cases hf : findDocFrom (fun u : User => u.email == email) 0 db.users with
  | none => exact ⟨[], by simp⟩
  | some x =>
    obtain ⟨userId, user⟩ := x
    simp only []
    cases hn : env.notificationError with
    | some err => exact ⟨_, rfl⟩
    | none =>
      simp only []
      cases he : env.emailError
      · exact ⟨_, rfl⟩
      · exact ⟨_, rfl⟩

/-- A reset record that is used is never touched again by any request of the auth
controller. -/
theorem authStep_keeps_used (db db' : AuthDb) (hstep : AuthStep db db') (i : Nat)
    (record : PasswordReset) (hi : db.passwordResets[i]? = some record)
    (hused : record.isUsed = true) : db'.passwordResets[i]? = some record := by
  cases hstep with
  | login env _ email password device t0 t1 => rw [login_passwordResets]; exact hi
  | refresh env _ cookie now => rw [refresh_db]; exact hi
  | logoutAll _ userId => exact hi
  | forgotPassword env _ email ip userAgent r t0 =>
    obtain ⟨l, hl⟩ := forgotPassword_passwordResets env db email ip userAgent r t0
    rw [hl, List.getElem?_append_left (List.getElem?_eq_some.1 hi).1]
    exact hi
  | resetPassword env _ email resetCode newPassword now =>
    rcases resetPassword_passwordResets env db email resetCode newPassword now with
      h | ⟨k, rec, hk, hunused, h⟩
    · rw [h]; exact hi
    · rw [h]
      have hne : k ≠ i := by
        intro e
        subst e
        rw [hk] at hi
        simp only [Option.some.injEq] at hi
        subst hi
        rw [hunused] at hused
        cases hused
      rw [List.getElem?_set_ne hne]
      exact hi
  | changePassword env _ userId currentPassword newPassword cookie =>
    rw [changePassword_passwordResets]; exact hi

/-- Claim C19. A successful `resetPassword` consumed a stored record with the submitted email
and code whose `isUsed` was false and whose `expires` is strictly after `now`, and it wrote
that record back with `isUsed = true`, leaving every other reset record unchanged. When every
stored record with the submitted email and code is used, the request fails with 400 and
changes nothing, whatever the `expires` of those records. A used record is never changed by
any later request of the auth controller, so it stays used and is never consumed again. -/
theorem C19_reset_code_single_use (env : AuthEnv) (db : AuthDb)
    (email resetCode newPassword : String) (now : Int) :
    ((resetPassword env db email resetCode newPassword now).1.succeeded = true →
      ∃ (i : Nat) (record : PasswordReset),
        db.passwordResets[i]? = some record ∧ record.email = email ∧
        record.resetCode = resetCode ∧ record.isUsed = false ∧ record.expires > now ∧
        (resetPassword env db email resetCode newPassword now).2.passwordResets[i]? =
          some { record with isUsed := true } ∧
        ∀ j, j ≠ i →
          (resetPassword env db email resetCode newPassword now).2.passwordResets[j]? =
            db.passwordResets[j]?) ∧
    ((∀ record ∈ db.passwordResets, record.email = email → record.resetCode = resetCode →
        record.isUsed = true) →
      resetPassword env db email resetCode newPassword now =
        (AuthOutcome.sent ⟨400, false, "Kode reset tidak valid atau sudah kadaluarsa", none,
          none, none, [], []⟩, db)) ∧
    (∀ (db' : AuthDb) (i : Nat) (record : PasswordReset),
      Relation.ReflTransGen AuthStep db db' →
      db.passwordResets[i]? = some record → record.isUsed = true →
      db'.passwordResets[i]? = some record) := by
  refine ⟨?_, ?_, ?_⟩
  · intro hok
    obtain ⟨i, record, user, hi, he, hc, hu, hexp, _, _, hpr, _⟩ :=
      resetPassword_spec env db email resetCode newPassword now hok
    have hlt : i < db.passwordResets.length := (List.getElem?_eq_some.1 hi).1
    refine ⟨i, record, hi, he, hc, hu, hexp, ?_, ?_⟩
    · rw [hpr, List.getElem?_set_self hlt]
      rfl
    · intro j hj
      rw [hpr, List.getElem?_set_ne (fun e => hj e.symm)]
  · intro hall
    have hf : findDocFrom
        (fun p : PasswordReset => p.email == email && p.resetCode == resetCode && !p.isUsed)
        0 db.passwordResets = none := by
      rw [findDocFrom_eq_none]
      intro r hr
      by_cases h1 : r.email = email
      · by_cases h2 : r.resetCode = resetCode
        · simp [hall r hr h1 h2]
        · simp [h2]
      · simp [h1]
    unfold resetPassword
    rw [hf]
  · intro db' i record hreach hi hused
    induction hreach with
    | refl => exact hi
    | tail _ hstep ih => exact authStep_keeps_used _ _ hstep i record ih hused

/-- Witness for C19: an unused, unexpired code is consumed; a used code inside its window is
refused; and the consumed record stays used after a second attempt with the same code. -/
theorem C19_reset_code_single_use_witness :
    (∃ (i : Nat) (record : PasswordReset),
      (resetPassword ⟨fun p h => p == h, fun p => p, fun _ _ => "A1", fun _ _ => "R1",
          fun _ => none, fun _ => "1/1/1970", false, none⟩
        ⟨[⟨"Budi", "budi@kantor.id", "rahasia", Role.karyawan⟩], [],
          [⟨0, "budi@kantor.id", "123456", 9000, false, none, none⟩], []⟩
        "budi@kantor.id" "123456" "baru" 5000).2.passwordResets[i]? =
        some { record with isUsed := true }) ∧
    resetPassword ⟨fun p h => p == h, fun p => p, fun _ _ => "A1", fun _ _ => "R1",
        fun _ => none, fun _ => "1/1/1970", false, none⟩
      ⟨[⟨"Budi", "budi@kantor.id", "rahasia", Role.karyawan⟩], [],
        [⟨0, "budi@kantor.id", "123456", 9000, true, none, none⟩], []⟩
      "budi@kantor.id" "123456" "lagi" 5000 =
      (AuthOutcome.sent ⟨400, false, "Kode reset tidak valid atau sudah kadaluarsa", none,
        none, none, [], []⟩,
        ⟨[⟨"Budi", "budi@kantor.id", "rahasia", Role.karyawan⟩], [],
          [⟨0, "budi@kantor.id", "123456", 9000, true, none, none⟩], []⟩) ∧
    (resetPassword ⟨fun p h => p == h, fun p => p, fun _ _ => "A1", fun _ _ => "R1",
        fun _ => none, fun _ => "1/1/1970", false, none⟩
      ⟨[⟨"Budi", "budi@kantor.id", "rahasia", Role.karyawan⟩], [],
        [⟨0, "budi@kantor.id", "123456", 9000, true, none, none⟩], []⟩
      "budi@kantor.id" "123456" "lagi" 5000).2.passwordResets[0]? =
      some ⟨0, "budi@kantor.id", "123456", 9000, true, none, none⟩ := by
  refine ⟨?_, ?_, ?_⟩
  · obtain ⟨i, record, _, _, _, _, _, h, _⟩ :=
      (C19_reset_code_single_use
        ⟨fun p h => p == h, fun p => p, fun _ _ => "A1", fun _ _ => "R1",
          fun _ => none, fun _ => "1/1/1970", false, none⟩
        ⟨[⟨"Budi", "budi@kantor.id", "rahasia", Role.karyawan⟩], [],
          [⟨0, "budi@kantor.id", "123456", 9000, false, none, none⟩], []⟩
        "budi@kantor.id" "123456" "baru" 5000).1 (by decide)
    exact ⟨i, record, h⟩
  · exact (C19_reset_code_single_use _ _ "budi@kantor.id" "123456" "lagi" 5000).2.1
      (by
        intro r hr _ _
        rw [List.mem_singleton] at hr
        subst hr
        rfl)
  · exact (C19_reset_code_single_use
        ⟨fun p h => p == h, fun p => p, fun _ _ => "A1", fun _ _ => "R1",
          fun _ => none, fun _ => "1/1/1970", false, none⟩
        ⟨[⟨"Budi", "budi@kantor.id", "rahasia", Role.karyawan⟩], [],
          [⟨0, "budi@kantor.id", "123456", 9000, true, none, none⟩], []⟩
        "budi@kantor.id" "123456" "lagi" 5000).2.2 _ 0 _
      (Relation.ReflTransGen.single (AuthStep.resetPassword _ _ _ _ _ _)) rfl rfl


theorem toDigits_six (n : Nat) (h1 : 100000 ≤ n) (h2 : n ≤ 999999) :
    Nat.toDigits 10 n =
      [Nat.digitChar (n / 100000), Nat.digitChar (n / 10000 % 10),
        Nat.digitChar (n / 1000 % 10), Nat.digitChar (n / 100 % 10),
        Nat.digitChar (n / 10 % 10), Nat.digitChar (n % 10)] := by
  obtain ⟨k, rfl⟩ : ∃ k, n = k + 6 := ⟨n - 6, by omega⟩
  have a1 : (k + 6) / 10 ≠ 0 := by omega
  have a2 : (k + 6) / 10 / 10 ≠ 0 := by omega
  have a3 : (k + 6) / 10 / 10 / 10 ≠ 0 := by omega
  have a4 : (k + 6) / 10 / 10 / 10 / 10 ≠ 0 := by omega
  have a5 : (k + 6) / 10 / 10 / 10 / 10 / 10 ≠ 0 := by omega
  have a6 : (k + 6) / 10 / 10 / 10 / 10 / 10 / 10 = 0 := by omega
  have b1 : (k + 6) / 10 / 10 / 10 / 10 / 10 % 10 = (k + 6) / 100000 := by omega
  have b2 : (k + 6) / 10 / 10 / 10 / 10 % 10 = (k + 6) / 10000 % 10 := by omega
  have b3 : (k + 6) / 10 / 10 / 10 % 10 = (k + 6) / 1000 % 10 := by omega
  have b4 : (k + 6) / 10 / 10 % 10 = (k + 6) / 100 % 10 := by omega
  show Nat.toDigitsCore 10 (k + 1 + 1 + 1 + 1 + 1 + 1 + 1) (k + 6) [] = _
  simp only [Nat.toDigitsCore, a1, a2, a3, a4, a5, a6, if_false, if_true, b1, b2, b3, b4]

theorem digitChar_isDigit (d : Nat) (h : d < 10) : (Nat.digitChar d).isDigit = true := by
  interval_cases d <;> decide

theorem digitChar_ne_zero (d : Nat) (h1 : 1 ≤ d) (h2 : d < 10) : Nat.digitChar d ≠ '0' := by
  interval_cases d <;> decide

/-- Claim C20. For every random draw `r` with `0 <= r < 1`, `generatePasswordResetCode` is the
decimal string of `n = floor (100000 + r * 900000)`, and `100000 <= n <= 999999`: the code has
exactly 6 characters, all decimal digits, the first one not `0`, so it satisfies the
`resetCode` rule of the reset-password request (length 6, digits only). -/
theorem C20_reset_code_six_digits (r : ℚ) (h0 : 0 ≤ r) (h1 : r < 1) :
    ∃ n : Nat,
      100000 ≤ n ∧ n ≤ 999999 ∧
      ⌊100000 + r * 900000⌋ = (n : Int) ∧
      generatePasswordResetCode r = toString n ∧
      (generatePasswordResetCode r).length = 6 ∧
      (∀ c ∈ (generatePasswordResetCode r).data, c.isDigit = true) ∧
      (generatePasswordResetCode r).data.head? ≠ some '0' ∧
      resetCodeRule (generatePasswordResetCode r) = true := by
  have hlo : (100000 : Int) ≤ ⌊100000 + r * 900000⌋ := by
    rw [Int.le_floor]
    push_cast
    linarith
  have hhi : ⌊100000 + r * 900000⌋ < (1000000 : Int) := by
    rw [Int.floor_lt]
    push_cast
    linarith
  obtain ⟨n, hn⟩ : ∃ n : Nat, ⌊100000 + r * 900000⌋ = (n : Int) :=
    ⟨⌊100000 + r * 900000⌋.toNat, (Int.toNat_of_nonneg (by omega)).symm⟩
  have hn1 : 100000 ≤ n := by omega
  have hn2 : n ≤ 999999 := by omega
  have hcode : generatePasswordResetCode r = toString n := by
    unfold generatePasswordResetCode
    rw [hn]
    rfl
  have hdata : (generatePasswordResetCode r).data =
      [Nat.digitChar (n / 100000), Nat.digitChar (n / 10000 % 10),
        Nat.digitChar (n / 1000 % 10), Nat.digitChar (n / 100 % 10),
        Nat.digitChar (n / 10 % 10), Nat.digitChar (n % 10)] := by
    rw [hcode, ← toDigits_six n hn1 hn2]
    rfl
  have hlen : (generatePasswordResetCode r).length = 6 := by
    show (generatePasswordResetCode r).data.length = 6
    rw [hdata]
    rfl
  have hdig : ∀ c ∈ (generatePasswordResetCode r).data, c.isDigit = true := by
    intro c hc
    rw [hdata] at hc
    simp only [List.mem_cons, List.mem_singleton, List.not_mem_nil, or_false] at hc
    rcases hc with rfl | rfl | rfl | rfl | rfl | rfl
    · exact digitChar_isDigit _ (by omega)
    · exact digitChar_isDigit _ (by omega)
    · exact digitChar_isDigit _ (by omega)
    · exact digitChar_isDigit _ (by omega)
    · exact digitChar_isDigit _ (by omega)
    · exact digitChar_isDigit _ (by omega)
  refine ⟨n, hn1, hn2, hn, hcode, hlen, hdig, ?_, ?_⟩
  · rw [hdata]
    simp only [List.head?_cons, ne_eq, Option.some.injEq]
    exact digitChar_ne_zero _ (by omega) (by omega)
  · unfold resetCodeRule
    rw [hlen]
    have hall : (generatePasswordResetCode r).data.all Char.isDigit = true := by
      rw [List.all_eq_true]
      exact hdig
    rw [hall, hdata]
    rfl

/-- Witness for C20: the draw `r = 1/2` gives the code "550000". -/
theorem C20_reset_code_six_digits_witness :
    ∃ n : Nat, generatePasswordResetCode (1 / 2) = toString n ∧
      resetCodeRule (generatePasswordResetCode (1 / 2)) = true := by
  obtain ⟨n, _, _, _, hcode, _, _, _, hrule⟩ :=
    C20_reset_code_six_digits (1 / 2) (by norm_num) (by norm_num)
  exact ⟨n, hcode, hrule⟩


/-! ## Working days of a month -/

theorem dayFromYear_succ (y : Int) :
    dayFromYear (y + 1) = dayFromYear y + (if isLeapYear y = true then 366 else 365) := by
  unfold dayFromYear isLeapYear
  by_cases h : (y % 4 = 0 ∧ y % 100 ≠ 0) ∨ y % 400 = 0
  · rw [if_pos (by simpa using h)]
    omega
  · rw [if_neg (by simpa using h)]
    omega

theorem daysBeforeMonth_succ (leap : Bool) (r : Int) (h0 : 0 ≤ r) (h1 : r < 11) :
    daysBeforeMonth leap (r + 1) = daysBeforeMonth leap r + (civilDaysInMonth leap r : Int) := by
  interval_cases r <;> cases leap <;> decide

theorem daysBeforeMonth_december (leap : Bool) :
    daysBeforeMonth leap 11 + (civilDaysInMonth leap 11 : Int) =
      (if leap = true then 366 else 365) := by
  cases leap <;> decide

/-- The day `new Date(year, month + 1, 0)` is the last day of the month of
`new Date(year, month, 1)`. -/
theorem makeDay_next_month_zero (y m : Int) :
    makeDay y (m + 1) 0 =
      makeDay y m 1 + (civilDaysInMonth (isLeapYear (y + m / 12)) (m % 12) : Int) - 1 := by
  have hr0 : 0 ≤ m % 12 := Int.emod_nonneg _ (by decide)
  have hr1 : m % 12 < 12 := Int.emod_lt_of_pos _ (by decide)
  unfold makeDay
  simp only []
  by_cases h : m % 12 < 11
  · have e1 : (m + 1) / 12 = m / 12 := by omega
    have e2 : (m + 1) % 12 = m % 12 + 1 := by omega
    rw [e1, e2, daysBeforeMonth_succ _ _ hr0 h]
    omega
  · have e0 : m % 12 = 11 := by omega
    have e1 : (m + 1) / 12 = m / 12 + 1 := by omega
    have e2 : (m + 1) % 12 = 0 := by omega
    have e3 : y + (m / 12 + 1) = (y + m / 12) + 1 := by ring
    rw [e1, e2, e0, e3, dayFromYear_succ]
    have hd := daysBeforeMonth_december (isLeapYear (y + m / 12))
    have hz : daysBeforeMonth (isLeapYear (y + m / 12 + 1)) 0 = 0 := by
      cases isLeapYear (y + m / 12 + 1) <;> decide
    rw [hz]
    omega

theorem makeDay_normalised (y m d : Int) : makeDay y m d = makeDay (y + m / 12) (m % 12) d := by
  have hr0 : 0 ≤ m % 12 := Int.emod_nonneg _ (by decide)
  have hr1 : m % 12 < 12 := Int.emod_lt_of_pos _ (by decide)
  unfold makeDay
  have e1 : m % 12 / 12 = 0 := by omega
  have e2 : m % 12 % 12 = m % 12 := by omega
  simp only [e1, e2, add_zero]

theorem getDay_of_day (tz d : Int) : getDay tz (d * msPerDay - tz) = (d + 4) % 7 := by
  unfold getDay
  have e : d * msPerDay - tz + tz = d * msPerDay := by ring
  rw [e, Int.mul_ediv_cancel _ (by decide : msPerDay ≠ 0)]

theorem weekdaysFrom_succ (d : Int) (n : Nat) :
    weekdaysFrom d (n + 1) =
      (if isMondayToFriday d = true then 1 else 0) + weekdaysFrom (d + 1) n := by
  unfold weekdaysFrom
  rw [List.range_succ_eq_map, List.countP_cons, List.countP_map]
  have e : ((fun i : Nat => isMondayToFriday (d + (i : Int))) ∘ Nat.succ) =
      (fun i : Nat => isMondayToFriday (d + 1 + (i : Int))) := by
    funext i
    simp only [Function.comp, Nat.succ_eq_add_one, Nat.cast_add, Nat.cast_one]
    congr 1
    ring
  rw [e]
  simp only [Nat.cast_zero, add_zero]
  omega

theorem weekday_test_iff (d : Int) :
    ((d + 4) % 7 ≠ 0 ∧ (d + 4) % 7 ≠ 6) ↔ isMondayToFriday d = true := by
  unfold isMondayToFriday
  rw [decide_eq_true_eq]
  have h0 : 0 ≤ (d + 4) % 7 := Int.emod_nonneg _ (by decide)
  have h1 : (d + 4) % 7 < 7 := Int.emod_lt_of_pos _ (by decide)
  constructor <;> intro h <;> omega

theorem timeClip_eq_some (t : Int) (h1 : -8640000000000000 ≤ t) (h2 : t ≤ 8640000000000000) :
    timeClip t = some t := by
  unfold timeClip
  rw [if_pos ⟨h1, h2⟩]

theorem timeClip_eq_none (t : Int) (h : 8640000000000000 < t) : timeClip t = none := by
  unfold timeClip
  rw [if_neg (by omega)]

theorem timeClip_some_iff (t u : Int) :
    timeClip t = some u ↔ u = t ∧ -8640000000000000 ≤ t ∧ t ≤ 8640000000000000 := by
  unfold timeClip
  split_ifs with h
  · constructor
    · intro e
      exact ⟨(Option.some.inj e).symm, h⟩
    · intro e
      rw [e.1]
  · constructor
    · intro e
      cases e
    · intro e
      exact absurd e.2 h

/-- One pass of the loop of dateHelper.js. -/
theorem workingDaysLoop_unfold (tz endDate date : Int) (w : Nat) :
    workingDaysLoop tz endDate date w =
      if date ≤ endDate then
        (timeClip (date + msPerDay)).elim
          (if getDay tz date ≠ 0 ∧ getDay tz date ≠ 6 then w + 1 else w)
          (fun _ => workingDaysLoop tz endDate (date + msPerDay)
            (if getDay tz date ≠ 0 ∧ getDay tz date ≠ 6 then w + 1 else w))
      else w := by
  rw [workingDaysLoop]
  by_cases h : date ≤ endDate
  · rw [if_pos h, if_pos h]
    simp only []
    split
    · rename_i next hn
      rw [hn]
      rfl
    · rename_i hn
      rw [hn]
      rfl
  · rw [if_neg h, if_neg h]

/-- One pass of the loop of adminController.js. -/
theorem adminWorkingDaysLoop_unfold (tz endDate date : Int) (w : Nat) :
    adminWorkingDaysLoop tz endDate date w =
      if date ≤ endDate then
        (timeClip (date + msPerDay)).elim
          (if getDay tz date ≠ 0 ∧ getDay tz date ≠ 6 then w + 1 else w)
          (fun _ => adminWorkingDaysLoop tz endDate (date + msPerDay)
            (if getDay tz date ≠ 0 ∧ getDay tz date ≠ 6 then w + 1 else w))
      else w := by
  rw [adminWorkingDaysLoop]
  by_cases h : date ≤ endDate
  · rw [if_pos h, if_pos h]
    simp only []
    split
    · rename_i next hn
      rw [hn]
      rfl
    · rename_i hn
      rw [hn]
      rfl
  · rw [if_neg h, if_neg h]

/-- The two copies of the loop compute the same function. -/
theorem adminWorkingDaysLoop_eq (tz endDate : Int) (n : Nat) :
    ∀ (date : Int) (w : Nat), (endDate - date + 1).toNat ≤ n →
      adminWorkingDaysLoop tz endDate date w = workingDaysLoop tz endDate date w := by
  induction n with
  | zero =>
    intro date w h
    rw [adminWorkingDaysLoop_unfold, workingDaysLoop_unfold,
      if_neg (by omega), if_neg (by omega)]
  | succ k ih =>
    intro date w h
    rw [adminWorkingDaysLoop_unfold, workingDaysLoop_unfold]
    by_cases c : date ≤ endDate
    · rw [if_pos c, if_pos c]
      cases hn : timeClip (date + msPerDay) with
      | none => rfl
      | some next =>
        simp only [Option.elim]
        exact ih (date + msPerDay) _ (by
          simp only [msPerDay]
          omega)
    · rw [if_neg c, if_neg c]

/-- The copy of `getWorkingDaysInMonth` in adminController.js returns the value of the one in
dateHelper.js for every input. -/
theorem adminGetWorkingDaysInMonth_eq_dateHelper (tz y m : Int) :
    adminGetWorkingDaysInMonth tz y m = getWorkingDaysInMonth tz y m := by
  unfold adminGetWorkingDaysInMonth getWorkingDaysInMonth
  cases timeClip (newDate tz y m 1 0 0 0 0) with
  | none => rfl
  | some startDate =>
    cases timeClip (newDate tz y (m + 1) 0 0 0 0 0) with
    | none => rfl
    | some endDate => exact adminWorkingDaysLoop_eq tz endDate _ startDate 0 (le_refl _)

/-- The loop of dateHelper.js, started at local midnight of day `d` with end date local
midnight of day `d + n - 1`, both valid dates, runs `n` iterations and adds the
Monday-to-Friday days. -/
theorem workingDaysLoop_closed (tz : Int) (n : Nat) :
    ∀ (d e : Int) (acc : Nat), e + 1 = d + (n : Int) →
      -8640000000000000 ≤ d * msPerDay - tz → e * msPerDay - tz ≤ 8640000000000000 →
      workingDaysLoop tz (e * msPerDay - tz) (d * msPerDay - tz) acc =
        acc + weekdaysFrom d n := by
  induction n with
  | zero =>
    intro d e acc h _ _
    rw [workingDaysLoop_unfold, if_neg]
    · simp [weekdaysFrom]
    · simp only [msPerDay]
      push_cast at h
      omega
  | succ k ih =>
    intro d e acc h hlo hhi
    have hle : d * msPerDay - tz ≤ e * msPerDay - tz := by
      simp only [msPerDay]
      push_cast at h
      omega
    rw [workingDaysLoop_unfold, if_pos hle]
    have enext : d * msPerDay - tz + msPerDay = (d + 1) * msPerDay - tz := by ring
    rw [getDay_of_day, weekdaysFrom_succ, enext]
    by_cases c : (d + 1) * msPerDay - tz ≤ 8640000000000000
    · rw [timeClip_eq_some _ (by simp only [msPerDay] at hlo ⊢; omega) c]
      simp only [Option.elim]
      rw [ih (d + 1) e _ (by push_cast at h ⊢; omega)
          (by simp only [msPerDay] at hlo ⊢; omega) hhi]
      by_cases hw : isMondayToFriday d = true
      · rw [if_pos ((weekday_test_iff d).2 hw), if_pos hw]
        omega
      · rw [if_neg (fun c => hw ((weekday_test_iff d).1 c)), if_neg hw]
        omega
    · rw [timeClip_eq_none _ (by omega)]
      simp only [Option.elim]
      have hk : k = 0 := by
        simp only [msPerDay] at c hhi
        push_cast at h
        omega
      subst hk
      have hz : weekdaysFrom (d + 1) 0 = 0 := by simp [weekdaysFrom]
      rw [hz]
      by_cases hw : isMondayToFriday d = true
      · rw [if_pos ((weekday_test_iff d).2 hw), if_pos hw]
      · rw [if_neg (fun c => hw ((weekday_test_iff d).1 c)), if_neg hw]
        omega

theorem newDate_midnight (tz year month date : Int) :
    newDate tz year month date 0 0 0 0 = makeDay (makeFullYear year) month date * msPerDay - tz := by
  simp [newDate]

theorem civilDaysInMonth_ge (leap : Bool) (mn : Int) : 28 ≤ civilDaysInMonth leap mn := by
  unfold civilDaysInMonth
  split_ifs <;> decide

/-- The value of `getWorkingDaysInMonth` for every integer month argument whose first day and
last day are valid dates: the Monday-to-Friday days of that month of the year the Date
constructor denotes. -/
theorem getWorkingDaysInMonth_eq (tz year month : Int)
    (hlo : -8640000000000000 ≤ newDate tz year month 1 0 0 0 0)
    (hhi : newDate tz year (month + 1) 0 0 0 0 0 ≤ 8640000000000000) :
    getWorkingDaysInMonth tz year month =
      weekdaysOfMonth (makeFullYear year + month / 12) (month % 12) := by
  have hn := civilDaysInMonth_ge (isLeapYear (makeFullYear year + month / 12)) (month % 12)
  have hz := makeDay_next_month_zero (makeFullYear year) month
  rw [newDate_midnight] at hlo hhi
  unfold getWorkingDaysInMonth weekdaysOfMonth
  simp only [newDate_midnight]
  rw [timeClip_eq_some _ hlo (by simp only [msPerDay] at hhi ⊢; omega),
    timeClip_eq_some _ (by simp only [msPerDay] at hlo ⊢; omega) hhi]
  simp only []
  rw [workingDaysLoop_closed tz
    (civilDaysInMonth (isLeapYear (makeFullYear year + month / 12)) (month % 12))
    _ _ 0 (by rw [hz]; omega) hlo hhi]
  rw [Nat.zero_add, ← makeDay_normalised]

theorem isMondayToFriday_mod (d i : Int) :
    isMondayToFriday (d + i) = isMondayToFriday (d % 7 + i) := by
  have e : (d + i + 4) % 7 = (d % 7 + i + 4) % 7 := by omega
  simp only [isMondayToFriday, e]

theorem weekdaysFrom_four_weeks (d : Int) : weekdaysFrom d 28 = 20 := by
  have e : weekdaysFrom d 28 = weekdaysFrom (d % 7) 28 := by
    unfold weekdaysFrom
    congr 1
    funext i
    exact isMondayToFriday_mod d i
  rw [e]
  have h0 : 0 ≤ d % 7 := Int.emod_nonneg _ (by decide)
  have h1 : d % 7 < 7 := Int.emod_lt_of_pos _ (by decide)
  generalize d % 7 = r at h0 h1
  interval_cases r <;> decide

theorem weekdaysFrom_mono (d : Int) (n k : Nat) : weekdaysFrom d n ≤ weekdaysFrom d (n + k) := by
  induction k with
  | zero => exact le_refl _
  | succ j ih =>
    have e : weekdaysFrom d (n + (j + 1)) =
        weekdaysFrom d (n + j) + (if isMondayToFriday (d + ((n + j : Nat) : Int)) = true
          then 1 else 0) := by
      unfold weekdaysFrom
      rw [← Nat.add_assoc, List.range_succ, List.countP_append]
      simp [List.countP_cons]
    omega

theorem weekdaysOfMonth_ge (y mn : Int) : 20 ≤ weekdaysOfMonth y mn := by
  unfold weekdaysOfMonth
  obtain ⟨k, hk⟩ : ∃ k, civilDaysInMonth (isLeapYear y) mn = 28 + k :=
    ⟨civilDaysInMonth (isLeapYear y) mn - 28, by
      have := civilDaysInMonth_ge (isLeapYear y) mn
      omega⟩
  rw [hk]
  have h1 := weekdaysFrom_mono (makeDay y mn 1) 28 k
  rw [weekdaysFrom_four_weeks] at h1
  exact h1

/-- Claim C23, failing inputs. `new Date(0, 0, 1)` is 1 January 1900, so
`getWorkingDaysInMonth(0, 0)` counts January 1900 and returns 23 in both copies, while January
of year 0 has 21 Monday-to-Friday days. For year 300000 the dates are Invalid Dates, the loop
body never runs and the result is 0, while that January has 21 such days. The copy in
adminController.js returns the value of the one in dateHelper.js for every input. -/
theorem C23_two_digit_year_counts_1900 :
    getWorkingDaysInMonth 0 0 0 = 23 ∧
    adminGetWorkingDaysInMonth 0 0 0 = 23 ∧
    weekdaysOfMonth 1900 0 = 23 ∧
    weekdaysOfMonth 0 0 = 21 ∧
    getWorkingDaysInMonth 0 300000 0 = 0 ∧
    weekdaysOfMonth 300000 0 = 21 ∧
    (∀ tz y m : Int, adminGetWorkingDaysInMonth tz y m = getWorkingDaysInMonth tz y m) := by
  have h1 : getWorkingDaysInMonth 0 0 0 = 23 := by
    rw [getWorkingDaysInMonth_eq 0 0 0 (by decide) (by decide)]
    decide
  have h2 : getWorkingDaysInMonth 0 300000 0 = 0 := by
    unfold getWorkingDaysInMonth
    rw [timeClip_eq_none _ (by decide)]
  refine ⟨h1, ?_, by decide, by decide, h2, by decide,
    adminGetWorkingDaysInMonth_eq_dateHelper⟩
  rw [adminGetWorkingDaysInMonth_eq_dateHelper]
  exact h1


/-! ## Number arithmetic: rounding error and evaluation -/

theorem toDouble_zero : toDouble 0 = 0 := by
  simp [toDouble]

theorem nearest_int_err (s : ℚ) :
    |(((if s - ((⌊s⌋ : Int) : ℚ) < 1 / 2 then ⌊s⌋
      else if 1 / 2 < s - ((⌊s⌋ : Int) : ℚ) then ⌊s⌋ + 1
      else if ⌊s⌋ % 2 = 0 then ⌊s⌋ else ⌊s⌋ + 1 : Int) : ℚ)) - s| ≤ 1 / 2 := by
  have h1 := Int.floor_le s
  have h2 := Int.lt_floor_add_one s
  rw [abs_le]
  split_ifs with a b c
  · constructor <;> linarith
  · push_cast
    constructor <;> linarith
  · constructor <;> linarith
  · push_cast
    constructor <;> linarith

theorem toDouble_err (x : ℚ) :
    |toDouble x - x| ≤ |x| / 2 ^ 53 + 1 / 2 ^ 1075 := by
  by_cases hx : x = 0
  · subst hx
    rw [toDouble_zero]
    norm_num
  · have hpos : 0 < |x| := abs_pos.mpr hx
    unfold toDouble
    rw [if_neg hx]
    simp only []
    generalize he : max (Int.log 2 |x| - 52) (-1074) = e
    have h2e : (0 : ℚ) < (2 : ℚ) ^ e := zpow_pos (by norm_num) e
    have hn := nearest_int_err (x / (2 : ℚ) ^ e)
    generalize (if x / (2 : ℚ) ^ e - ((⌊x / (2 : ℚ) ^ e⌋ : Int) : ℚ) < 1 / 2 then ⌊x / (2 : ℚ) ^ e⌋
      else if 1 / 2 < x / (2 : ℚ) ^ e - ((⌊x / (2 : ℚ) ^ e⌋ : Int) : ℚ) then ⌊x / (2 : ℚ) ^ e⌋ + 1
      else if ⌊x / (2 : ℚ) ^ e⌋ % 2 = 0 then ⌊x / (2 : ℚ) ^ e⌋ else ⌊x / (2 : ℚ) ^ e⌋ + 1 : Int) = m at hn ⊢
    have e1 : (m : ℚ) * (2 : ℚ) ^ e - x = ((m : ℚ) - x / (2 : ℚ) ^ e) * (2 : ℚ) ^ e := by
      field_simp
    rw [e1, abs_mul, abs_of_pos h2e]
    have hb : |(m : ℚ) - x / (2 : ℚ) ^ e| * (2 : ℚ) ^ e ≤ (2 : ℚ) ^ e / 2 := by
      have := mul_le_mul_of_nonneg_right hn (le_of_lt h2e)
      linarith
    have hcase : (2 : ℚ) ^ e / 2 ≤ |x| / 2 ^ 53 + 1 / 2 ^ 1075 := by
      rcases max_cases (Int.log 2 |x| - 52) (-1074) with ⟨hm, _⟩ | ⟨hm, _⟩
      · rw [hm] at he
        have hl := Int.zpow_log_le_self (b := 2) (r := |x|) (by norm_num) hpos
        have e2 : (2 : ℚ) ^ e = (2 : ℚ) ^ (Int.log 2 |x|) / 2 ^ 52 := by
          rw [← he, zpow_sub₀ (by norm_num)]
          norm_num
        rw [e2]
        push_cast at hl
        have : (0:ℚ) ≤ 1 / 2 ^ 1075 := by positivity
        have e3 : (2 : ℚ) ^ (Int.log 2 |x|) / 2 ^ 52 / 2 = (2 : ℚ) ^ (Int.log 2 |x|) / 2 ^ 53 := by
          ring
        rw [e3]
        have : (2 : ℚ) ^ (Int.log 2 |x|) / 2 ^ 53 ≤ |x| / 2 ^ 53 :=
          div_le_div_of_nonneg_right hl (by positivity)
        linarith
      · rw [hm] at he
        have e2 : (2 : ℚ) ^ e / 2 = 1 / 2 ^ 1075 := by
          rw [← he]
          norm_num [zpow_neg]
        rw [e2]
        have : (0:ℚ) ≤ |x| / 2 ^ 53 := by positivity
        linarith
    linarith

theorem nearest_int_eq (s : ℚ) (m : Int) (hlo : (m : ℚ) - 1 / 2 < s)
    (hhi : s < (m : ℚ) + 1 / 2) :
    (if s - ((⌊s⌋ : Int) : ℚ) < 1 / 2 then ⌊s⌋
      else if 1 / 2 < s - ((⌊s⌋ : Int) : ℚ) then ⌊s⌋ + 1
      else if ⌊s⌋ % 2 = 0 then ⌊s⌋ else ⌊s⌋ + 1 : Int) = m := by
  by_cases hs : (m : ℚ) ≤ s
  · have hf : ⌊s⌋ = m := by
      rw [Int.floor_eq_iff]
      constructor <;> linarith
    rw [hf, if_pos (by linarith)]
  · have hf : ⌊s⌋ = m - 1 := by
      rw [Int.floor_eq_iff]
      push_cast
      constructor <;> linarith
    rw [hf]
    push_cast
    rw [if_neg (by linarith), if_pos (by linarith)]
    ring

/-- Evaluation of `toDouble` away from a tie: `x` lies in the binade of exponent `e` (or below
the normal range, `e = -1074`) and strictly within half a unit of `m * 2 ^ e`. -/
theorem toDouble_eq (x : ℚ) (e m : Int) (hx0 : 0 < x)
    (h1 : (2 : ℚ) ^ (e + 52) ≤ x ∨ e = -1074) (he : -1074 ≤ e)
    (h2 : x < (2 : ℚ) ^ (e + 53))
    (hlo : ((m : ℚ) - 1 / 2) * (2 : ℚ) ^ e < x) (hhi : x < ((m : ℚ) + 1 / 2) * (2 : ℚ) ^ e) :
    toDouble x = (m : ℚ) * (2 : ℚ) ^ e := by
  have hx : x ≠ 0 := ne_of_gt hx0
  have hpos : 0 < |x| := abs_pos.mpr hx
  rw [← abs_of_pos hx0] at h1 h2
  have hlog : Int.log 2 |x| < e + 53 := by
    rw [← Int.lt_zpow_iff_log_lt (by norm_num) hpos]
    exact_mod_cast h2
  have hmax : max (Int.log 2 |x| - 52) (-1074) = e := by
    rcases h1 with h1 | h1
    · have : e + 52 ≤ Int.log 2 |x| := by
        rw [← Int.zpow_le_iff_le_log (by norm_num) hpos]
        exact_mod_cast h1
      rw [max_eq_left (by omega)]
      omega
    · rw [max_eq_right (by omega)]
      omega
  have h2e : (0 : ℚ) < (2 : ℚ) ^ e := zpow_pos (by norm_num) e
  unfold toDouble
  rw [if_neg hx]
  simp only [hmax]
  rw [nearest_int_eq (x / (2 : ℚ) ^ e) m (by rw [lt_div_iff₀ h2e]; exact hlo)
    (by rw [div_lt_iff₀ h2e]; exact hhi)]

theorem toFixed2_near (x : ℚ) : |toFixed2 x - x| ≤ 1 / 200 := by
  unfold toFixed2
  have h1 := Int.floor_le (x * 100 + 1 / 2)
  have h2 := Int.lt_floor_add_one (x * 100 + 1 / 2)
  rw [abs_le]
  constructor
  · rw [le_sub_iff_add_le, ← sub_eq_neg_add, le_div_iff₀ (by norm_num)]
    linarith
  · rw [sub_le_iff_le_add, div_le_iff₀ (by norm_num)]
    linarith

/-- Dividing by a divisor that is off by a relative `2 ^ -52` changes the quotient by a
relative `2 ^ -51` at most. -/
theorem div_perturb (p N D : ℚ) (hp : 0 ≤ p) (hN : 0 < N) (hD : |D - N| ≤ N / 2 ^ 52) :
    |p / D - p / N| ≤ p / N / 2 ^ 51 := by
  rw [abs_le] at hD
  obtain ⟨hD1, hD2⟩ := hD
  have hDpos : 0 < D := by
    have : N / 2 ^ 52 < N := by
      rw [div_lt_iff₀ (by norm_num)]
      linarith
    linarith
  have hx : 0 ≤ p / N := div_nonneg hp (le_of_lt hN)
  have e1 : p / D = p / N * (N / D) := by
    field_simp
  have hND1 : N / D ≤ 1 + 1 / 2 ^ 51 := by
    rw [div_le_iff₀ hDpos]
    nlinarith
  have hND2 : 1 - 1 / 2 ^ 51 ≤ N / D := by
    rw [le_div_iff₀ hDpos]
    nlinarith
  rw [e1, abs_le]
  constructor
  · nlinarith
  · nlinarith

/-- The attendance rate computed in Number arithmetic is within 0.005, up to the rounding of
three Number operations, of the exact percentage. -/
theorem attendanceRate_near (p N : ℚ) (hp : 0 ≤ p) (hN : 1 ≤ N) :
    |toFixed2 (toDouble (toDouble (p / toDouble N) * 100)) - p / N * 100| ≤
      1 / 200 + p / N * 100 / 2 ^ 49 + 1 / 2 ^ 1000 := by
  have hN0 : 0 < N := by linarith
  have hx : 0 ≤ p / N := div_nonneg hp (le_of_lt hN0)
  have hD := toDouble_err N
  rw [abs_of_pos hN0] at hD
  have hD' : |toDouble N - N| ≤ N / 2 ^ 52 := by
    have : (1 : ℚ) / 2 ^ 1075 ≤ N / 2 ^ 53 := by
      rw [div_le_div_iff₀ (by positivity) (by positivity)]
      have : (2 : ℚ) ^ 53 ≤ 2 ^ 1075 := by norm_num
      nlinarith
    have e : N / 2 ^ 52 = N / 2 ^ 53 + N / 2 ^ 53 := by ring
    linarith
  have h0 := div_perturb p N (toDouble N) hp hN0 hD'
  have h1 := toDouble_err (p / toDouble N)
  have h2 := toDouble_err (toDouble (p / toDouble N) * 100)
  have h3 := toFixed2_near (toDouble (toDouble (p / toDouble N) * 100))
  generalize toDouble (toDouble (p / toDouble N) * 100) = r at h2 h3 ⊢
  generalize toDouble (p / toDouble N) = q at h1 h2 ⊢
  generalize p / toDouble N = q0 at h0 h1 ⊢
  generalize p / N = x at hx h0 ⊢
  have t1 : |q0| ≤ |x| + |q0 - x| := by
    have := abs_add (q0 - x) x
    simp only [sub_add_cancel] at this
    linarith
  have t2 : |q| ≤ |q0| + |q - q0| := by
    have := abs_add (q - q0) q0
    simp only [sub_add_cancel] at this
    linarith
  have t3 : |q * 100| = 100 * |q| := by
    rw [abs_mul]
    norm_num
    ring
  have hxa : |x| = x := abs_of_nonneg hx
  have t4 : |toFixed2 r - x * 100| ≤ |toFixed2 r - r| + |r - q * 100| + 100 * |q - q0| +
      100 * |q0 - x| := by
    have e : toFixed2 r - x * 100 =
        (toFixed2 r - r) + (r - q * 100) + (100 * (q - q0)) + (100 * (q0 - x)) := by ring
    rw [e]
    have a1 := abs_add ((toFixed2 r - r) + (r - q * 100) + (100 * (q - q0))) (100 * (q0 - x))
    have a2 := abs_add ((toFixed2 r - r) + (r - q * 100)) (100 * (q - q0))
    have a3 := abs_add (toFixed2 r - r) (r - q * 100)
    have m1 : |100 * (q - q0)| = 100 * |q - q0| := by
      rw [abs_mul]
      norm_num
    have m2 : |100 * (q0 - x)| = 100 * |q0 - x| := by
      rw [abs_mul]
      norm_num
    linarith
  rw [t3] at h2
  rw [hxa] at t1
  have hbig : (0 : ℚ) < 1 / 2 ^ 1075 := by positivity
  have e1000 : (1 : ℚ) / 2 ^ 1000 = 2 ^ 75 * (1 / 2 ^ 1075) := by norm_num
  have e49 : x * 100 / 2 ^ 49 = 1600 * (x / 2 ^ 53) := by ring
  have d1 : |q0| / 2 ^ 53 ≤ 2 * (x / 2 ^ 53) := by
    have : |q0| ≤ 2 * x := by
      have : x / 2 ^ 51 ≤ x := by
        rw [div_le_iff₀ (by norm_num)]
        nlinarith
      linarith
    have := div_le_div_of_nonneg_right this (by positivity : (0 : ℚ) ≤ 2 ^ 53)
    linarith
  have d2 : 100 * |q| / 2 ^ 53 ≤ 300 * (x / 2 ^ 53) + 1 / 2 ^ 1075 := by
    have hq : |q| ≤ 3 * x + 1 / 2 ^ 1075 := by
      have : |q0| / 2 ^ 53 ≤ |q0| := by
        rw [div_le_iff₀ (by norm_num)]
        nlinarith [abs_nonneg q0]
      have : x / 2 ^ 51 ≤ x := by
        rw [div_le_iff₀ (by norm_num)]
        nlinarith
      linarith
    have := div_le_div_of_nonneg_right hq (by positivity : (0 : ℚ) ≤ 2 ^ 53)
    have e : (3 * x + 1 / 2 ^ 1075) / 2 ^ 53 = 3 * (x / 2 ^ 53) + 1 / 2 ^ 1075 / 2 ^ 53 := by ring
    have : (1 : ℚ) / 2 ^ 1075 / 2 ^ 53 ≤ 1 / 2 ^ 1075 / 100 := by
      rw [div_le_div_iff₀ (by positivity) (by positivity)]
      norm_num
    have e2 : 100 * |q| / 2 ^ 53 = 100 * (|q| / 2 ^ 53) := by ring
    linarith
  have d3 : x / 2 ^ 51 = 4 * (x / 2 ^ 53) := by ring
  have hx53 : 0 ≤ x / 2 ^ 53 := by positivity
  rw [e1000, e49]
  have hpos2 : (102 : ℚ) * (1 / 2 ^ 1075) ≤ 2 ^ 75 * (1 / 2 ^ 1075) := by
    apply mul_le_mul_of_nonneg_right _ (le_of_lt hbig)
    norm_num
  linarith

theorem toDouble_pos (N : ℚ) (hN : 1 ≤ N) : 0 < toDouble N := by
  have hD := toDouble_err N
  rw [abs_of_pos (by linarith : (0 : ℚ) < N), abs_le] at hD
  have h1 : N / 2 ^ 53 ≤ N / 4 := by
    rw [div_le_div_iff₀ (by positivity) (by positivity)]
    nlinarith
  have h2 : (1 : ℚ) / 2 ^ 1075 ≤ 1 / 4 := by
    rw [div_le_div_iff₀ (by positivity) (by positivity)]
    norm_num
  linarith

theorem round_half_near (p : ℚ) : |((⌊p + 1 / 2⌋ : Int) : ℚ) - p| ≤ 1 / 2 := by
  have h1 := Int.floor_le (p + 1 / 2)
  have h2 := Int.lt_floor_add_one (p + 1 / 2)
  rw [abs_le]
  constructor <;> linarith

/-- Three rounded operations followed by a rounding to hundredths: the accumulated error. -/
theorem round_chain (X A b p k η : ℚ) (hη : 0 ≤ η)
    (hA : |A - X| ≤ |X| / 2 ^ 53 + η) (hb : |b - A| ≤ |A| / 2 ^ 53 + η)
    (hp : |p - b * 100| ≤ |b * 100| / 2 ^ 53 + η) (hk : |k - p| ≤ 1 / 2) :
    |k / 100 - X| ≤ 1 / 200 + |X| / 2 ^ 50 + 5 * η := by
  have t1 : |A| ≤ |X| + |A - X| := by
    have := abs_add (A - X) X
    simp only [sub_add_cancel] at this
    linarith
  have t2 : |b| ≤ |A| + |b - A| := by
    have := abs_add (b - A) A
    simp only [sub_add_cancel] at this
    linarith
  have t3 : |b * 100| = 100 * |b| := by
    rw [abs_mul]
    norm_num
    ring
  have t4 : |k / 100 - X| ≤ |k - p| / 100 + |p - b * 100| / 100 + |b - A| + |A - X| := by
    have e : k / 100 - X = (k - p) / 100 + (p - b * 100) / 100 + (b - A) + (A - X) := by ring
    rw [e]
    have a1 := abs_add ((k - p) / 100 + (p - b * 100) / 100 + (b - A)) (A - X)
    have a2 := abs_add ((k - p) / 100 + (p - b * 100) / 100) (b - A)
    have a3 := abs_add ((k - p) / 100) ((p - b * 100) / 100)
    have m1 : |(k - p) / 100| = |k - p| / 100 := by
      rw [abs_div]
      norm_num
    have m2 : |(p - b * 100) / 100| = |p - b * 100| / 100 := by
      rw [abs_div]
      norm_num
    linarith
  rw [t3] at hp
  have hX0 : 0 ≤ |X| := abs_nonneg X
  have hA0 : 0 ≤ |A| := abs_nonneg A
  have hb0 : 0 ≤ |b| := abs_nonneg b
  linarith

/-- The average computed in Number arithmetic is within 0.005, up to the rounding of three
Number operations, of the exact quotient. -/
theorem averageWorkHours_near (t : ℚ) (n : Nat) (hn : 0 < n) :
    |roundTo2Number (toDouble (toDouble t / (n : ℚ))) - t / (n : ℚ)| ≤
      1 / 200 + |t / (n : ℚ)| / 2 ^ 50 + 1 / 2 ^ 1000 := by
  have hn1 : (1 : ℚ) ≤ (n : ℚ) := by exact_mod_cast hn
  have hn0 : (0 : ℚ) < (n : ℚ) := by linarith
  have hη : (0 : ℚ) ≤ 1 / 2 ^ 1075 := by positivity
  have hη2 : (5 : ℚ) * (1 / 2 ^ 1075) ≤ 1 / 2 ^ 1000 := by norm_num
  have ha := toDouble_err t
  have hb := toDouble_err (toDouble t / (n : ℚ))
  have hp := toDouble_err (toDouble (toDouble t / (n : ℚ)) * 100)
  have hk := round_half_near (toDouble (toDouble (toDouble t / (n : ℚ)) * 100))
  generalize (1 : ℚ) / 2 ^ 1075 = η at hη hη2 ha hb hp
  have hA : |toDouble t / (n : ℚ) - t / (n : ℚ)| ≤ |t / (n : ℚ)| / 2 ^ 53 + η := by
    have e : toDouble t / (n : ℚ) - t / (n : ℚ) = (toDouble t - t) / (n : ℚ) := by ring
    rw [e, abs_div, abs_div, abs_of_pos hn0, div_le_iff₀ hn0]
    have e3 : |t| / (n : ℚ) / 2 ^ 53 * (n : ℚ) = |t| / 2 ^ 53 := by
      rw [div_right_comm, div_mul_cancel₀ _ (ne_of_gt hn0)]
    rw [add_mul, e3]
    have : η ≤ η * (n : ℚ) := by nlinarith
    linarith
  have h := round_chain _ _ _ _ _ η hη hA hb hp hk
  unfold roundTo2Number
  linarith

/-! ## The Haversine distance in Number arithmetic -/

/-- Rounding to the nearest integer, ties to even, commutes with negation. -/
theorem nearest_int_neg (s : ℚ) :
    (if -s - ((⌊-s⌋ : Int) : ℚ) < 1 / 2 then ⌊-s⌋
      else if 1 / 2 < -s - ((⌊-s⌋ : Int) : ℚ) then ⌊-s⌋ + 1
      else if ⌊-s⌋ % 2 = 0 then ⌊-s⌋ else ⌊-s⌋ + 1 : Int) =
    -(if s - ((⌊s⌋ : Int) : ℚ) < 1 / 2 then ⌊s⌋
      else if 1 / 2 < s - ((⌊s⌋ : Int) : ℚ) then ⌊s⌋ + 1
      else if ⌊s⌋ % 2 = 0 then ⌊s⌋ else ⌊s⌋ + 1 : Int) := by
  have h1 := Int.floor_le s
  have h2 := Int.lt_floor_add_one s
  by_cases hs : ((⌊s⌋ : Int) : ℚ) = s
  · have hf : ⌊-s⌋ = -⌊s⌋ := by
      rw [Int.floor_eq_iff]
      push_cast
      constructor <;> linarith
    rw [hf]
    push_cast
    rw [if_pos (by linarith), if_pos (by linarith)]
  · have hlt : ((⌊s⌋ : Int) : ℚ) < s := lt_of_le_of_ne h1 hs
    have hf : ⌊-s⌋ = -⌊s⌋ - 1 := by
      rw [Int.floor_eq_iff]
      push_cast
      constructor <;> linarith
    rw [hf]
    push_cast
    by_cases c1 : s - ((⌊s⌋ : Int) : ℚ) < 1 / 2
    · rw [if_pos c1, if_neg (by linarith), if_pos (by linarith)]
      ring
    · by_cases c2 : 1 / 2 < s - ((⌊s⌋ : Int) : ℚ)
      · rw [if_neg c1, if_pos c2, if_pos (by linarith)]
        ring
      · rw [if_neg c1, if_neg c2, if_neg (by linarith), if_neg (by linarith)]
        by_cases c3 : ⌊s⌋ % 2 = 0
        · rw [if_pos c3, if_neg (by omega)]
          ring
        · rw [if_neg c3, if_pos (by omega)]
          ring

/-- Rounding to the nearest double commutes with negation. -/
theorem toDouble_neg (x : ℚ) : toDouble (-x) = -toDouble x := by
  by_cases hx : x = 0
  · subst hx
    simp [toDouble]
  · have hnx : -x ≠ 0 := neg_ne_zero.mpr hx
    unfold toDouble
    rw [if_neg hx, if_neg hnx]
    simp only [abs_neg, neg_div]
    rw [nearest_int_neg]
    push_cast
    ring

/-- The evaluation lemmas `doubleEval_k` below each give one rounding that occurs in the
evaluations of the distance functions, from its exponent and mantissa. -/
theorem toDouble_neg_div (a b : ℚ) : toDouble (-a / b) = -toDouble (a / b) := by
  rw [neg_div, toDouble_neg]

theorem doubleEval_1 : toDouble (1 / 4503599627370496) = 1 / 4503599627370496 := by
  rw [toDouble_eq (1 / 4503599627370496) (-104) 4503599627370496 (by norm_num) (Or.inl (by
    norm_num)) (by norm_num) (by norm_num) (by norm_num) (by norm_num)]
  norm_num

theorem doubleEval_2 : toDouble (309048537142110033041936225625 /
    22300745198530623141535718272648361505980416) = 1097960965318059 /
    79228162514264337593543950336 := by
  rw [toDouble_eq (309048537142110033041936225625 / 22300745198530623141535718272648361505980416)
    (-99) 8783687722544472 (by norm_num) (Or.inl (by norm_num)) (by norm_num) (by norm_num) (by
    norm_num) (by norm_num)]
  norm_num

theorem doubleEval_3 : toDouble (1097960965318059 / 79228162514264337593543950336) =
    1097960965318059 / 79228162514264337593543950336 := by
  rw [toDouble_eq (1097960965318059 / 79228162514264337593543950336) (-99) 8783687722544472 (by
    norm_num) (Or.inl (by norm_num)) (by norm_num) (by norm_num) (by norm_num) (by norm_num)]
  norm_num

theorem doubleEval_4 : toDouble (79116425508380186248218578935201 /
    5708990770823839524233143877797980545530986496) = 4391843861272237 /
    316912650057057350374175801344 := by
  rw [toDouble_eq (79116425508380186248218578935201 /
    5708990770823839524233143877797980545530986496) (-99) 8783687722544474 (by norm_num) (Or.inl
    (by norm_num)) (by norm_num) (by norm_num) (by norm_num) (by norm_num)]
  norm_num

theorem doubleEval_5 : toDouble (4391843861272237 / 316912650057057350374175801344) =
    4391843861272237 / 316912650057057350374175801344 := by
  rw [toDouble_eq (4391843861272237 / 316912650057057350374175801344) (-99) 8783687722544474 (by
    norm_num) (Or.inl (by norm_num)) (by norm_num) (by norm_num) (by norm_num) (by norm_num)]
  norm_num

theorem doubleEval_6 : toDouble (555921340786725 / 4722366482869645213696) = 555921340786725 /
    4722366482869645213696 := by
  rw [toDouble_eq (555921340786725 / 4722366482869645213696) (-76) 8894741452587600 (by norm_num)
    (Or.inl (by norm_num)) (by norm_num) (by norm_num) (by norm_num) (by norm_num)]
  norm_num

theorem doubleEval_7 : toDouble (8894741452587601 / 75557863725914323419136) = 8894741452587601 /
    75557863725914323419136 := by
  rw [toDouble_eq (8894741452587601 / 75557863725914323419136) (-76) 8894741452587601 (by
    norm_num) (Or.inl (by norm_num)) (by norm_num) (by norm_num) (by norm_num) (by norm_num)]
  norm_num

theorem doubleEval_8 : toDouble (8894741452587621 / 75557863725914323419136) = 8894741452587621 /
    75557863725914323419136 := by
  rw [toDouble_eq (8894741452587621 / 75557863725914323419136) (-76) 8894741452587621 (by
    norm_num) (Or.inl (by norm_num)) (by norm_num) (by norm_num) (by norm_num) (by norm_num)]
  norm_num

theorem doubleEval_9 : toDouble (4447370726293811 / 37778931862957161709568) = 4447370726293811 /
    37778931862957161709568 := by
  rw [toDouble_eq (4447370726293811 / 37778931862957161709568) (-76) 8894741452587622 (by
    norm_num) (Or.inl (by norm_num)) (by norm_num) (by norm_num) (by norm_num) (by norm_num)]
  norm_num

theorem doubleEval_10 : toDouble (6254115083850671 / 26563311466141754327040) = 8894741452587621 /
    37778931862957161709568 := by
  rw [toDouble_eq (6254115083850671 / 26563311466141754327040) (-75) 8894741452587621 (by
    norm_num) (Or.inl (by norm_num)) (by norm_num) (by norm_num) (by norm_num) (by norm_num)]
  norm_num

theorem doubleEval_11 : toDouble (8894741452587621 / 37778931862957161709568) = 8894741452587621 /
    37778931862957161709568 := by
  rw [toDouble_eq (8894741452587621 / 37778931862957161709568) (-75) 8894741452587621 (by
    norm_num) (Or.inl (by norm_num)) (by norm_num) (by norm_num) (by norm_num) (by norm_num)]
  norm_num

theorem doubleEval_12 : toDouble (40058354291430517735311963804759 /
    170141183460469231731687303715884105728) = 4447370726293811 / 18889465931478580854784 := by
  rw [toDouble_eq (40058354291430517735311963804759 / 170141183460469231731687303715884105728)
    (-75) 8894741452587622 (by norm_num) (Or.inl (by norm_num)) (by norm_num) (by norm_num) (by
    norm_num) (by norm_num)]
  norm_num

theorem doubleEval_13 : toDouble (4447370726293811 / 18889465931478580854784) = 4447370726293811 /
    18889465931478580854784 := by
  rw [toDouble_eq (4447370726293811 / 18889465931478580854784) (-75) 8894741452587622 (by
    norm_num) (Or.inl (by norm_num)) (by norm_num) (by norm_num) (by norm_num) (by norm_num)]
  norm_num

theorem doubleEval_14 : toDouble (656791097521187 / 1106804644422573096960) = 5604617365514129 /
    9444732965739290427392 := by
  rw [toDouble_eq (656791097521187 / 1106804644422573096960) (-73) 5604617365514129 (by norm_num)
    (Or.inl (by norm_num)) (by norm_num) (by norm_num) (by norm_num) (by norm_num)]
  norm_num

theorem doubleEval_15 : toDouble (6017912072869215729316563 / 10141204801825835211973625643008) =
    5604617365514129 / 9444732965739290427392 := by
  rw [toDouble_eq (6017912072869215729316563 / 10141204801825835211973625643008) (-73)
    5604617365514129 (by norm_num) (Or.inl (by norm_num)) (by norm_num) (by norm_num) (by
    norm_num) (by norm_num)]
  norm_num

theorem doubleEval_16 : toDouble (2831958622573148539895625573 /
    324518553658426726783156020576256) = 5151302725740877 / 590295810358705651712 := by
  rw [toDouble_eq (2831958622573148539895625573 / 324518553658426726783156020576256) (-69)
    5151302725740877 (by norm_num) (Or.inl (by norm_num)) (by norm_num) (by norm_num) (by
    norm_num) (by norm_num)]
  norm_num

theorem doubleEval_17 : toDouble (201222762724253 / 23058430092136939520) = 5151302725740877 /
    590295810358705651712 := by
  rw [toDouble_eq (201222762724253 / 23058430092136939520) (-69) 5151302725740877 (by norm_num)
    (Or.inl (by norm_num)) (by norm_num) (by norm_num) (by norm_num) (by norm_num)]
  norm_num

theorem doubleEval_18 : toDouble (7962986642083343 / 590295810358705651712) = 7962986642083343 /
    590295810358705651712 := by
  rw [toDouble_eq (7962986642083343 / 590295810358705651712) (-69) 7962986642083343 (by norm_num)
    (Or.inl (by norm_num)) (by norm_num) (by norm_num) (by norm_num) (by norm_num)]
  norm_num

theorem doubleEval_19 : toDouble (13489824088780957 / 1000000000000000000000) = 7962986642083343 /
    590295810358705651712 := by
  rw [toDouble_eq (13489824088780957 / 1000000000000000000000) (-69) 7962986642083343 (by
    norm_num) (Or.inl (by norm_num)) (by norm_num) (by norm_num) (by norm_num) (by norm_num)]
  norm_num

theorem doubleEval_20 : toDouble (1196268651 / 35184372088832) = 1196268651 / 35184372088832 := by
  rw [toDouble_eq (1196268651 / 35184372088832) (-67) 5017514387963904 (by norm_num) (Or.inl (by
    norm_num)) (by norm_num) (by norm_num) (by norm_num) (by norm_num)]
  norm_num

theorem doubleEval_21 : toDouble (7041507590290520540133223284365 /
    166153499473114484112975882535043072) = 6254115083850671 / 147573952589676412928 := by
  rw [toDouble_eq (7041507590290520540133223284365 / 166153499473114484112975882535043072) (-67)
    6254115083850671 (by norm_num) (Or.inl (by norm_num)) (by norm_num) (by norm_num) (by
    norm_num) (by norm_num)]
  norm_num

theorem doubleEval_22 : toDouble (1057836106559041804054305 / 9903520314283042199192993792) =
    1970373292563561 / 18446744073709551616 := by
  rw [toDouble_eq (1057836106559041804054305 / 9903520314283042199192993792) (-66)
    7881493170254244 (by norm_num) (Or.inl (by norm_num)) (by norm_num) (by norm_num) (by
    norm_num) (by norm_num)]
  norm_num

theorem doubleEval_23 : toDouble (562949953421 / 1125899906842624) = 562949953421 /
    1125899906842624 := by
  rw [toDouble_eq (562949953421 / 1125899906842624) (-63) 4611686018424832 (by norm_num) (Or.inl
    (by norm_num)) (by norm_num) (by norm_num) (by norm_num) (by norm_num)]
  norm_num

theorem doubleEval_24 : toDouble (497805226624186255783411655 / 316912650057057350374175801344) =
    1811004864518277 / 1152921504606846976 := by
  rw [toDouble_eq (497805226624186255783411655 / 316912650057057350374175801344) (-62)
    7244019458073108 (by norm_num) (Or.inl (by norm_num)) (by norm_num) (by norm_num) (by
    norm_num) (by norm_num)]
  norm_num

theorem doubleEval_25 : toDouble (176855943800711 / 10133099161583616) = 5030569068109113 /
    288230376151711744 := by
  rw [toDouble_eq (176855943800711 / 10133099161583616) (-58) 5030569068109113 (by norm_num)
    (Or.inl (by norm_num)) (by norm_num) (by norm_num) (by norm_num) (by norm_num)]
  norm_num

theorem doubleEval_26 : toDouble (2791388987794435 / 144115188075855872) = 2791388987794435 /
    144115188075855872 := by
  rw [toDouble_eq (2791388987794435 / 144115188075855872) (-58) 5582777975588870 (by norm_num)
    (Or.inl (by norm_num)) (by norm_num) (by norm_num) (by norm_num) (by norm_num)]
  norm_num

theorem doubleEval_27 : toDouble (6285649202638562152591570110121 /
    324518553658426726783156020576256) = 2791388987794435 / 144115188075855872 := by
  rw [toDouble_eq (6285649202638562152591570110121 / 324518553658426726783156020576256) (-58)
    5582777975588870 (by norm_num) (Or.inl (by norm_num)) (by norm_num) (by norm_num) (by
    norm_num) (by norm_num)]
  norm_num

theorem doubleEval_28 : toDouble (5482534257822041 / 50665495807918080) = 7797382055569125 /
    72057594037927936 := by
  rw [toDouble_eq (5482534257822041 / 50665495807918080) (-56) 7797382055569125 (by norm_num)
    (Or.inl (by norm_num)) (by norm_num) (by norm_num) (by norm_num) (by norm_num)]
  norm_num

theorem doubleEval_29 : toDouble (35116286919926505166430271263397 /
    324518553658426726783156020576256) = 7797382055569125 / 72057594037927936 := by
  rw [toDouble_eq (35116286919926505166430271263397 / 324518553658426726783156020576256) (-56)
    7797382055569125 (by norm_num) (Or.inl (by norm_num)) (by norm_num) (by norm_num) (by
    norm_num) (by norm_num)]
  norm_num

theorem doubleEval_30 : toDouble (17559559439274539157485083444485 /
    162259276829213363391578010288128) = 7798010876702639 / 72057594037927936 := by
  rw [toDouble_eq (17559559439274539157485083444485 / 162259276829213363391578010288128) (-56)
    7798010876702639 (by norm_num) (Or.inl (by norm_num)) (by norm_num) (by norm_num) (by
    norm_num) (by norm_num)]
  norm_num

theorem doubleEval_31 : toDouble (1827658799227181 / 16888498602639360) = 7798010876702639 /
    72057594037927936 := by
  rw [toDouble_eq (1827658799227181 / 16888498602639360) (-56) 7798010876702639 (by norm_num)
    (Or.inl (by norm_num)) (by norm_num) (by norm_num) (by norm_num) (by norm_num)]
  norm_num

theorem doubleEval_32 : toDouble (19889556528486762294526464184969 /
    20282409603651670423947251286016) = 8832737443003841 / 9007199254740992 := by
  rw [toDouble_eq (19889556528486762294526464184969 / 20282409603651670423947251286016) (-53)
    8832737443003841 (by norm_num) (Or.inl (by norm_num)) (by norm_num) (by norm_num) (by
    norm_num) (by norm_num)]
  norm_num

theorem doubleEval_33 : toDouble (316912650057052958530314529107 / 316912650057057350374175801344)
    = 9007199254740867 / 9007199254740992 := by
  rw [toDouble_eq (316912650057052958530314529107 / 316912650057057350374175801344) (-53)
    9007199254740867 (by norm_num) (Or.inl (by norm_num)) (by norm_num) (by norm_num) (by
    norm_num) (by norm_num)]
  norm_num

theorem doubleEval_34 : toDouble (79228162514263239632578632277 / 79228162514264337593543950336) =
    9007199254740867 / 9007199254740992 := by
  rw [toDouble_eq (79228162514263239632578632277 / 79228162514264337593543950336) (-53)
    9007199254740867 (by norm_num) (Or.inl (by norm_num)) (by norm_num) (by norm_num) (by
    norm_num) (by norm_num)]
  norm_num

theorem doubleEval_35 : toDouble 1 = 1 := by
  rw [toDouble_eq 1 (-52) 4503599627370496 (by norm_num) (Or.inl (by norm_num)) (by norm_num) (by
    norm_num) (by norm_num) (by norm_num)]
  norm_num

theorem doubleEval_36 : toDouble (144115188075855891 / 144115188075855872) = 4503599627370497 /
    4503599627370496 := by
  rw [toDouble_eq (144115188075855891 / 144115188075855872) (-52) 4503599627370497 (by norm_num)
    (Or.inl (by norm_num)) (by norm_num) (by norm_num) (by norm_num) (by norm_num)]
  norm_num

theorem doubleEval_37 : toDouble (6445416618514801 / 4503599627370496) = 6445416618514801 /
    4503599627370496 := by
  rw [toDouble_eq (6445416618514801 / 4503599627370496) (-52) 6445416618514801 (by norm_num)
    (Or.inl (by norm_num)) (by norm_num) (by norm_num) (by norm_num) (by norm_num)]
  norm_num

theorem doubleEval_38 : toDouble (206253331792473633 / 144115188075855872) = 6445416618514801 /
    4503599627370496 := by
  rw [toDouble_eq (206253331792473633 / 144115188075855872) (-52) 6445416618514801 (by norm_num)
    (Or.inl (by norm_num)) (by norm_num) (by norm_num) (by norm_num) (by norm_num)]
  norm_num

theorem doubleEval_39 : toDouble (7083549724304466673875 / 4722366482869645213696) =
    6755399441055743 / 4503599627370496 := by
  rw [toDouble_eq (7083549724304466673875 / 4722366482869645213696) (-52) 6755399441055743 (by
    norm_num) (Or.inl (by norm_num)) (by norm_num) (by norm_num) (by norm_num) (by norm_num)]
  norm_num

theorem doubleEval_40 : toDouble (3541774862152233735125 / 2361183241434822606848) = 3 / 2 := by
  rw [toDouble_eq (3541774862152233735125 / 2361183241434822606848) (-52) 6755399441055744 (by
    norm_num) (Or.inl (by norm_num)) (by norm_num) (by norm_num) (by norm_num) (by norm_num)]
  norm_num

theorem doubleEval_41 : toDouble (884279719003555 / 562949953421312) = 884279719003555 /
    562949953421312 := by
  rw [toDouble_eq (884279719003555 / 562949953421312) (-52) 7074237752028440 (by norm_num) (Or.inl
    (by norm_num)) (by norm_num) (by norm_num) (by norm_num) (by norm_num)]
  norm_num

theorem doubleEval_42 : toDouble (206253331792473633 / 72057594037927936) = 6445416618514801 /
    2251799813685248 := by
  rw [toDouble_eq (206253331792473633 / 72057594037927936) (-51) 6445416618514801 (by norm_num)
    (Or.inl (by norm_num)) (by norm_num) (by norm_num) (by norm_num) (by norm_num)]
  norm_num

theorem doubleEval_43 : toDouble (226375608064910085 / 72057594037927936) = 884279719003555 /
    281474976710656 := by
  rw [toDouble_eq (226375608064910085 / 72057594037927936) (-51) 7074237752028440 (by norm_num)
    (Or.inl (by norm_num)) (by norm_num) (by norm_num) (by norm_num) (by norm_num)]
  norm_num

theorem doubleEval_44 : toDouble (31 / 5) = 6980579422424269 / 1125899906842624 := by
  rw [toDouble_eq (31 / 5) (-50) 6980579422424269 (by norm_num) (Or.inl (by norm_num)) (by
    norm_num) (by norm_num) (by norm_num) (by norm_num)]
  norm_num

theorem doubleEval_45 : toDouble (12401 / 2000) = 3490571186188845 / 562949953421312 := by
  rw [toDouble_eq (12401 / 2000) (-50) 6981142372377690 (by norm_num) (Or.inl (by norm_num)) (by
    norm_num) (by norm_num) (by norm_num) (by norm_num)]
  norm_num

theorem doubleEval_46 : toDouble (6172784810143330849947129276295 /
    316912650057057350374175801344) = 5482534257822041 / 281474976710656 := by
  rw [toDouble_eq (6172784810143330849947129276295 / 316912650057057350374175801344) (-48)
    5482534257822041 (by norm_num) (Or.inl (by norm_num)) (by norm_num) (by norm_num) (by
    norm_num) (by norm_num)]
  norm_num

theorem doubleEval_47 : toDouble (3086641307684977518101456343975 /
    158456325028528675187087900672) = 5482976397681543 / 281474976710656 := by
  rw [toDouble_eq (3086641307684977518101456343975 / 158456325028528675187087900672) (-48)
    5482976397681543 (by norm_num) (Or.inl (by norm_num)) (by norm_num) (by norm_num) (by
    norm_num) (by norm_num)]
  norm_num

theorem doubleEval_48 : toDouble (53408333 / 500000) = 1879138660916245 / 17592186044416 := by
  rw [toDouble_eq (53408333 / 500000) (-46) 7516554643664980 (by norm_num) (Or.inl (by norm_num))
    (by norm_num) (by norm_num) (by norm_num) (by norm_num)]
  norm_num

theorem doubleEval_49 : toDouble (1068167 / 10000) = 3758278518101141 / 35184372088832 := by
  rw [toDouble_eq (1068167 / 10000) (-46) 7516557036202282 (by norm_num) (Or.inl (by norm_num))
    (by norm_num) (by norm_num) (by norm_num) (by norm_num)]
  norm_num

theorem doubleEval_50 : toDouble 164 = 164 := by
  rw [toDouble_eq 164 (-45) 5770237022568448 (by norm_num) (Or.inl (by norm_num)) (by norm_num)
    (by norm_num) (by norm_num) (by norm_num)]
  norm_num

theorem doubleEval_51 : toDouble 180 = 180 := by
  rw [toDouble_eq 180 (-45) 6333186975989760 (by norm_num) (Or.inl (by norm_num)) (by norm_num)
    (by norm_num) (by norm_num) (by norm_num)]
  norm_num

/-- The conversion to radians of the helper is odd. -/
theorem toRadiansNumber_neg (x : ℚ) : toRadiansNumber (-x) = -toRadiansNumber x := by
  unfold toRadiansNumber
  rw [neg_mul, toDouble_neg]

/-- With an odd sine, the sine of half an angle changes sign with the angle. -/
theorem half_neg (M : MathLib) (hodd : ∀ x, M.sin (-x) = -M.sin x) (x : ℚ) :
    M.sin (toDouble (-x / 2)) = -M.sin (toDouble (x / 2)) := by
  rw [neg_div, toDouble_neg, hodd]

/-- The Number `a` of the Haversine formula does not change when both differences change
sign and the two cosines are exchanged. -/
theorem haversine_a_symm (s1 s2 c1 c2 : ℚ) :
    toDouble (toDouble (-s1 * -s1) + toDouble (toDouble (toDouble (c2 * c1) * -s2) * -s2)) =
      toDouble (toDouble (s1 * s1) + toDouble (toDouble (toDouble (c1 * c2) * s2) * s2)) := by
  have e : toDouble (c2 * c1) * -s2 = -(toDouble (c1 * c2) * s2) := by
    rw [mul_comm c2 c1, mul_neg]
  rw [neg_mul_neg, e, toDouble_neg, neg_mul_neg]

/-- With an odd sine, `calculateDistance` returns the same Number (or NaN) for the two orders
of its points. -/
theorem calculateDistanceNumber_symm (M : MathLib) (hodd : ∀ x, M.sin (-x) = -M.sin x)
    (lat1 lon1 lat2 lon2 : ℚ) :
    calculateDistanceNumber M lat1 lon1 lat2 lon2 =
      calculateDistanceNumber M lat2 lon2 lat1 lon1 := by
  have e1 : lat1 - lat2 = -(lat2 - lat1) := by ring
  have e2 : lon1 - lon2 = -(lon2 - lon1) := by ring
  unfold calculateDistanceNumber
  simp only [e1, e2, toDouble_neg, toRadiansNumber_neg, half_neg M hodd, haversine_a_symm]

/-- With an odd sine, the model method and the helper return the same Number when the two
conversions of degrees to radians agree on the two differences and on the two latitudes. -/
theorem getDistanceFromNumber_eq (M : MathLib) (hodd : ∀ x, M.sin (-x) = -M.sin x)
    (officeLat officeLng userLat userLng : ℚ)
    (h1 : modelRadians (toDouble (userLat - officeLat)) =
      toRadiansNumber (toDouble (userLat - officeLat)))
    (h2 : modelRadians (toDouble (userLng - officeLng)) =
      toRadiansNumber (toDouble (userLng - officeLng)))
    (h3 : modelRadians officeLat = toRadiansNumber officeLat)
    (h4 : modelRadians userLat = toRadiansNumber userLat) :
    getDistanceFromNumber M officeLat officeLng userLat userLng =
      calculateDistanceNumber M userLat userLng officeLat officeLng := by
  have e1 : officeLat - userLat = -(userLat - officeLat) := by ring
  have e2 : officeLng - userLng = -(userLng - officeLng) := by ring
  unfold calculateDistanceNumber getDistanceFromNumber
  simp only [e1, e2, h1, h2, h3, h4, toDouble_neg, toRadiansNumber_neg, half_neg M hodd,
    haversine_a_symm]

/-- The sine of `hostMath` is odd. -/
theorem hostMath_sin_odd (x : ℚ) : hostMath.sin (-x) = -hostMath.sin x := by
  simp only [hostMath]
  rcases lt_trichotomy x 0 with h | h | h
  · rw [if_neg (by linarith), if_pos h, neg_neg]
  · subst h
    norm_num [hostSin]
  · rw [if_pos (by linarith), if_neg (by linarith), neg_neg]

/-- Counterexample to claim C9 as stated. For the valid coordinate pairs (-82, -180) and
(82, 0) the Number `a` of the Haversine formula is 1.0000000000000002, `1 - a` is negative,
`Math.sqrt(1 - a)` is NaN and `calculateDistance` returns NaN in both orders: there is no
distance that the two orders both return. -/
theorem C9_counterexample :
    calculateDistanceNumber hostMath (-82) (-180) 82 0 = none ∧
    calculateDistanceNumber hostMath 82 0 (-82) (-180) = none ∧
    ¬ ∃ d : Int, calculateDistanceNumber hostMath (-82) (-180) 82 0 = some d ∧
      calculateDistanceNumber hostMath 82 0 (-82) (-180) = some d := by
  have h1 : calculateDistanceNumber hostMath (-82) (-180) 82 0 = none := by
    simp only [calculateDistanceNumber, toRadiansNumber, mathPI, hostMath, hostSin, hostCos,
      hostSqrt, hostAtan2]
    norm_num [toDouble_neg, toDouble_neg_div, toDouble_zero, doubleEval_1, doubleEval_2,
      doubleEval_3, doubleEval_4, doubleEval_5, doubleEval_6, doubleEval_7, doubleEval_8,
      doubleEval_9, doubleEval_10, doubleEval_11, doubleEval_12, doubleEval_13, doubleEval_14,
      doubleEval_15, doubleEval_16, doubleEval_17, doubleEval_18, doubleEval_19, doubleEval_20,
      doubleEval_21, doubleEval_22, doubleEval_23, doubleEval_24, doubleEval_25, doubleEval_26,
      doubleEval_27, doubleEval_28, doubleEval_29, doubleEval_30, doubleEval_31, doubleEval_32,
      doubleEval_33, doubleEval_34, doubleEval_35, doubleEval_36, doubleEval_37, doubleEval_38,
      doubleEval_39, doubleEval_40, doubleEval_41, doubleEval_42, doubleEval_43, doubleEval_44,
      doubleEval_45, doubleEval_46, doubleEval_47, doubleEval_48, doubleEval_49, doubleEval_50,
      doubleEval_51]
  have h2 : calculateDistanceNumber hostMath 82 0 (-82) (-180) = none := by
    simp only [calculateDistanceNumber, toRadiansNumber, mathPI, hostMath, hostSin, hostCos,
      hostSqrt, hostAtan2]
    norm_num [toDouble_neg, toDouble_neg_div, toDouble_zero, doubleEval_1, doubleEval_2,
      doubleEval_3, doubleEval_4, doubleEval_5, doubleEval_6, doubleEval_7, doubleEval_8,
      doubleEval_9, doubleEval_10, doubleEval_11, doubleEval_12, doubleEval_13, doubleEval_14,
      doubleEval_15, doubleEval_16, doubleEval_17, doubleEval_18, doubleEval_19, doubleEval_20,
      doubleEval_21, doubleEval_22, doubleEval_23, doubleEval_24, doubleEval_25, doubleEval_26,
      doubleEval_27, doubleEval_28, doubleEval_29, doubleEval_30, doubleEval_31, doubleEval_32,
      doubleEval_33, doubleEval_34, doubleEval_35, doubleEval_36, doubleEval_37, doubleEval_38,
      doubleEval_39, doubleEval_40, doubleEval_41, doubleEval_42, doubleEval_43, doubleEval_44,
      doubleEval_45, doubleEval_46, doubleEval_47, doubleEval_48, doubleEval_49, doubleEval_50,
      doubleEval_51]
  refine ⟨h1, h2, ?_⟩
  rintro ⟨d, hd, _⟩
  rw [h1] at hd
  cases hd

/-- Claim C9, amended. When `Math.sin` is an odd function, `calculateDistance` in Number
arithmetic returns the same Number for a pair of coordinates in either order: whenever one
order returns a distance the other returns the same distance, and whenever one order returns
NaN so does the other. -/
theorem C9_calculateDistance_symm (M : MathLib) (hodd : ∀ x, M.sin (-x) = -M.sin x)
    (lat1 lon1 lat2 lon2 : ℚ) :
    calculateDistanceNumber M lat1 lon1 lat2 lon2 =
      calculateDistanceNumber M lat2 lon2 lat1 lon1 ∧
    (∀ d : Int, calculateDistanceNumber M lat1 lon1 lat2 lon2 = some d →
      calculateDistanceNumber M lat2 lon2 lat1 lon1 = some d) ∧
    (calculateDistanceNumber M lat1 lon1 lat2 lon2 = none →
      calculateDistanceNumber M lat2 lon2 lat1 lon1 = none) := by
  have h := calculateDistanceNumber_symm M hodd lat1 lon1 lat2 lon2
  refine ⟨h, ?_, ?_⟩
  · intro d hd
    rw [← h]
    exact hd
  · intro hn
    rw [← h]
    exact hn

/-- The helper at user (0, 0.000013489824088780957) and office (0, 0): the unrounded distance
is 1.5 and the result 2. -/
theorem calculateDistanceNumber_near_tie :
    calculateDistanceNumber hostMath 0
      (toDouble (13489824088780957 / 1000000000000000000000)) 0 0 = some 2 := by
  simp only [calculateDistanceNumber, toRadiansNumber, mathPI, hostMath, hostSin, hostCos,
    hostSqrt, hostAtan2]
  norm_num [toDouble_neg, toDouble_neg_div, toDouble_zero, doubleEval_1, doubleEval_2,
    doubleEval_3, doubleEval_4, doubleEval_5, doubleEval_6, doubleEval_7, doubleEval_8,
    doubleEval_9, doubleEval_10, doubleEval_11, doubleEval_12, doubleEval_13, doubleEval_14,
    doubleEval_15, doubleEval_16, doubleEval_17, doubleEval_18, doubleEval_19, doubleEval_20,
    doubleEval_21, doubleEval_22, doubleEval_23, doubleEval_24, doubleEval_25, doubleEval_26,
    doubleEval_27, doubleEval_28, doubleEval_29, doubleEval_30, doubleEval_31, doubleEval_32,
    doubleEval_33, doubleEval_34, doubleEval_35, doubleEval_36, doubleEval_37, doubleEval_38,
    doubleEval_39, doubleEval_40, doubleEval_41, doubleEval_42, doubleEval_43, doubleEval_44,
    doubleEval_45, doubleEval_46, doubleEval_47, doubleEval_48, doubleEval_49, doubleEval_50,
    doubleEval_51]

/-- The model method at office (0, 0) and user (0, 0.000013489824088780957): the unrounded
distance is 1.4999999999999998 and the result 1. -/
theorem getDistanceFromNumber_near_tie :
    getDistanceFromNumber hostMath 0 0 0
      (toDouble (13489824088780957 / 1000000000000000000000)) = some 1 := by
  simp only [getDistanceFromNumber, modelRadians, mathPI, hostMath, hostSin, hostCos,
    hostSqrt, hostAtan2]
  norm_num [toDouble_neg, toDouble_neg_div, toDouble_zero, doubleEval_1, doubleEval_2,
    doubleEval_3, doubleEval_4, doubleEval_5, doubleEval_6, doubleEval_7, doubleEval_8,
    doubleEval_9, doubleEval_10, doubleEval_11, doubleEval_12, doubleEval_13, doubleEval_14,
    doubleEval_15, doubleEval_16, doubleEval_17, doubleEval_18, doubleEval_19, doubleEval_20,
    doubleEval_21, doubleEval_22, doubleEval_23, doubleEval_24, doubleEval_25, doubleEval_26,
    doubleEval_27, doubleEval_28, doubleEval_29, doubleEval_30, doubleEval_31, doubleEval_32,
    doubleEval_33, doubleEval_34, doubleEval_35, doubleEval_36, doubleEval_37, doubleEval_38,
    doubleEval_39, doubleEval_40, doubleEval_41, doubleEval_42, doubleEval_43, doubleEval_44,
    doubleEval_45, doubleEval_46, doubleEval_47, doubleEval_48, doubleEval_49, doubleEval_50,
    doubleEval_51]

/-- Witness for the amended C9: the sine of `hostMath` is odd, and the user at
(0, 0.000013489824088780957) and the office at (0, 0) are 2 m apart in either order. -/
theorem C9_calculateDistance_symm_witness :
    (∀ x, hostMath.sin (-x) = -hostMath.sin x) ∧
    calculateDistanceNumber hostMath 0
      (toDouble (13489824088780957 / 1000000000000000000000)) 0 0 = some 2 ∧
    calculateDistanceNumber hostMath 0 0 0
      (toDouble (13489824088780957 / 1000000000000000000000)) = some 2 :=
  ⟨hostMath_sin_odd, calculateDistanceNumber_near_tie,
    (C9_calculateDistance_symm hostMath hostMath_sin_odd 0
      (toDouble (13489824088780957 / 1000000000000000000000)) 0 0).2.1 2
      calculateDistanceNumber_near_tie⟩

/-- Claim C30 at a failing input. Office at (0, 0), user at
(0, 0.000013489824088780957): the model method converts the difference of the longitudes to
2.3544184586407154e-7 radians and the helper to 2.3544184586407156e-7, the unrounded distances
are 1.4999999999999998 and 1.5, and `getDistanceFrom` returns 1 while `calculateDistance`
returns 2. -/
theorem C30_getDistanceFrom_ne_calculateDistance :
    getDistanceFromNumber hostMath 0 0 0
      (toDouble (13489824088780957 / 1000000000000000000000)) = some 1 ∧
    calculateDistanceNumber hostMath 0
      (toDouble (13489824088780957 / 1000000000000000000000)) 0 0 = some 2 ∧
    modelRadians (toDouble (13489824088780957 / 1000000000000000000000)) <
      toRadiansNumber (toDouble (13489824088780957 / 1000000000000000000000)) ∧
    getDistanceFromNumber hostMath 0 0 0
        (toDouble (13489824088780957 / 1000000000000000000000)) ≠
      calculateDistanceNumber hostMath 0
        (toDouble (13489824088780957 / 1000000000000000000000)) 0 0 := by
  refine ⟨getDistanceFromNumber_near_tie, calculateDistanceNumber_near_tie, ?_, ?_⟩
  · norm_num [modelRadians, toRadiansNumber, mathPI, toDouble_neg, toDouble_neg_div,
      doubleEval_1, doubleEval_2, doubleEval_3, doubleEval_4, doubleEval_5, doubleEval_6,
        doubleEval_7, doubleEval_8, doubleEval_9, doubleEval_10, doubleEval_11, doubleEval_12,
        doubleEval_13, doubleEval_14, doubleEval_15, doubleEval_16, doubleEval_17, doubleEval_18,
        doubleEval_19, doubleEval_20, doubleEval_21, doubleEval_22, doubleEval_23, doubleEval_24,
        doubleEval_25, doubleEval_26, doubleEval_27, doubleEval_28, doubleEval_29, doubleEval_30,
        doubleEval_31, doubleEval_32, doubleEval_33, doubleEval_34, doubleEval_35, doubleEval_36,
        doubleEval_37, doubleEval_38, doubleEval_39, doubleEval_40, doubleEval_41, doubleEval_42,
        doubleEval_43, doubleEval_44, doubleEval_45, doubleEval_46, doubleEval_47, doubleEval_48,
        doubleEval_49, doubleEval_50, doubleEval_51]
  · rw [getDistanceFromNumber_near_tie, calculateDistanceNumber_near_tie]
    decide

/-- An office at (-6.2, 106.816666) and a user at (-6.2005, 106.8167), about 56 m away: the two
conversions of degrees to radians agree on the two differences and the two latitudes, so the
model method and the helper return the same Number, whatever the host's `Math` functions are
(with an odd sine). -/
theorem getDistanceFromNumber_eq_example (M : MathLib) (hodd : ∀ x, M.sin (-x) = -M.sin x) :
    getDistanceFromNumber M (toDouble (-31 / 5)) (toDouble (106816666 / 1000000))
        (toDouble (-62005 / 10000)) (toDouble (1068167 / 10000)) =
      calculateDistanceNumber M (toDouble (-62005 / 10000))
        (toDouble (1068167 / 10000)) (toDouble (-31 / 5)) (toDouble (106816666 / 1000000)) :=
  getDistanceFromNumber_eq M hodd _ _ _ _
    (by norm_num [modelRadians, toRadiansNumber, mathPI, toDouble_neg, toDouble_neg_div,
      doubleEval_1, doubleEval_2, doubleEval_3, doubleEval_4, doubleEval_5, doubleEval_6,
        doubleEval_7, doubleEval_8, doubleEval_9, doubleEval_10, doubleEval_11, doubleEval_12,
        doubleEval_13, doubleEval_14, doubleEval_15, doubleEval_16, doubleEval_17, doubleEval_18,
        doubleEval_19, doubleEval_20, doubleEval_21, doubleEval_22, doubleEval_23, doubleEval_24,
        doubleEval_25, doubleEval_26, doubleEval_27, doubleEval_28, doubleEval_29, doubleEval_30,
        doubleEval_31, doubleEval_32, doubleEval_33, doubleEval_34, doubleEval_35, doubleEval_36,
        doubleEval_37, doubleEval_38, doubleEval_39, doubleEval_40, doubleEval_41, doubleEval_42,
        doubleEval_43, doubleEval_44, doubleEval_45, doubleEval_46, doubleEval_47, doubleEval_48,
        doubleEval_49, doubleEval_50, doubleEval_51])
    (by norm_num [modelRadians, toRadiansNumber, mathPI, toDouble_neg, toDouble_neg_div,
      doubleEval_1, doubleEval_2, doubleEval_3, doubleEval_4, doubleEval_5, doubleEval_6,
        doubleEval_7, doubleEval_8, doubleEval_9, doubleEval_10, doubleEval_11, doubleEval_12,
        doubleEval_13, doubleEval_14, doubleEval_15, doubleEval_16, doubleEval_17, doubleEval_18,
        doubleEval_19, doubleEval_20, doubleEval_21, doubleEval_22, doubleEval_23, doubleEval_24,
        doubleEval_25, doubleEval_26, doubleEval_27, doubleEval_28, doubleEval_29, doubleEval_30,
        doubleEval_31, doubleEval_32, doubleEval_33, doubleEval_34, doubleEval_35, doubleEval_36,
        doubleEval_37, doubleEval_38, doubleEval_39, doubleEval_40, doubleEval_41, doubleEval_42,
        doubleEval_43, doubleEval_44, doubleEval_45, doubleEval_46, doubleEval_47, doubleEval_48,
        doubleEval_49, doubleEval_50, doubleEval_51])
    (by norm_num [modelRadians, toRadiansNumber, mathPI, toDouble_neg, toDouble_neg_div,
      doubleEval_1, doubleEval_2, doubleEval_3, doubleEval_4, doubleEval_5, doubleEval_6,
        doubleEval_7, doubleEval_8, doubleEval_9, doubleEval_10, doubleEval_11, doubleEval_12,
        doubleEval_13, doubleEval_14, doubleEval_15, doubleEval_16, doubleEval_17, doubleEval_18,
        doubleEval_19, doubleEval_20, doubleEval_21, doubleEval_22, doubleEval_23, doubleEval_24,
        doubleEval_25, doubleEval_26, doubleEval_27, doubleEval_28, doubleEval_29, doubleEval_30,
        doubleEval_31, doubleEval_32, doubleEval_33, doubleEval_34, doubleEval_35, doubleEval_36,
        doubleEval_37, doubleEval_38, doubleEval_39, doubleEval_40, doubleEval_41, doubleEval_42,
        doubleEval_43, doubleEval_44, doubleEval_45, doubleEval_46, doubleEval_47, doubleEval_48,
        doubleEval_49, doubleEval_50, doubleEval_51])
    (by norm_num [modelRadians, toRadiansNumber, mathPI, toDouble_neg, toDouble_neg_div,
      doubleEval_1, doubleEval_2, doubleEval_3, doubleEval_4, doubleEval_5, doubleEval_6,
        doubleEval_7, doubleEval_8, doubleEval_9, doubleEval_10, doubleEval_11, doubleEval_12,
        doubleEval_13, doubleEval_14, doubleEval_15, doubleEval_16, doubleEval_17, doubleEval_18,
        doubleEval_19, doubleEval_20, doubleEval_21, doubleEval_22, doubleEval_23, doubleEval_24,
        doubleEval_25, doubleEval_26, doubleEval_27, doubleEval_28, doubleEval_29, doubleEval_30,
        doubleEval_31, doubleEval_32, doubleEval_33, doubleEval_34, doubleEval_35, doubleEval_36,
        doubleEval_37, doubleEval_38, doubleEval_39, doubleEval_40, doubleEval_41, doubleEval_42,
        doubleEval_43, doubleEval_44, doubleEval_45, doubleEval_46, doubleEval_47, doubleEval_48,
        doubleEval_49, doubleEval_50, doubleEval_51])

/-! ## Attendance statistics -/

theorem daysBeforeMonth_bounds (leap : Bool) (mn : Int) (h0 : 0 ≤ mn) (h1 : mn ≤ 11) :
    0 ≤ daysBeforeMonth leap mn ∧ daysBeforeMonth leap mn ≤ 335 := by
  interval_cases mn <;> cases leap <;> decide

/-- For a target month 1..12 of a year within 200000 years of the epoch, and a zone offset of
at most a day, the bounds of the date range of `getAttendanceStats` are valid dates. -/
theorem stats_dates_valid (tz Y M : Int) (hY1 : -200000 ≤ Y) (hY2 : Y ≤ 200000)
    (hM1 : 1 ≤ M) (hM2 : M ≤ 12) (ht1 : -86400000 ≤ tz) (ht2 : tz ≤ 86400000) :
    timeClip (newDate tz Y (M - 1) 1 0 0 0 0) = some (newDate tz Y (M - 1) 1 0 0 0 0) ∧
    timeClip (newDate tz Y M 0 23 59 59 0) = some (newDate tz Y M 0 23 59 59 0) := by
  have hF1 : -200000 ≤ makeFullYear Y := by
    unfold makeFullYear
    split_ifs <;> omega
  have hF2 : makeFullYear Y ≤ 200000 := by
    unfold makeFullYear
    split_ifs <;> omega
  have b1 := daysBeforeMonth_bounds (isLeapYear (makeFullYear Y + (M - 1) / 12)) ((M - 1) % 12)
    (by omega) (by omega)
  have b2 := daysBeforeMonth_bounds (isLeapYear (makeFullYear Y + M / 12)) (M % 12)
    (by omega) (by omega)
  have e1 : (M - 1) / 12 = 0 := by omega
  have e2 : M / 12 = 0 ∨ M / 12 = 1 := by omega
  constructor
  · apply timeClip_eq_some
    · unfold newDate makeDay dayFromYear
      simp only [msPerDay, e1] at b1 ⊢
      omega
    · unfold newDate makeDay dayFromYear
      simp only [msPerDay, e1] at b1 ⊢
      omega
  · apply timeClip_eq_some
    · unfold newDate makeDay dayFromYear
      simp only [msPerDay] at b2 ⊢
      rcases e2 with e2 | e2 <;> rw [e2] at b2 ⊢ <;> omega
    · unfold newDate makeDay dayFromYear
      simp only [msPerDay] at b2 ⊢
      rcases e2 with e2 | e2 <;> rw [e2] at b2 ⊢ <;> omega

theorem newDate_end_of_day (tz Y M : Int) :
    newDate tz Y M 0 23 59 59 0 = newDate tz Y M 0 0 0 0 0 + 86399000 := by
  unfold newDate
  ring

/-- When the bounds of the date range are valid dates, the private `getWorkingDaysInMonth` of
adminController.js counts the Monday-to-Friday days of the target month, at least 20. -/
theorem adminGetWorkingDaysInMonth_of_valid (tz Y M startDate endDate : Int)
    (hs : timeClip (newDate tz Y (M - 1) 1 0 0 0 0) = some startDate)
    (he : timeClip (newDate tz Y M 0 23 59 59 0) = some endDate) :
    adminGetWorkingDaysInMonth tz Y (M - 1) =
      weekdaysOfMonth (makeFullYear Y + (M - 1) / 12) ((M - 1) % 12) ∧
    20 ≤ adminGetWorkingDaysInMonth tz Y (M - 1) := by
  have h1 := ((timeClip_some_iff _ _).1 hs).2.1
  have h2 := ((timeClip_some_iff _ _).1 he).2.2
  rw [newDate_end_of_day] at h2
  have e : adminGetWorkingDaysInMonth tz Y (M - 1) =
      weekdaysOfMonth (makeFullYear Y + (M - 1) / 12) ((M - 1) % 12) := by
    rw [adminGetWorkingDaysInMonth_eq_dateHelper]
    apply getWorkingDaysInMonth_eq _ _ _ h1
    rw [sub_add_cancel]
    omega
  refine ⟨e, ?_⟩
  rw [e]
  exact weekdaysOfMonth_ge _ _

/-- Counterexample to claim C24 as stated. A request with `?month=1&year=300000`, with 8
employees and 23 presence records: both bounds of the date range are Invalid Dates, the count
query rejects with a CastError and no attendance rate is returned; for that month the
working-days helper returns 0, which is not at least 20. -/
theorem C24_counterexample :
    dateOf 25200000 (some 300000) (some 0) 1 0 0 0 = none ∧
    dateOf 25200000 (some 300000) (some 1) 0 23 59 59 = none ∧
    getAttendanceStats 25200000
      (List.replicate 8 ⟨"Budi", "budi@kantor.id", "rahasia", Role.karyawan⟩)
      (List.replicate 23 ⟨7, 1612112400000, some 1612141200000, none, ⟨0, 0⟩, ⟨none, none⟩,
        AttendanceStatus.ontime⟩)
      (some (some 1)) (some (some 300000)) 2024 0 = Handled.thrown "CastError" ∧
    adminGetWorkingDaysInMonth 25200000 300000 0 = 0 ∧
    ¬ 20 ≤ adminGetWorkingDaysInMonth 25200000 300000 0 := by
  have h1 : dateOf 25200000 (some 300000) (some 0) 1 0 0 0 = none := by decide
  have h2 : dateOf 25200000 (some 300000) (some 1) 0 23 59 59 = none := by decide
  have h3 : adminGetWorkingDaysInMonth 25200000 300000 0 = 0 := by
    unfold adminGetWorkingDaysInMonth
    rw [timeClip_eq_none _ (by decide)]
  refine ⟨h1, h2, ?_, h3, ?_⟩
  · simp only [getAttendanceStats, queryIntOr, Option.map]
    rw [show (1 : Int) - 1 = 0 from rfl, h1, h2]
  · rw [h3]
    decide

/-- Claim C24, amended. `getAttendanceStats` never divides by zero. For every request, either
a bound of the target month's date range is an Invalid Date (a parameter is NaN or the year is
outside the range of Date), the count query rejects and nothing is computed, or the handler
answers with statistics in which `workingDays` is the number of Monday-to-Friday days of the
target month, at least 20; with `totalUsers > 0` the divisor `totalUsers * workingDays` is not
zero and the attendance rate is `presentCount / (totalUsers * workingDays) * 100` evaluated in
Number arithmetic and brought to 2 decimal places by `toFixed(2)`, within 0.005 of the exact
percentage up to the rounding of the Number operations; with `totalUsers = 0` the rate is 0
and the division is not evaluated. For target months 1..12 of years within 200000 years of
the epoch the handler always answers. -/
theorem C24_attendance_rate_safe (tz : Int) (users : List User) (presences : List Presence)
    (month year : Option (Option Int)) (currentYear currentMonth : Int) :
    ((getAttendanceStats tz users presences month year currentYear currentMonth =
          Handled.thrown "CastError" ∧
        (dateOf tz (queryIntOr year currentYear)
            ((queryIntOr month (currentMonth + 1)).map (fun m => m - 1)) 1 0 0 0 = none ∨
          dateOf tz (queryIntOr year currentYear) (queryIntOr month (currentMonth + 1))
            0 23 59 59 = none)) ∨
      ∃ (targetYear targetMonth startDate endDate : Int) (stats : AttendanceStats),
        queryIntOr year currentYear = some targetYear ∧
        queryIntOr month (currentMonth + 1) = some targetMonth ∧
        timeClip (newDate tz targetYear (targetMonth - 1) 1 0 0 0 0) = some startDate ∧
        timeClip (newDate tz targetYear targetMonth 0 23 59 59 0) = some endDate ∧
        getAttendanceStats tz users presences month year currentYear currentMonth =
          Handled.sent ⟨200, true, none, some stats⟩ ∧
        stats.totalUsers = users.countP (fun u => u.role == Role.karyawan) ∧
        stats.totalPresenceThisMonth =
          presences.countP
            (fun p => decide (startDate ≤ p.date) && decide (p.date ≤ endDate)) ∧
        stats.workingDays = adminGetWorkingDaysInMonth tz targetYear (targetMonth - 1) ∧
        stats.workingDays =
          weekdaysOfMonth (makeFullYear targetYear + (targetMonth - 1) / 12)
            ((targetMonth - 1) % 12) ∧
        20 ≤ stats.workingDays ∧
        (0 < stats.totalUsers →
          (stats.totalUsers : ℚ) * (stats.workingDays : ℚ) ≠ 0 ∧
          toDouble ((stats.totalUsers : ℚ) * (stats.workingDays : ℚ)) ≠ 0 ∧
          stats.attendanceRate =
            toFixed2 (toDouble (toDouble ((stats.totalPresenceThisMonth : ℚ) /
              toDouble ((stats.totalUsers : ℚ) * (stats.workingDays : ℚ))) * 100)) ∧
          |stats.attendanceRate - (stats.totalPresenceThisMonth : ℚ) /
              ((stats.totalUsers : ℚ) * (stats.workingDays : ℚ)) * 100| ≤
            1 / 200 + (stats.totalPresenceThisMonth : ℚ) /
              ((stats.totalUsers : ℚ) * (stats.workingDays : ℚ)) * 100 / 2 ^ 49 +
              1 / 2 ^ 1000) ∧
        (stats.totalUsers = 0 → stats.attendanceRate = 0)) ∧
    (∀ targetYear targetMonth : Int,
      queryIntOr year currentYear = some targetYear →
      queryIntOr month (currentMonth + 1) = some targetMonth →
      -200000 ≤ targetYear → targetYear ≤ 200000 → 1 ≤ targetMonth → targetMonth ≤ 12 →
      -86400000 ≤ tz → tz ≤ 86400000 →
      ∃ stats : AttendanceStats,
        getAttendanceStats tz users presences month year currentYear currentMonth =
          Handled.sent ⟨200, true, none, some stats⟩) := by
  have main : (getAttendanceStats tz users presences month year currentYear currentMonth =
          Handled.thrown "CastError" ∧
        (dateOf tz (queryIntOr year currentYear)
            ((queryIntOr month (currentMonth + 1)).map (fun m => m - 1)) 1 0 0 0 = none ∨
          dateOf tz (queryIntOr year currentYear) (queryIntOr month (currentMonth + 1))
            0 23 59 59 = none)) ∨
      ∃ (targetYear targetMonth startDate endDate : Int) (stats : AttendanceStats),
        queryIntOr year currentYear = some targetYear ∧
        queryIntOr month (currentMonth + 1) = some targetMonth ∧
        timeClip (newDate tz targetYear (targetMonth - 1) 1 0 0 0 0) = some startDate ∧
        timeClip (newDate tz targetYear targetMonth 0 23 59 59 0) = some endDate ∧
        getAttendanceStats tz users presences month year currentYear currentMonth =
          Handled.sent ⟨200, true, none, some stats⟩ ∧
        stats.totalUsers = users.countP (fun u => u.role == Role.karyawan) ∧
        stats.totalPresenceThisMonth =
          presences.countP
            (fun p => decide (startDate ≤ p.date) && decide (p.date ≤ endDate)) ∧
        stats.workingDays = adminGetWorkingDaysInMonth tz targetYear (targetMonth - 1) ∧
        stats.workingDays =
          weekdaysOfMonth (makeFullYear targetYear + (targetMonth - 1) / 12)
            ((targetMonth - 1) % 12) ∧
        20 ≤ stats.workingDays ∧
        (0 < stats.totalUsers →
          (stats.totalUsers : ℚ) * (stats.workingDays : ℚ) ≠ 0 ∧
          toDouble ((stats.totalUsers : ℚ) * (stats.workingDays : ℚ)) ≠ 0 ∧
          stats.attendanceRate =
            toFixed2 (toDouble (toDouble ((stats.totalPresenceThisMonth : ℚ) /
              toDouble ((stats.totalUsers : ℚ) * (stats.workingDays : ℚ))) * 100)) ∧
          |stats.attendanceRate - (stats.totalPresenceThisMonth : ℚ) /
              ((stats.totalUsers : ℚ) * (stats.workingDays : ℚ)) * 100| ≤
            1 / 200 + (stats.totalPresenceThisMonth : ℚ) /
              ((stats.totalUsers : ℚ) * (stats.workingDays : ℚ)) * 100 / 2 ^ 49 +
              1 / 2 ^ 1000) ∧
        (stats.totalUsers = 0 → stats.attendanceRate = 0) := by
    cases hy : queryIntOr year currentYear with
    | none =>
      left
      simp [getAttendanceStats, hy, dateOf]
    | some Y =>
      cases hm : queryIntOr month (currentMonth + 1) with
      | none =>
        left
        simp [getAttendanceStats, hy, hm, dateOf]
      | some M =>
        cases hs : timeClip (newDate tz Y (M - 1) 1 0 0 0 0) with
        | none =>
          left
          simp [getAttendanceStats, hy, hm, dateOf, hs]
        | some sd =>
          cases he : timeClip (newDate tz Y M 0 23 59 59 0) with
          | none =>
            left
            simp [getAttendanceStats, hy, hm, dateOf, hs, he]
          | some ed =>
            right
            obtain ⟨hw1, hw2⟩ := adminGetWorkingDaysInMonth_of_valid tz Y M sd ed hs he
            refine ⟨Y, M, sd, ed,
              ⟨users.countP (fun u => u.role == Role.karyawan),
                presences.countP (fun p => decide (sd ≤ p.date) && decide (p.date ≤ ed)),
                presences.countP (fun p => decide (sd ≤ p.date) && decide (p.date ≤ ed) &&
                  p.status == AttendanceStatus.ontime),
                presences.countP (fun p => decide (sd ≤ p.date) && decide (p.date ≤ ed) &&
                  p.status == AttendanceStatus.late),
                adminGetWorkingDaysInMonth tz Y (M - 1),
                if users.countP (fun u => u.role == Role.karyawan) > 0 then
                  toFixed2 (toDouble (toDouble
                    (((presences.countP
                        (fun p => decide (sd ≤ p.date) && decide (p.date ≤ ed)) : Nat) : ℚ) /
                      toDouble (((users.countP (fun u => u.role == Role.karyawan) : Nat) : ℚ) *
                        ((adminGetWorkingDaysInMonth tz Y (M - 1) : Nat) : ℚ))) * 100))
                else 0,
                M, Y⟩,
              rfl, rfl, hs, he, ?_, rfl, rfl, rfl, hw1, hw2, ?_, ?_⟩
            · simp only [getAttendanceStats, hy, hm, dateOf, Option.map, hs, he]
            · intro hpos
              simp only [] at hpos ⊢
              have hu1 : (1 : ℚ) ≤
                  ((users.countP (fun u => u.role == Role.karyawan) : Nat) : ℚ) := by
                exact_mod_cast hpos
              have hw20 : (20 : ℚ) ≤ ((adminGetWorkingDaysInMonth tz Y (M - 1) : Nat) : ℚ) := by
                exact_mod_cast hw2
              have hN : (1 : ℚ) ≤
                  ((users.countP (fun u => u.role == Role.karyawan) : Nat) : ℚ) *
                    ((adminGetWorkingDaysInMonth tz Y (M - 1) : Nat) : ℚ) := by
                nlinarith
              refine ⟨by linarith, ne_of_gt (toDouble_pos _ hN), ?_, ?_⟩
              · rw [if_pos hpos]
              · rw [if_pos hpos]
                exact attendanceRate_near _ _ (by positivity) hN
            · intro hz
              simp only [] at hz ⊢
              rw [if_neg (by omega)]
  refine ⟨main, ?_⟩
  intro Y M hy hm hY1 hY2 hM1 hM2 ht1 ht2
  obtain ⟨hs, he⟩ := stats_dates_valid tz Y M hY1 hY2 hM1 hM2 ht1 ht2
  rcases main with ⟨_, hnone⟩ | ⟨_, _, _, _, stats, _, _, _, _, hsent, _⟩
  · rw [hy, hm] at hnone
    simp only [dateOf, Option.map, hs, he] at hnone
    rcases hnone with c | c <;> cases c
  · exact ⟨stats, hsent⟩

theorem toDouble_160 : toDouble 160 = 160 := by
  rw [toDouble_eq 160 (-45) 5629499534213120 (by norm_num) (Or.inl (by norm_num))
    (by norm_num) (by norm_num) (by norm_num) (by norm_num)]
  norm_num

theorem toDouble_23_160 :
    toDouble (23 / 160) = 2589569785738035 / 18014398509481984 := by
  rw [toDouble_eq (23 / 160) (-55) 5179139571476070 (by norm_num) (Or.inl (by norm_num))
    (by norm_num) (by norm_num) (by norm_num) (by norm_num)]
  norm_num

theorem toDouble_rate_product :
    toDouble (2589569785738035 / 18014398509481984 * 100) =
      8092405580431359 / 562949953421312 := by
  rw [toDouble_eq (2589569785738035 / 18014398509481984 * 100) (-49) 8092405580431359
    (by norm_num) (Or.inl (by norm_num)) (by norm_num) (by norm_num) (by norm_num)
    (by norm_num)]
  norm_num

/-- Witness for the amended C24: 8 employees and 23 presence records in February 2021 (20 working days,
UTC+7). The exact percentage is 14.375, the Number product is 14.374999999999998, and the rate
is 14.37. -/
theorem C24_attendance_rate_safe_witness :
    ∃ stats : AttendanceStats,
      getAttendanceStats 25200000
        (List.replicate 8 ⟨"Budi", "budi@kantor.id", "rahasia", Role.karyawan⟩)
        (List.replicate 23 ⟨7, 1612112400000, some 1612141200000, none, ⟨0, 0⟩, ⟨none, none⟩,
          AttendanceStatus.ontime⟩)
        (some (some 2)) (some (some 2021)) 2024 0 =
          Handled.sent ⟨200, true, none, some stats⟩ ∧
      stats.totalUsers = 8 ∧ stats.totalPresenceThisMonth = 23 ∧ stats.workingDays = 20 ∧
      stats.attendanceRate = 1437 / 100 := by
  rcases (C24_attendance_rate_safe 25200000
      (List.replicate 8 ⟨"Budi", "budi@kantor.id", "rahasia", Role.karyawan⟩)
      (List.replicate 23 ⟨7, 1612112400000, some 1612141200000, none, ⟨0, 0⟩, ⟨none, none⟩,
        AttendanceStatus.ontime⟩)
      (some (some 2)) (some (some 2021)) 2024 0).1 with
    ⟨_, hnone⟩ | ⟨Y, M, sd, ed, stats, hy, hm, hs, he, hsent, hu, hp, _, hw, _, hrate, _⟩
  · exact absurd hnone (by decide)
  · have eY : Y = 2021 := (Option.some.inj hy).symm
    have eM : M = 2 := (Option.some.inj hm).symm
    subst eY
    subst eM
    have esd : sd = 1612112400000 := by
      rw [((timeClip_some_iff _ _).1 hs).1]
      decide
    have eed : ed = 1614531599000 := by
      rw [((timeClip_some_iff _ _).1 he).1]
      decide
    subst esd
    subst eed
    have hu8 : stats.totalUsers = 8 := hu.trans (by decide)
    have hp23 : stats.totalPresenceThisMonth = 23 := hp.trans (by decide)
    have hw20 : stats.workingDays = 20 := hw.trans (by decide)
    refine ⟨stats, hsent, hu8, hp23, hw20, ?_⟩
    rw [(hrate (by rw [hu8]; decide)).2.2.1, hu8, hp23, hw20]
    have e1 : (((8 : Nat) : ℚ) * ((20 : Nat) : ℚ)) = 160 := by norm_num
    have e2 : ((23 : Nat) : ℚ) / 160 = 23 / 160 := by norm_num
    rw [e1, toDouble_160, e2, toDouble_23_160, toDouble_rate_product]
    unfold toFixed2
    have ef : ⌊(8092405580431359 / 562949953421312 : ℚ) * 100 + 1 / 2⌋ = 1437 := by
      rw [Int.floor_eq_iff]
      norm_num
    rw [ef]
    norm_num


/-! ## Attendance summary -/

theorem foldl_workMinutes (l : List Presence) (a : Int) :
    l.foldl
      (fun total presence =>
        if presence.clock_in.isSome && presence.clock_out.isSome then
          total + calculateWorkDuration presence.clock_in presence.clock_out
        else total)
      a =
    a + ((l.filter (fun p => p.clock_in.isSome && p.clock_out.isSome)).map
      (fun p => calculateWorkDuration p.clock_in p.clock_out)).sum := by
  induction l generalizing a with
  | nil => simp
  | cons x xs ih =>
    rw [List.foldl_cons, ih]
    by_cases h : (x.clock_in.isSome && x.clock_out.isSome) = true
    · rw [if_pos h]
      simp only [List.filter_cons, h, if_true, List.map_cons, List.sum_cons]
      ring
    · rw [if_neg h]
      simp only [List.filter_cons, h, Bool.false_eq_true, if_false]

theorem totalWorkMinutes_eq_sum (l : List Presence) :
    totalWorkMinutes l =
      ((l.filter (fun p => p.clock_in.isSome && p.clock_out.isSome)).map
        (fun p => calculateWorkDuration p.clock_in p.clock_out)).sum := by
  unfold totalWorkMinutes
  rw [foldl_workMinutes, zero_add]

theorem totalWorkMinutes_in_progress (l1 l2 : List Presence) (p : Presence)
    (h : p.clock_out = none) :
    totalWorkMinutes (l1 ++ p :: l2) = totalWorkMinutes (l1 ++ l2) := by
  have hp : ¬ ((p.clock_in.isSome && p.clock_out.isSome) = true) := by simp [h]
  rw [totalWorkMinutes_eq_sum, totalWorkMinutes_eq_sum, List.filter_append, List.filter_append]
  simp only [List.filter_cons, hp, Bool.false_eq_true, if_false]

theorem roundTo2_near (x : ℚ) : |roundTo2 x - x| ≤ 1 / 200 := by
  unfold roundTo2
  have h1 := Int.floor_le (x * 100 + 1 / 2)
  have h2 := Int.lt_floor_add_one (x * 100 + 1 / 2)
  rw [abs_le]
  constructor
  · rw [le_sub_iff_add_le, ← sub_eq_neg_add, le_div_iff₀ (by norm_num)]
    linarith
  · rw [sub_le_iff_le_add, div_le_iff₀ (by norm_num)]
    linarith

/-- Claim C21. For every list of presence records, the total work minutes of
`getUserAttendanceSummary` are the sum of `calculateWorkDuration(clock_in, clock_out)` over
exactly the records that have both instants. A record with `clock_out` null contributes
nothing: inserting or removing it anywhere changes neither the minute total nor
`totalWorkHours`. `totalWorkHours` is the minute total divided by 60 and rounded to 2 decimal
places (a multiple of 1/100 within 0.005 of it). The function applies this summary to the
records found by its query. -/
theorem C21_summary_work_minutes (l : List Presence) :
    totalWorkMinutes l =
      ((l.filter (fun p => p.clock_in.isSome && p.clock_out.isSome)).map
        (fun p => calculateWorkDuration p.clock_in p.clock_out)).sum ∧
    (∀ (l1 l2 : List Presence) (p : Presence), p.clock_out = none →
      totalWorkMinutes (l1 ++ p :: l2) = totalWorkMinutes (l1 ++ l2) ∧
      (attendanceSummaryOf (l1 ++ p :: l2)).totalWorkHours =
        (attendanceSummaryOf (l1 ++ l2)).totalWorkHours) ∧
    (∃ n : Int, (attendanceSummaryOf l).totalWorkHours = (n : ℚ) / 100 ∧
      n = ⌊(totalWorkMinutes l : ℚ) / 60 * 100 + 1 / 2⌋) ∧
    |(attendanceSummaryOf l).totalWorkHours - (totalWorkMinutes l : ℚ) / 60| ≤ 1 / 200 ∧
    (∀ (tz : Int) (coll : List Presence) (userId : Nat) (year month : Int),
      getUserAttendanceSummary tz coll userId year month =
        attendanceSummaryOf (getUserAttendanceSummary tz coll userId year month).presences) := by
  refine ⟨totalWorkMinutes_eq_sum l, ?_, ⟨_, rfl, rfl⟩, roundTo2_near _, ?_⟩
  · intro l1 l2 p hp
    have h := totalWorkMinutes_in_progress l1 l2 p hp
    refine ⟨h, ?_⟩
    simp only [attendanceSummaryOf, h]
  · intro tz coll userId year month
    rfl

/-- Witness for C21: a finished day of 60 minutes and a day still in progress. -/
theorem C21_summary_work_minutes_witness :
    totalWorkMinutes
      ([⟨7, 0, some 0, some 3600000, ⟨0, 0⟩, ⟨some 0, some 0⟩, AttendanceStatus.ontime⟩] ++
        ⟨7, 86400000, some 86400000, none, ⟨0, 0⟩, ⟨none, none⟩, AttendanceStatus.ontime⟩ ::
          []) =
      totalWorkMinutes
        ([⟨7, 0, some 0, some 3600000, ⟨0, 0⟩, ⟨some 0, some 0⟩, AttendanceStatus.ontime⟩] ++
          []) :=
  ((C21_summary_work_minutes []).2.1 _ _ _ rfl).1

theorem toDouble_one : toDouble 1 = 1 := by
  rw [toDouble_eq 1 (-52) 4503599627370496 (by norm_num) (Or.inl (by norm_num))
    (by norm_num) (by norm_num) (by norm_num) (by norm_num)]
  norm_num

theorem toDouble_third : toDouble (1 / 3) = 6004799503160661 / 18014398509481984 := by
  rw [toDouble_eq (1 / 3) (-54) 6004799503160661 (by norm_num) (Or.inl (by norm_num))
    (by norm_num) (by norm_num) (by norm_num) (by norm_num)]
  norm_num

theorem toDouble_third_product :
    toDouble (6004799503160661 / 18014398509481984 * 100) =
      2345624805922133 / 70368744177664 := by
  rw [toDouble_eq (6004799503160661 / 18014398509481984 * 100) (-47) 4691249611844266
    (by norm_num) (Or.inl (by norm_num)) (by norm_num) (by norm_num) (by norm_num)
    (by norm_num)]
  norm_num

theorem toDouble_057 : toDouble (57 / 100) = 5134103575202365 / 9007199254740992 := by
  rw [toDouble_eq (57 / 100) (-53) 5134103575202365 (by norm_num) (Or.inl (by norm_num))
    (by norm_num) (by norm_num) (by norm_num) (by norm_num)]
  norm_num

theorem toDouble_057_half :
    toDouble (5134103575202365 / 9007199254740992 / 2) =
      5134103575202365 / 18014398509481984 := by
  rw [toDouble_eq (5134103575202365 / 9007199254740992 / 2) (-54) 5134103575202365
    (by norm_num) (Or.inl (by norm_num)) (by norm_num) (by norm_num) (by norm_num)
    (by norm_num)]
  norm_num

theorem toDouble_057_product :
    toDouble (5134103575202365 / 18014398509481984 * 100) =
      8022036836253695 / 281474976710656 := by
  rw [toDouble_eq (5134103575202365 / 18014398509481984 * 100) (-48) 8022036836253695
    (by norm_num) (Or.inl (by norm_num)) (by norm_num) (by norm_num) (by norm_num)
    (by norm_num)]
  norm_num

/-- In Number arithmetic `Math.round((1 / 3) * 100) / 100` is 0.33. -/
theorem average_one_over_three :
    roundTo2Number (toDouble (toDouble 1 / ((3 : Nat) : ℚ))) = 33 / 100 := by
  have e1 : (1 : ℚ) / ((3 : Nat) : ℚ) = 1 / 3 := by norm_num
  rw [toDouble_one, e1, toDouble_third]
  unfold roundTo2Number
  rw [toDouble_third_product]
  have ef : ⌊(2345624805922133 / 70368744177664 : ℚ) + 1 / 2⌋ = 33 := by
    rw [Int.floor_eq_iff]
    norm_num
  rw [ef]
  norm_num

/-- In Number arithmetic `Math.round((0.57 / 2) * 100) / 100` is 0.28: the product is
28.499999999999996. -/
theorem average_057_over_two :
    roundTo2Number (toDouble (toDouble (57 / 100) / ((2 : Nat) : ℚ))) = 28 / 100 := by
  have e1 : (5134103575202365 / 9007199254740992 : ℚ) / ((2 : Nat) : ℚ) =
      5134103575202365 / 9007199254740992 / 2 := by norm_num
  rw [toDouble_057, e1, toDouble_057_half]
  unfold roundTo2Number
  rw [toDouble_057_product]
  have ef : ⌊(8022036836253695 / 281474976710656 : ℚ) + 1 / 2⌋ = 28 := by
    rw [Int.floor_eq_iff]
    norm_num
  rw [ef]
  norm_num

/-- Counterexample to claim C22 as stated. Three records, one of 60 minutes and two in
progress: `totalWorkHours` is 1 and `totalDays` is 3, and `averageWorkHours` is 0.33, not
1/3. -/
theorem C22_counterexample :
    (attendanceSummaryOf
      [⟨7, 0, some 0, some 3600000, ⟨0, 0⟩, ⟨some 0, some 0⟩, AttendanceStatus.ontime⟩,
        ⟨7, 86400000, some 86400000, none, ⟨0, 0⟩, ⟨none, none⟩, AttendanceStatus.ontime⟩,
        ⟨7, 172800000, some 172800000, none, ⟨0, 0⟩, ⟨none, none⟩,
          AttendanceStatus.ontime⟩]).averageWorkHours = 33 / 100 ∧
    (attendanceSummaryOf
      [⟨7, 0, some 0, some 3600000, ⟨0, 0⟩, ⟨some 0, some 0⟩, AttendanceStatus.ontime⟩,
        ⟨7, 86400000, some 86400000, none, ⟨0, 0⟩, ⟨none, none⟩, AttendanceStatus.ontime⟩,
        ⟨7, 172800000, some 172800000, none, ⟨0, 0⟩, ⟨none, none⟩,
          AttendanceStatus.ontime⟩]).totalWorkHours = 1 ∧
    (33 / 100 : ℚ) ≠ 1 / 3 := by
  have hm : totalWorkMinutes
      [⟨7, 0, some 0, some 3600000, ⟨0, 0⟩, ⟨some 0, some 0⟩, AttendanceStatus.ontime⟩,
        ⟨7, 86400000, some 86400000, none, ⟨0, 0⟩, ⟨none, none⟩, AttendanceStatus.ontime⟩,
        ⟨7, 172800000, some 172800000, none, ⟨0, 0⟩, ⟨none, none⟩,
          AttendanceStatus.ontime⟩] = 60 := by
    simp [totalWorkMinutes, calculateWorkDuration_some]
  have hh : roundTo2 ((60 : Int) / 60) = 1 := by
    unfold roundTo2
    norm_num
  refine ⟨?_, ?_, by norm_num⟩
  · simp only [attendanceSummaryOf, hm, hh, List.length_cons, List.length_nil]
    simp only [Nat.zero_add, Nat.reduceAdd, gt_iff_lt, Nat.ofNat_pos, if_true]
    exact average_one_over_three
  · simp only [attendanceSummaryOf, hm, hh]

/-- Claim C22, amended. `averageWorkHours` is
`Math.round((totalWorkHours / totalDays) * 100) / 100` evaluated in Number arithmetic when
`totalDays > 0`: a multiple of 1/100 within 0.005 of the quotient `totalWorkHours / totalDays`,
up to the rounding of the Number operations (a relative `2 ^ -50`), and not the quotient
itself. It is 0 when `totalDays = 0`, in which case no division is evaluated; `totalDays` is
the number of records. -/
theorem C22_average_rounded (l : List Presence) :
    (attendanceSummaryOf l).totalDays = l.length ∧
    (0 < (attendanceSummaryOf l).totalDays →
      (attendanceSummaryOf l).averageWorkHours =
        roundTo2Number (toDouble (toDouble (attendanceSummaryOf l).totalWorkHours /
          ((attendanceSummaryOf l).totalDays : ℚ))) ∧
      (∃ k : Int, (attendanceSummaryOf l).averageWorkHours = (k : ℚ) / 100) ∧
      |(attendanceSummaryOf l).averageWorkHours -
          (attendanceSummaryOf l).totalWorkHours /
            ((attendanceSummaryOf l).totalDays : ℚ)| ≤
        1 / 200 +
          |(attendanceSummaryOf l).totalWorkHours /
            ((attendanceSummaryOf l).totalDays : ℚ)| / 2 ^ 50 +
          1 / 2 ^ 1000) ∧
    ((attendanceSummaryOf l).totalDays = 0 → (attendanceSummaryOf l).averageWorkHours = 0) := by
  refine ⟨rfl, ?_, ?_⟩
  · intro h
    have e : (attendanceSummaryOf l).averageWorkHours =
        roundTo2Number (toDouble (toDouble (attendanceSummaryOf l).totalWorkHours /
          ((attendanceSummaryOf l).totalDays : ℚ))) := by
      simp only [attendanceSummaryOf] at h ⊢
      rw [if_pos h]
    refine ⟨e, ⟨_, by rw [e]; rfl⟩, ?_⟩
    rw [e]
    exact averageWorkHours_near _ _ h
  · intro h
    simp only [attendanceSummaryOf] at h ⊢
    rw [if_neg (by omega)]

/-- Witness for the amended C22: one record of 34 minutes and one in progress. The total is
0.57 hours over 2 days; the Number product `(0.57 / 2) * 100` is 28.499999999999996, so the
average is 0.28, while the exact quotient 0.285 rounds to 0.29. -/
theorem C22_average_rounded_witness :
    (attendanceSummaryOf
      [⟨7, 0, some 0, some 2040000, ⟨0, 0⟩, ⟨some 0, some 0⟩, AttendanceStatus.ontime⟩,
        ⟨7, 86400000, some 86400000, none, ⟨0, 0⟩, ⟨none, none⟩,
          AttendanceStatus.ontime⟩]).totalWorkHours = 57 / 100 ∧
    (attendanceSummaryOf
      [⟨7, 0, some 0, some 2040000, ⟨0, 0⟩, ⟨some 0, some 0⟩, AttendanceStatus.ontime⟩,
        ⟨7, 86400000, some 86400000, none, ⟨0, 0⟩, ⟨none, none⟩,
          AttendanceStatus.ontime⟩]).averageWorkHours = 28 / 100 ∧
    roundTo2 ((57 / 100 : ℚ) / 2) = 29 / 100 := by
  have hm : totalWorkMinutes
      [⟨7, 0, some 0, some 2040000, ⟨0, 0⟩, ⟨some 0, some 0⟩, AttendanceStatus.ontime⟩,
        ⟨7, 86400000, some 86400000, none, ⟨0, 0⟩, ⟨none, none⟩,
          AttendanceStatus.ontime⟩] = 34 := by
    simp [totalWorkMinutes, calculateWorkDuration_some]
  have hh : roundTo2 ((34 : Int) / 60) = 57 / 100 := by
    unfold roundTo2
    have : ⌊(((34 : Int) : ℚ) / 60) * 100 + 1 / 2⌋ = 57 := by
      rw [Int.floor_eq_iff]
      norm_num
    rw [this]
    norm_num
  have ht : (attendanceSummaryOf
      [⟨7, 0, some 0, some 2040000, ⟨0, 0⟩, ⟨some 0, some 0⟩, AttendanceStatus.ontime⟩,
        ⟨7, 86400000, some 86400000, none, ⟨0, 0⟩, ⟨none, none⟩,
          AttendanceStatus.ontime⟩]).totalWorkHours = 57 / 100 := by
    simp only [attendanceSummaryOf, hm, hh]
  have hr : roundTo2 ((57 / 100 : ℚ) / 2) = 29 / 100 := by
    unfold roundTo2
    have : ⌊((57 / 100 : ℚ) / 2) * 100 + 1 / 2⌋ = 29 := by
      rw [Int.floor_eq_iff]
      norm_num
    rw [this]
    norm_num
  refine ⟨ht, ?_, hr⟩
  rw [((C22_average_rounded _).2.1 (by decide)).1, ht]
  exact average_057_over_two


/-! ## The inline status of `clockIn` and the helper -/

/-- Claim C29. When the reading `t2` from which the controller builds 08:00 falls on the same
local calendar day as the clock-in instant `t1`, the status computed inline by `clockIn`
(`t1 > 08:00:00.000 of t2 ? late : ontime`) equals `calculateAttendanceStatus t1` of the
attendance helper, the inline comparison holds exactly when `isLate t1` does, and the record
stored by `clockIn` carries `calculateAttendanceStatus t1` as its status. -/
theorem C29_inline_status_matches_helper (tz t1 t2 : Int)
    (hday : startOfDay tz t2 = startOfDay tz t1) :
    (if t1 > setHours tz t2 8 0 0 0 then AttendanceStatus.late else AttendanceStatus.ontime) =
      calculateAttendanceStatus tz t1 ∧
    (t1 > setHours tz t2 8 0 0 0 ↔ isLate tz t1 = true) ∧
    ∀ (env : Env) (db : Db) (userId : Nat) (lat lng : ℝ) (t0 : Int) (o : OfficeLocation),
      Presence.findOne db.presences userId (startOfDay tz t0)
        (startOfDay tz t0 + msPerDay) = none →
      db.officeLocations.head? = some o → o.isWithinRadius lat lng = true →
      ∃ p : Presence,
        (clockIn tz env db userId lat lng t0 t1 t2).2.presences = db.presences ++ [p] ∧
        p.clock_in = some t1 ∧ p.status = calculateAttendanceStatus tz t1 := by
  have hs := status_eq_calculateAttendanceStatus tz t1 t2 hday
  refine ⟨hs, ?_, ?_⟩
  · rw [setHours_eight, hday, ← setHours_eight]
    simp [isLate]
  · intro env db userId lat lng t0 o hf ho hw
    rcases clockIn_cases tz env db userId lat lng t0 t1 t2 with
      ⟨⟨x, hx⟩, _⟩ | ⟨_, hn, _⟩ | ⟨_, o', ho', hw', _⟩ | ⟨_, o', _, _, hp, _⟩
    · rw [hf] at hx
      cases hx
    · rw [ho] at hn
      cases hn
    · rw [ho] at ho'
      cases ho'
      rw [hw] at hw'
      cases hw'
    · exact ⟨_, hp, rfl, hs⟩

/-- Witness for C29: 08:20:00.000 and 08:20:00.001 UTC of day 0 are on one calendar day. -/
theorem C29_inline_status_matches_helper_witness :
    (if (30000000 : Int) > setHours 0 30000001 8 0 0 0 then AttendanceStatus.late
      else AttendanceStatus.ontime) = calculateAttendanceStatus 0 30000000 :=
  (C29_inline_status_matches_helper 0 30000000 30000001 (by decide)).1

/-! ## A rejecting notification sink -/

/-- Counterexample to claim C27 as stated. The notification sink rejects. A clock-in at the
office centre stores the presence record, but its outcome is the rejection, not the 201
response; a clock-out at the office centre stores `clock_out`, but its outcome is the
rejection, not the 200 response. -/
theorem C27_counterexample :
    (clockIn 0 ⟨fun _ => "08.20.00", some "sink rejected"⟩
      ⟨[], [], [⟨"Kantor", 0, 0, 100⟩]⟩ 7 0 0 30000000 30000000 30000000).1 =
      Outcome.thrown "sink rejected" ∧
    (clockIn 0 ⟨fun _ => "08.20.00", some "sink rejected"⟩
      ⟨[], [], [⟨"Kantor", 0, 0, 100⟩]⟩ 7 0 0 30000000 30000000 30000000).2.presences.length =
      1 ∧
    (clockOut 0 ⟨fun _ => "17.00.00", some "sink rejected"⟩
      ⟨[⟨7, 0, some 30000000, none, ⟨0, 0⟩, ⟨none, none⟩, AttendanceStatus.late⟩], [],
        [⟨"Kantor", 0, 0, 100⟩]⟩ 7 0 0 61200000 61200000).1 =
      Outcome.thrown "sink rejected" ∧
    (clockOut 0 ⟨fun _ => "17.00.00", some "sink rejected"⟩
      ⟨[⟨7, 0, some 30000000, none, ⟨0, 0⟩, ⟨none, none⟩, AttendanceStatus.late⟩], [],
        [⟨"Kantor", 0, 0, 100⟩]⟩ 7 0 0 61200000 61200000).2.presences =
      [⟨7, 0, some 30000000, some 61200000, ⟨0, 0⟩, ⟨some 0, some 0⟩,
        AttendanceStatus.late⟩] := by
  have hw : (OfficeLocation.mk "Kantor" 0 0 100).isWithinRadius 0 0 = true :=
    isWithinRadius_self ⟨"Kantor", 0, 0, 100⟩ (by norm_num)
  have e : setHours 0 61200000 0 0 0 0 = 0 := by decide
  refine ⟨?_, ?_, ?_, ?_⟩
  · simp [clockIn, Presence.findOne, findOneFrom, hw]
  · simp [clockIn, Presence.findOne, findOneFrom, hw]
  · simp [clockOut, Presence.findOne, findOneFrom, hw, e, msPerDay]
  · simp [clockOut, Presence.findOne, findOneFrom, hw, e, msPerDay]

/-- Claim C27, amended. For every clock-in and clock-out whose domain checks pass, when the
notification sink rejects with `err` the presence record is still created (clock-in) or
updated (clock-out) and stays stored, no notification is stored, and the handler does not send
its success response: its outcome is the rejection `err`, which is passed to the error
middleware. -/
theorem C27_sink_failure_keeps_record_not_response (tz : Int) (env : Env) (db : Db)
    (userId : Nat) (lat lng : ℝ) (t0 t1 t2 : Int) (err : String) (o : OfficeLocation)
    (herr : env.notificationError = some err)
    (ho : db.officeLocations.head? = some o) (hw : o.isWithinRadius lat lng = true) :
    (Presence.findOne db.presences userId (startOfDay tz t0)
        (startOfDay tz t0 + msPerDay) = none →
      (clockIn tz env db userId lat lng t0 t1 t2).1 = Outcome.thrown err ∧
      (clockIn tz env db userId lat lng t0 t1 t2).1.succeeded = false ∧
      (∃ p : Presence, p.user = userId ∧ p.clock_in = some t1 ∧
        (clockIn tz env db userId lat lng t0 t1 t2).2.presences = db.presences ++ [p]) ∧
      (clockIn tz env db userId lat lng t0 t1 t2).2.notifications = db.notifications) ∧
    (∀ (i : Nat) (p : Presence),
      Presence.findOne db.presences userId (startOfDay tz t0)
        (startOfDay tz t0 + msPerDay) = some (i, p) → p.clock_out = none →
      (clockOut tz env db userId lat lng t0 t1).1 = Outcome.thrown err ∧
      (clockOut tz env db userId lat lng t0 t1).1.succeeded = false ∧
      (clockOut tz env db userId lat lng t0 t1).2.presences = db.presences.set i
        { p with clock_out := some t1, location_out := ⟨some lat, some lng⟩ } ∧
      (clockOut tz env db userId lat lng t0 t1).2.notifications = db.notifications) := by
  have hdef : setHours tz t0 0 0 0 0 = startOfDay tz t0 := rfl
  constructor
  · intro hf
    simp only [clockIn, hdef, hf, ho, hw, herr]
    simp [Outcome.succeeded]
  · intro i p hf hp
    simp only [clockOut, hdef, hf, ho, hw, herr, hp]
    simp [Outcome.succeeded]

/-- Witness for the amended C27: a clock-in at the office centre while the sink rejects. -/
theorem C27_sink_failure_keeps_record_not_response_witness :
    (clockIn 0 ⟨fun _ => "08.20.00", some "sink rejected"⟩
      ⟨[], [], [⟨"Kantor", 0, 0, 100⟩]⟩ 7 0 0 30000000 30000000 30000000).1 =
      Outcome.thrown "sink rejected" :=
  ((C27_sink_failure_keeps_record_not_response 0 ⟨fun _ => "08.20.00", some "sink rejected"⟩
    ⟨[], [], [⟨"Kantor", 0, 0, 100⟩]⟩ 7 0 0 30000000 30000000 30000000 "sink rejected"
    ⟨"Kantor", 0, 0, 100⟩ rfl rfl
    (isWithinRadius_self ⟨"Kantor", 0, 0, 100⟩ (by norm_num))).1 rfl).1


/-! ## The error middleware -/

/-- Counterexample to claim C26 as stated. Two errors that are neither a CastError, nor a
duplicate-key error, nor a ValidationError, and that differ only in their internal message,
get different response bodies: each body carries the message of its error. An error with its
own `statusCode` is not answered with 500. -/
theorem C26_counterexample :
    errorHandler ⟨"MongoNetworkError", "connect ECONNREFUSED 10.0.0.5:27017", none, none, []⟩ =
      ⟨500, false, some "connect ECONNREFUSED 10.0.0.5:27017", none⟩ ∧
    errorHandler ⟨"TypeError", "Cannot read properties of undefined", none, none, []⟩ =
      ⟨500, false, some "Cannot read properties of undefined", none⟩ ∧
    (errorHandler
        ⟨"MongoNetworkError", "connect ECONNREFUSED 10.0.0.5:27017", none, none, []⟩).message ≠
      (errorHandler ⟨"TypeError", "Cannot read properties of undefined", none, none, []⟩).message ∧
    (errorHandler ⟨"Error", "upstream failed", none, some 503, []⟩).status = 503 := by
  refine ⟨?_, ?_, ?_, ?_⟩
  · simp [errorHandler]
  · simp [errorHandler]
  · simp [errorHandler]
  · simp [errorHandler]

/-- Claim C26, amended. For every error reaching `errorHandler` that is not a CastError, a
duplicate-key error (code 11000) or a Mongoose ValidationError, the response has
`success: false`, its status is the error's own `statusCode` when that is set and nonzero and
500 otherwise, and its message is the error's own message; the generic text `Server Error` is
sent only when the error's message is empty. Two such errors get the same message exactly when
their own messages agree after that fallback. -/
theorem C26_errorHandler_sends_error_message (err : JsError)
    (hcast : err.name ≠ "CastError") (hdup : err.code ≠ some 11000)
    (hval : err.name ≠ "ValidationError") :
    (errorHandler err).success = false ∧
    (errorHandler err).data = none ∧
    (errorHandler err).message =
      some (if err.message = "" then "Server Error" else err.message) ∧
    (err.message ≠ "" → (errorHandler err).message = some err.message) ∧
    (err.message = "" → (errorHandler err).message = some "Server Error") ∧
    (errorHandler err).status =
      (match err.statusCode with
        | some c => if c = 0 then 500 else c
        | none => 500) ∧
    (err.statusCode = none → (errorHandler err).status = 500) := by
  have hm : (errorHandler err).message =
      some (if err.message = "" then "Server Error" else err.message) := by
    simp only [errorHandler, if_neg hcast, if_neg hdup, if_neg hval]
  have hst : (errorHandler err).status =
      (match err.statusCode with
        | some c => if c = 0 then 500 else c
        | none => 500) := by
    simp only [errorHandler, if_neg hcast, if_neg hdup, if_neg hval]
  refine ⟨rfl, rfl, hm, ?_, ?_, hst, ?_⟩
  · intro h
    rw [hm, if_neg h]
  · intro h
    rw [hm, if_pos h]
  · intro h
    rw [hst, h]

/-- Witness for the amended C26: a connection error reaches the client with its message. -/
theorem C26_errorHandler_sends_error_message_witness :
    (errorHandler
      ⟨"MongoNetworkError", "connect ECONNREFUSED 10.0.0.5:27017", none, none, []⟩).message =
      some "connect ECONNREFUSED 10.0.0.5:27017" :=
  (C26_errorHandler_sends_error_message
    ⟨"MongoNetworkError", "connect ECONNREFUSED 10.0.0.5:27017", none, none, []⟩
    (by decide) (by decide) (by decide)).2.2.2.1 (by decide)

/-! ## Pagination -/

theorem ceil_div_eq (total limit : Int) (hl : 1 ≤ limit) :
    ⌈(total : ℚ) / (limit : ℚ)⌉ = (total + limit - 1) / limit := by
  have hpos : (0 : ℚ) < (limit : ℚ) := by exact_mod_cast (by omega : (0 : Int) < limit)
  have h1 : (total + limit - 1) / limit * limit ≤ total + limit - 1 :=
    Int.ediv_mul_le _ (by omega)
  have h2 : total + limit - 1 < ((total + limit - 1) / limit + 1) * limit :=
    Int.lt_ediv_add_one_mul_self _ (by omega)
  rw [Int.ceil_eq_iff]
  constructor
  · rw [lt_div_iff₀ hpos]
    have : ((total + limit - 1) / limit - 1) * limit < total := by
      have e : ((total + limit - 1) / limit - 1) * limit =
          (total + limit - 1) / limit * limit - limit := by ring
      omega
    exact_mod_cast this
  · rw [div_le_iff₀ hpos]
    have : total ≤ (total + limit - 1) / limit * limit := by
      have e : ((total + limit - 1) / limit + 1) * limit =
          (total + limit - 1) / limit * limit + limit := by ring
      omega
    exact_mod_cast this

/-- Claim C28. For every data array, whole-number `page`, `limit >= 1` and `total >= 0`,
`sendPaginatedResponse` answers with status 200 and a success body whose pagination has
`totalPages = ceil(total / limit)` (the least `n >= 0` with `total <= n * limit`),
`totalItems = total`, `currentPage = page`, `itemsPerPage = limit`, `hasNextPage` true exactly
when `page < totalPages` and `hasPrevPage` true exactly when `page > 1`. -/
theorem C28_sendPaginatedResponse_pagination {α : Type} (data : List α)
    (page limit total : Int) (message : Option String) (hl : 1 ≤ limit) (ht : 0 ≤ total) :
    (sendPaginatedResponse data page limit total message).status = 200 ∧
    (sendPaginatedResponse data page limit total message).success = true ∧
    (sendPaginatedResponse data page limit total message).data = data ∧
    (sendPaginatedResponse data page limit total message).pagination.totalPages =
      ⌈(total : ℚ) / (limit : ℚ)⌉ ∧
    (sendPaginatedResponse data page limit total message).pagination.totalPages =
      (total + limit - 1) / limit ∧
    0 ≤ (sendPaginatedResponse data page limit total message).pagination.totalPages ∧
    total ≤ (sendPaginatedResponse data page limit total message).pagination.totalPages *
      limit ∧
    ((sendPaginatedResponse data page limit total message).pagination.totalPages - 1) * limit <
      total ∧
    (sendPaginatedResponse data page limit total message).pagination.totalItems = total ∧
    (sendPaginatedResponse data page limit total message).pagination.currentPage = page ∧
    (sendPaginatedResponse data page limit total message).pagination.itemsPerPage = limit ∧
    ((sendPaginatedResponse data page limit total message).pagination.hasNextPage = true ↔
      page < (sendPaginatedResponse data page limit total message).pagination.totalPages) ∧
    ((sendPaginatedResponse data page limit total message).pagination.hasPrevPage = true ↔
      page > 1) ∧
    (sendPaginatedResponse data page limit total none).message =
      "Data retrieved successfully" := by
  have hc := ceil_div_eq total limit hl
  have h1 : (total + limit - 1) / limit * limit ≤ total + limit - 1 :=
    Int.ediv_mul_le _ (by omega)
  have h2 : total + limit - 1 < ((total + limit - 1) / limit + 1) * limit :=
    Int.lt_ediv_add_one_mul_self _ (by omega)
  have e1 : ((total + limit - 1) / limit - 1) * limit =
      (total + limit - 1) / limit * limit - limit := by ring
  have e2 : ((total + limit - 1) / limit + 1) * limit =
      (total + limit - 1) / limit * limit + limit := by ring
  have h0 : 0 ≤ (total + limit - 1) / limit := Int.ediv_nonneg (by omega) (by omega)
  simp only [sendPaginatedResponse, hc, decide_eq_true_eq]
  refine ⟨trivial, trivial, trivial, trivial, trivial, h0, by omega, by omega, trivial, trivial,
    trivial, trivial, trivial, trivial⟩

/-- Witness for C28: data [1, 2, 3], page 1, limit 10, total 3 gives one page and both flags
false. -/
theorem C28_sendPaginatedResponse_pagination_witness :
    (sendPaginatedResponse [1, 2, 3] 1 10 3 none).pagination.totalPages = 1 ∧
    ¬ (sendPaginatedResponse [1, 2, 3] 1 10 3 none).pagination.hasNextPage = true ∧
    ¬ (sendPaginatedResponse [1, 2, 3] 1 10 3 none).pagination.hasPrevPage = true := by
  obtain ⟨_, _, _, _, htp, _, _, _, _, _, _, hn, hpv, _⟩ :=
    C28_sendPaginatedResponse_pagination [1, 2, 3] 1 10 3 none (by decide) (by decide)
  have h1 : (sendPaginatedResponse [1, 2, 3] 1 10 3 none).pagination.totalPages = 1 := by
    rw [htp]
    decide
  refine ⟨h1, ?_, ?_⟩
  · rw [hn, h1]
    decide
  · rw [hpv]
    decide


/-! ## The response envelope -/

/-- Counterexample to claim C25 as stated. The success body of `getTodayPresence` has
`success` and `data` and no `message` field, and it is one of the `res.json` calls of the
presence controller. -/
theorem C25_counterexample :
    (getTodayPresence 0 ⟨[], [], []⟩ 7 0).success = true ∧
    (getTodayPresence 0 ⟨[], [], []⟩ 7 0).status = 200 ∧
    (getTodayPresence 0 ⟨[], [], []⟩ 7 0).message = none ∧
    (getTodayPresence 0 ⟨[], [], []⟩ 7 0).data.isSome = true ∧
    (⟨"presence", "getTodayPresence", 280, 200, true, false, true⟩ : JsonSite) ∈ jsonSites :=
  ⟨rfl, rfl, rfl, rfl, by decide⟩

/-- Claim C25, amended. Every JSON body produced by the presence, auth, admin, notification
and office-location handlers has a boolean `success` field. Every failure body has a string
`message`, no `data`, and a status of 400 or more. Every success body has status 200 or 201
and has `message` or `data`. The `message` field is absent exactly from the success bodies of
the read handlers (`getPresenceHistory`, `getTodayPresence`, `getMe`, `getAllUsers`,
`getUserById`, `getAllPresence`, `getAttendanceStats`, `getNotifications`,
`getNotificationStats`, `getOfficeLocations`, `getOfficeLocationById`, `validateLocation`),
which carry `data` instead; `getTodayPresence` answers so for every request. -/
theorem C25_envelope_shape :
    (∀ s ∈ jsonSites, s.success = false →
      s.hasMessage = true ∧ s.hasData = false ∧ 400 ≤ s.status) ∧
    (∀ s ∈ jsonSites, s.success = true →
      (s.status = 200 ∨ s.status = 201) ∧ (s.hasMessage = true ∨ s.hasData = true)) ∧
    (∀ s ∈ jsonSites, s.hasMessage = false ↔
      (s.success = true ∧ s.hasData = true ∧ s.handler ∈ readHandlers)) ∧
    (∀ (tz : Int) (db : Db) (userId : Nat) (now : Int),
      (getTodayPresence tz db userId now).success = true ∧
      (getTodayPresence tz db userId now).message = none ∧
      (getTodayPresence tz db userId now).data.isSome = true) := by
  refine ⟨by decide, by decide, by decide, fun _ _ _ _ => ⟨rfl, rfl, rfl⟩⟩

/-- Witness for the amended C25: the failure body of `clockIn` at line 28 has a message. -/
theorem C25_envelope_shape_witness :
    (⟨"presence", "clockIn", 28, 400, false, true, false⟩ : JsonSite).hasMessage = true :=
  (C25_envelope_shape.1 ⟨"presence", "clockIn", 28, 400, false, true, false⟩ (by decide) rfl).1


end Absen
